import Mathlib

/-!
# Witty Pi 5 firmware: power lifecycle engine

A shallow embedding of the parts of `src/power.c`, `src/rtc.c`, `src/util.h`,
`src/conf.c` and `src/script.c` that the power state machine, the time
arithmetic, the DST engine and the schedule script compiler are made of,
followed by theorems about them.

Conventions of the embedding

* C integers are `Int`; a value stored into a narrower C type goes through
  `int8`, `int16`, `int32` or `uint8`, `uint16` (two's complement wrap).
* C `/` and `%` on signed integers truncate toward zero: `cdiv`, `cmod`.
* Globals of the firmware are fields of a state record that every
  operation takes and returns.
* A loop without a bound that is plain from its text takes a fuel argument
  and yields `none` when the fuel is used up before the loop ends.
-/

namespace WittyPi

/-! ## Machine integers -/

/-- C signed division, truncating toward zero. -/
def cdiv (a b : Int) : Int := Int.tdiv a b

/-- C signed remainder, with the sign of the dividend. -/
def cmod (a b : Int) : Int := Int.tmod a b

/-- Conversion to `int8_t`. -/
def int8 (x : Int) : Int := (x + 128) % 256 - 128

/-- Conversion to `int16_t`. -/
def int16 (x : Int) : Int := (x + 32768) % 65536 - 32768

/-- Conversion to `int` (32 bit). -/
def int32 (x : Int) : Int := (x + 2147483648) % 4294967296 - 2147483648

/-- Conversion to `int64_t`. -/
def int64 (x : Int) : Int :=
  (x + 9223372036854775808) % 18446744073709551616 - 9223372036854775808

/-- Conversion to `uint64_t`. -/
def uint64 (x : Int) : Int := x % 18446744073709551616

/-- Conversion to `uint8_t`. -/
def uint8 (x : Int) : Int := x % 256

/-- Conversion to `uint16_t`. -/
def uint16 (x : Int) : Int := x % 65536

/-! ## util.h -/

/-- `bcd_to_dec` of util.h: `((bcd >> 4) * 10) + (bcd & 0x0F)` on a byte. -/
def bcd_to_dec (bcd : Int) : Int := uint8 ((bcd / 16) * 10 + bcd % 16)

/-- `dec_to_bcd` of util.h: `((dec / 10) << 4) | (dec % 10)` on a byte; the
low nibble of the shifted quotient is zero, so the bitwise or is a sum. -/
def dec_to_bcd (dec : Int) : Int := uint8 ((dec / 10) * 16 + dec % 10)

/-! ## rtc.h / rtc.c: time arithmetic -/

/-- The `DateTime` struct of rtc.h. -/
structure DateTime where
  year : Int
  month : Int
  day : Int
  hour : Int
  min : Int
  sec : Int
  wday : Int
deriving DecidableEq, Repr

/-- `is_leap_year` of rtc.c. -/
def is_leap_year (year : Int) : Bool :=
  (cmod year 4 == 0 && cmod year 100 != 0) || cmod year 400 == 0

/-- The table `days_in_month` of rtc.c; it has 13 entries, and a read outside
them (undefined in C) is 0 here. -/
def days_in_month (month : Int) : Int :=
  if month < 0 then 0 else [0, 31, 28, 31, 30, 31, 30, 31, 31, 30, 31, 30, 31].getD month.toNat 0

/-- `get_days_in_month` of rtc.c. -/
def get_days_in_month (year month : Int) : Int :=
  if month = 2 ∧ is_leap_year year = true then 29 else days_in_month month

/-- Seconds in a year, the summand of the first loop of `get_total_seconds`. -/
def seconds_in_year (year : Int) : Int :=
  (if is_leap_year year then 366 else 365) * 86400

/-- First loop of `get_total_seconds`: the seconds of the years
`2000, ..., 2000 + n - 1`. -/
def sum_years : Nat → Int
  | 0 => 0
  | n + 1 => sum_years n + seconds_in_year (2000 + n)

/-- Second loop of `get_total_seconds`: the seconds of the months
`1, ..., n` of `year`. -/
def sum_months (year : Int) : Nat → Int
  | 0 => 0
  | n + 1 => sum_months year n + get_days_in_month year (n + 1) * 86400

/-- `get_total_seconds` of rtc.c: the loop `for (y = 2000; y < dt->year; y++)`
runs `dt->year - 2000` times (not at all when that is negative), the loop
`for (m = 1; m < dt->month; m++)` runs `dt->month - 1` times. -/
def get_total_seconds (dt : DateTime) : Int :=
  sum_years (dt.year - 2000).toNat + sum_months dt.year (dt.month - 1).toNat
    + ((dt.day - 1) * 86400 + dt.hour * 3600 + dt.min * 60 + dt.sec)

/-- The year loop of `timestamp_to_datetime`: returns the year and the
seconds remaining. Every round takes at least 365 days off, so the loop ends
within `seconds_remaining / (365 * 86400) + 1` rounds, which is the fuel
`timestamp_to_datetime` gives it. -/
def year_loop : Nat → Int → Int → Int × Int
  | 0, year, seconds_remaining => (year, seconds_remaining)
  | fuel + 1, year, seconds_remaining =>
    if seconds_remaining < seconds_in_year year then (year, seconds_remaining)
    else year_loop fuel (int16 (year + 1)) (seconds_remaining - seconds_in_year year)

/-- The month loop of `timestamp_to_datetime`: returns the month and the
seconds remaining. -/
def month_loop : Nat → Int → Int → Int → Int × Int
  | 0, _, month, seconds_remaining => (month, seconds_remaining)
  | fuel + 1, year, month, seconds_remaining =>
    if seconds_remaining < get_days_in_month year month * 86400 then (month, seconds_remaining)
    else month_loop fuel year (int8 (month + 1))
      (seconds_remaining - get_days_in_month year month * 86400)

/-- Zeller's congruence as written at the end of `timestamp_to_datetime`. -/
def zeller_wday (year month day : Int) : Int :=
  let m := if month < 3 then month + 12 else month
  let y := if month < 3 then year - 1 else year
  let k := cmod y 100
  let j := cdiv y 100
  let h := cmod (day + cdiv (13 * (m + 1)) 5 + k + cdiv k 4 + cdiv j 4 + 5 * j) 7
  cmod (h + 6) 7

/-- `timestamp_to_datetime` of rtc.c. After the year loop fewer than 366 days
remain, so the month loop ends within 12 rounds. -/
def timestamp_to_datetime (timestamp : Int) : DateTime :=
  let yl := year_loop ((timestamp / (365 * 86400)).toNat + 1) 2000 timestamp
  let ml := month_loop 12 yl.1 1 yl.2
  let day := int8 (1 + int32 (cdiv ml.2 86400))
  let sr1 := cmod ml.2 86400
  let hour := int8 (int32 (cdiv sr1 3600))
  let sr2 := cmod sr1 3600
  let min := int8 (int32 (cdiv sr2 60))
  let sec := int8 (int32 (cmod sr2 60))
  { year := yl.1, month := ml.1, day := day, hour := hour, min := min, sec := sec,
    wday := int8 (zeller_wday yl.1 ml.1 day) }

/-- A calendar-valid `DateTime` within 2000..2099 (the weekday is not
constrained). -/
def DateTime.valid (dt : DateTime) : Prop :=
  2000 ≤ dt.year ∧ dt.year ≤ 2099 ∧ 1 ≤ dt.month ∧ dt.month ≤ 12 ∧
  1 ≤ dt.day ∧ dt.day ≤ get_days_in_month dt.year dt.month ∧
  0 ≤ dt.hour ∧ dt.hour ≤ 23 ∧ 0 ≤ dt.min ∧ dt.min ≤ 59 ∧ 0 ≤ dt.sec ∧ dt.sec ≤ 59

instance (dt : DateTime) : Decidable dt.valid := by
  unfold DateTime.valid; infer_instance

/-- Lexicographic order on `(year, month, day, hour, min, sec)`. -/
def DateTime.lexLt (a b : DateTime) : Prop :=
  a.year < b.year ∨ (a.year = b.year ∧ (a.month < b.month ∨ (a.month = b.month ∧
  (a.day < b.day ∨ (a.day = b.day ∧ (a.hour < b.hour ∨ (a.hour = b.hour ∧
  (a.min < b.min ∨ (a.min = b.min ∧ a.sec < b.sec)))))))))

instance (a b : DateTime) : Decidable (a.lexLt b) := by
  unfold DateTime.lexLt; infer_instance

/-! ## conf.h / conf.c: the configuration store -/

/-- The keys of conf.h. -/
inductive ConfKey
  | ADDRESS | DEFAULT_ON_DELAY | POWER_CUT_DELAY | PULSE_INTERVAL | BLINK_LED | DUMMY_LOAD
  | LOW_VOLTAGE | RECOVERY_VOLTAGE | PS_PRIORITY | ADJ_VUSB | ADJ_VIN | ADJ_VOUT | ADJ_IOUT
  | WATCHDOG | LOG_TO_FILE | BOOTSEL_FTY_RST
  | ALARM1_SECOND | ALARM1_MINUTE | ALARM1_HOUR | ALARM1_DAY
  | ALARM2_SECOND | ALARM2_MINUTE | ALARM2_HOUR | ALARM2_DAY
  | BELOW_TEMP_ACTION | BELOW_TEMP_POINT | OVER_TEMP_ACTION | OVER_TEMP_POINT
  | DST_OFFSET | DST_BEGIN_MON | DST_BEGIN_DAY | DST_BEGIN_HOUR | DST_BEGIN_MIN
  | DST_END_MON | DST_END_DAY | DST_END_HOUR | DST_END_MIN | DST_APPLIED
  | SYS_CLOCK_MHZ
deriving DecidableEq, Repr

/-- The part of the firmware state outside power.c that the operations below
read or write: the configuration items in RAM (`config` of conf.c; `conf_init`
makes every key of the default configuration present, so the store is a total
map from keys to bytes), the registers of the RX8025 real-time clock, and
`alarm_type` of rtc.c. -/
structure Env where
  conf : ConfKey → Int
  reg_seconds : Int
  reg_minutes : Int
  reg_hours : Int
  reg_weekday : Int
  reg_day : Int
  reg_month : Int
  reg_year : Int
  reg_alarm_minutes : Int
  reg_alarm_hours : Int
  reg_alarm_daydate : Int
  alarm_type : Int

/-- `conf_get` of conf.c; items are `uint8_t`. -/
def conf_get (e : Env) (key : ConfKey) : Int := uint8 (e.conf key)

/-- `conf_set` of conf.c for a key without a change callback (callbacks are
registered on the alarm and temperature keys only). -/
def conf_set (e : Env) (key : ConfKey) (value : Int) : Env :=
  { e with conf := fun k => if k = key then uint8 value else e.conf k }

/-- `conf_sync` of conf.c: writes the RAM configuration to its file. The
file is taken not to have been edited on disk since the last synchronisation,
so nothing is merged back and the RAM configuration is unchanged. -/
def conf_sync (e : Env) : Env := e

/-! ## rtc.c: the real-time clock -/

def ALARM_TYPE_NONE : Int := 0
def ALARM_TYPE_STARTUP : Int := 1
def ALARM_TYPE_SHUTDOWN : Int := 2

/-- Alarm enable mask `AE_MASK`. -/
def AE_MASK : Int := 0x80

/-- `is_pow_2` of rtc.c on a byte: `n != 0 && (n & (n - 1)) == 0`. -/
def is_pow_2 (n : Int) : Bool :=
  if n = 0 then false else (n.toNat &&& (n.toNat - 1)) == 0

/-- `get_weekday` of rtc.c. -/
def get_weekday (wbits : Int) : Int :=
  if wbits = 0x01 then 0 else if wbits = 0x02 then 1 else if wbits = 0x04 then 2
  else if wbits = 0x08 then 3 else if wbits = 0x10 then 4 else if wbits = 0x20 then 5
  else if wbits = 0x40 then 6 else -1

/-- `rtc_get_time` of rtc.c: the seven time registers are read from the
clock, decoded from BCD into bytes, checked, and stored into the `DateTime`
fields (the year as `int16_t`, the others as `int8_t`). -/
def rtc_get_time (e : Env) : DateTime × Bool :=
  let seconds := bcd_to_dec (uint8 e.reg_seconds)
  let minutes := bcd_to_dec (uint8 e.reg_minutes)
  let hours := bcd_to_dec (uint8 e.reg_hours)
  let weekday := uint8 e.reg_weekday
  let day := bcd_to_dec (uint8 e.reg_day)
  let month := bcd_to_dec (uint8 e.reg_month)
  let year := bcd_to_dec (uint8 e.reg_year)
  let valid : Bool :=
    decide (seconds < 60) && decide (minutes < 60) && decide (hours < 24)
    && is_pow_2 weekday && decide (weekday ≤ 0x40)
    && decide (day > 0) && decide (day ≤ 31)
    && decide (month > 0) && decide (month ≤ 12)
    && decide (year < 100)
  ({ year := int16 (year + 2000), month := int8 month, day := int8 day, hour := int8 hours,
     min := int8 minutes, sec := int8 seconds, wday := get_weekday weekday }, valid)

/-- `rtc_get_timestamp` of rtc.c: the timestamp and the validity flag. -/
def rtc_get_timestamp (e : Env) : Int × Bool :=
  let r := rtc_get_time e
  (get_total_seconds r.1, r.2)

/-- `rtc_set_time` of rtc.c, the write to the clock succeeding. `BIT_VALUE`
is `1 << bit`; the re-synchronisation of the powman timer is outside the
model. -/
def rtc_set_time (e : Env) (dt : DateTime) : Env :=
  { e with
    reg_year := dec_to_bcd (uint8 (dt.year - 2000))
    reg_month := dec_to_bcd (uint8 dt.month)
    reg_day := dec_to_bcd (uint8 dt.day)
    reg_hours := dec_to_bcd (uint8 dt.hour)
    reg_minutes := dec_to_bcd (uint8 dt.min)
    reg_seconds := dec_to_bcd (uint8 dt.sec)
    reg_weekday := uint8 (2 ^ (dec_to_bcd (uint8 dt.wday)).toNat) }

/-- `rtc_set_timestamp` of rtc.c. -/
def rtc_set_timestamp (e : Env) (timestamp : Int) : Env :=
  rtc_set_time e (timestamp_to_datetime timestamp)

/-- `rtc_set_alarm` of rtc.c; `day`, `hour`, `min` are `int8_t`. -/
def rtc_set_alarm (e : Env) (day hour min : Int) (startup : Bool) : Env :=
  let e1 := { e with
    reg_alarm_daydate := if day ≥ 0 then dec_to_bcd (uint8 day) else AE_MASK
    reg_alarm_hours := if hour ≥ 0 then dec_to_bcd (uint8 hour) else AE_MASK
    reg_alarm_minutes := if min ≥ 0 then dec_to_bcd (uint8 min) else AE_MASK }
  if day ≠ 0 ∨ hour ≠ 0 ∨ min ≠ 0 then
    { e1 with alarm_type := if startup then ALARM_TYPE_STARTUP else ALARM_TYPE_SHUTDOWN }
  else if (e1.alarm_type = ALARM_TYPE_STARTUP ∧ startup = true)
      ∨ (e1.alarm_type = ALARM_TYPE_SHUTDOWN ∧ startup = false) then
    { e1 with alarm_type := ALARM_TYPE_NONE }
  else e1

/-- `rtc_get_scheduled_time` of rtc.c; the arguments are `int8_t`, and
`x & 0x7F` keeps the low seven bits. -/
def rtc_get_scheduled_time (e : Env) (day hour min sec : Int) : DateTime :=
  let day := day % 128
  let hour := hour % 128
  let min := min % 128
  let sec := sec % 128
  let dt := (rtc_get_time e).1
  let dt :=
    if dt.day < day then
      let month := int8 (dt.month + 1)
      if month > 12 then { dt with month := 1, year := int16 (dt.year + 1) }
      else { dt with month := month }
    else dt
  { dt with day := day, hour := hour, min := min, sec := sec }

/-- `convert_date` of rtc.c: the given weekday of the given week of a month
(`week` 0 is the last one); `none` is the return value `false`. The
parameters are `int16_t year` and `uint8_t` for the others. -/
def convert_date (year month week wday hour min : Int) : Option DateTime :=
  if month < 1 ∨ month > 12 ∨ week > 5 ∨ year < 2000 ∨ year > 2099 ∨ hour > 23 ∨ min > 59 then
    none
  else
    let m := if month < 3 then month + 12 else month
    let y := if month < 3 then year - 1 else year
    let K := cmod y 100
    let J := cdiv y 100
    let h := cmod (1 + cdiv (13 * (m + 1)) 5 + K + cdiv K 4 + cdiv J 4 + 5 * J) 7
    let first_day_of_month := cmod (h + 6) 7
    let target_day := 1 + cmod (wday + 7 - first_day_of_month) 7
    let days := get_days_in_month year month
    if week = 0 then
      let last_day := days
      let last_day_wday := cmod (first_day_of_month + days - 1) 7
      let target_day := last_day - cmod (last_day_wday - wday + 7) 7
      some { year := year, month := int8 month, day := int8 target_day, hour := int8 hour,
             min := int8 min, sec := 0, wday := int8 wday }
    else
      let target_day := target_day + (week - 1) * 7
      if target_day > days then none
      else
        some { year := year, month := int8 month, day := int8 target_day, hour := int8 hour,
               min := int8 min, sec := 0, wday := int8 wday }

/-- What `load_dst_configuration` hands back: its return value `cur_ts`
(-1 when something goes wrong) and its four out parameters. -/
structure DstConfiguration where
  cur_ts : Int
  offset : Int
  begin_ts : Int
  end_ts : Int
  north_hemisphere : Bool
deriving DecidableEq, Repr

/-- The result of `load_dst_configuration` when it returns -1; its callers
do not read the out parameters then. -/
def dst_configuration_failed : DstConfiguration :=
  { cur_ts := -1, offset := 0, begin_ts := 0, end_ts := 0, north_hemisphere := false }

/-- `load_dst_configuration` of rtc.c (the four pointers are never null at
its call sites). In mode 1 the weekday of `begin_dt` and `end_dt` is left
unset by the source and not read; it is 0 here. -/
def load_dst_configuration (e : Env) : DstConfiguration :=
  let cur := rtc_get_time e
  if cur.2 then
    let cur_dt := cur.1
    let cur_ts := get_total_seconds cur_dt
    let raw := conf_get e ConfKey.DST_OFFSET
    let mode := raw / 128
    let offset := raw % 128
    let begin_month := bcd_to_dec (conf_get e ConfKey.DST_BEGIN_MON)
    let begin_day := bcd_to_dec (conf_get e ConfKey.DST_BEGIN_DAY)
    let begin_hour := bcd_to_dec (conf_get e ConfKey.DST_BEGIN_HOUR)
    let begin_min := bcd_to_dec (conf_get e ConfKey.DST_BEGIN_MIN)
    let end_month := bcd_to_dec (conf_get e ConfKey.DST_END_MON)
    let end_day := bcd_to_dec (conf_get e ConfKey.DST_END_DAY)
    let end_hour := bcd_to_dec (conf_get e ConfKey.DST_END_HOUR)
    let end_min := bcd_to_dec (conf_get e ConfKey.DST_END_MIN)
    if mode = 0 then
      match convert_date cur_dt.year begin_month (begin_day / 10) (begin_day % 10)
          begin_hour begin_min with
      | none => dst_configuration_failed
      | some begin_dt =>
        match convert_date cur_dt.year end_month (end_day / 10) (end_day % 10)
            end_hour end_min with
        | none => dst_configuration_failed
        | some end_dt =>
          { cur_ts := cur_ts, offset := offset, begin_ts := get_total_seconds begin_dt,
            end_ts := get_total_seconds end_dt,
            north_hemisphere := decide (end_month > begin_month) }
    else
      let begin_dt : DateTime :=
        { year := cur_dt.year, month := int8 begin_month, day := int8 begin_day,
          hour := int8 begin_hour, min := int8 begin_min, sec := 0, wday := 0 }
      let end_dt : DateTime :=
        { year := cur_dt.year, month := int8 end_month, day := int8 end_day,
          hour := int8 end_hour, min := int8 end_min, sec := 0, wday := 0 }
      { cur_ts := cur_ts, offset := offset, begin_ts := get_total_seconds begin_dt,
        end_ts := get_total_seconds end_dt,
        north_hemisphere := decide (end_month > begin_month) }
  else dst_configuration_failed

/-- `apply_dst_if_needed` of rtc.c: the new state and the return value. -/
def apply_dst_if_needed (e : Env) : Env × Bool :=
  let c := load_dst_configuration e
  if c.cur_ts ≠ -1 ∧ c.offset ≠ 0 then
    let dst_applied : Bool := decide (conf_get e ConfKey.DST_APPLIED > 0)
    let dst_required : Bool :=
      if c.north_hemisphere then decide (c.cur_ts ≥ c.begin_ts) && decide (c.cur_ts < c.end_ts)
      else decide (c.cur_ts < c.end_ts) || decide (c.cur_ts ≥ c.begin_ts)
    if dst_required then
      if !dst_applied then
        (conf_sync (conf_set (rtc_set_timestamp e (c.cur_ts + c.offset)) ConfKey.DST_APPLIED 1),
          true)
      else (e, false)
    else
      if dst_applied then
        (conf_sync (conf_set (rtc_set_timestamp e (c.cur_ts - c.offset)) ConfKey.DST_APPLIED 0),
          true)
      else (e, false)
  else (e, false)

/-- `adjust_action_time_for_dst` of rtc.c: the new value of `*p_action_ts`
and the return value. The parameter points to a `uint64_t`, so the
comparisons and the additions are unsigned 64-bit ones. -/
def adjust_action_time_for_dst (e : Env) (action_ts : Int) : Int × Bool :=
  let c := load_dst_configuration e
  if c.cur_ts ≠ -1 ∧ c.offset ≠ 0 ∧ uint64 c.cur_ts < action_ts then
    let dst_applied : Bool := decide (conf_get e ConfKey.DST_APPLIED > 0)
    let dst_required : Bool :=
      if c.north_hemisphere then
        decide (action_ts ≥ uint64 c.begin_ts) && decide (action_ts < uint64 c.end_ts)
      else decide (action_ts < uint64 c.end_ts) || decide (action_ts ≥ uint64 c.begin_ts)
    if dst_required then
      if !dst_applied then (uint64 (action_ts + c.offset), true) else (action_ts, false)
    else
      if dst_applied then (uint64 (action_ts - c.offset), true) else (action_ts, false)
  else (action_ts, false)

/-- `load_and_schedule_alarm` of rtc.c. The `uint8_t` values decoded from
the configuration are passed on as `int8_t`; `scheduled_ts` is an `int64_t`
whose address is given to `adjust_action_time_for_dst`. -/
def load_and_schedule_alarm (e : Env) (startup : Bool) : Env :=
  let cur := rtc_get_timestamp e
  if cur.2 then
    let sec := bcd_to_dec (conf_get e (if startup then ConfKey.ALARM1_SECOND else ConfKey.ALARM2_SECOND))
    let min := bcd_to_dec (conf_get e (if startup then ConfKey.ALARM1_MINUTE else ConfKey.ALARM2_MINUTE))
    let hour := bcd_to_dec (conf_get e (if startup then ConfKey.ALARM1_HOUR else ConfKey.ALARM2_HOUR))
    let day := bcd_to_dec (conf_get e (if startup then ConfKey.ALARM1_DAY else ConfKey.ALARM2_DAY))
    let dt := rtc_get_scheduled_time e (int8 day) (int8 hour) (int8 min) (int8 sec)
    let scheduled_ts := get_total_seconds dt
    if cur.1 < scheduled_ts then
      let r := adjust_action_time_for_dst e (uint64 scheduled_ts)
      if r.2 then
        let dt := timestamp_to_datetime (int64 r.1)
        rtc_set_alarm e dt.day dt.hour dt.min startup
      else rtc_set_alarm e (int8 day) (int8 hour) (int8 min) startup
    else e
  else e

/-! ## main.h, i2c.h, power.h, ts.h: constants -/

def STATE_OFF : Int := 0
def STATE_STARTING : Int := 1
def STATE_ON : Int := 2
def STATE_STOPPING : Int := 3

def POWER_SOURCE_PRIORITY_VUSB : Int := 0
def POWER_SOURCE_PRIORITY_VIN : Int := 1

def PI_NOT_POWERED : Int := 0
def POWERED_BY_VUSB_NO_ACTION : Int := 1
def POWERED_BY_VIN_NO_ACTION : Int := 2
def POWER_LOW_PENDING : Int := 3
def POWER_LOW_SHUTDOWN : Int := 4
def POWER_RECOVER_STARTUP : Int := 5

def POWER_MODE_NONE : Int := 255
def POWER_MODE_VUSB : Int := 0
def POWER_MODE_VIN : Int := 1

def MIN_VUSB_MV : Int := 4750
def MIN_VIN_MV : Int := 5000
def MAX_POWER_LOW_COUNTER : Int := 0
def HEARTBEAT_CHECK_INTERVAL_US : Int := 60000000

def ACTION_REASON_UNKNOWN : Int := 0
def ACTION_REASON_ALARM1 : Int := 1
def ACTION_REASON_ALARM2 : Int := 2
def ACTION_REASON_BUTTON_CLICK : Int := 3
def ACTION_REASON_VIN_DROP : Int := 4
def ACTION_REASON_VIN_RECOVER : Int := 5
def ACTION_REASON_OVER_TEMPERATURE : Int := 6
def ACTION_REASON_BELOW_TEMPERATURE : Int := 7
def ACTION_REASON_POWER_CONNECTED : Int := 8
def ACTION_REASON_REBOOT : Int := 9
def ACTION_REASON_MISSED_HEARTBEAT : Int := 10
def ACTION_REASON_EXTERNAL_SHUTDOWN : Int := 11
def ACTION_REASON_EXTERNAL_REBOOT : Int := 12

def ADMIN_TURN_RPI_OFF : Int := 1

def TEMP_ACTION_NONE : Int := 0
def TEMP_ACTION_STARTUP : Int := 1
def TEMP_ACTION_SHUTDOWN : Int := 2

/-! ## power.c: state -/

/-- The callbacks power.c hands to `add_alarm_in_us`. -/
inductive AlarmCallback
  | system_up_timeout_callback
  | heartbeat_missed_callback
  | rpi_off_intermittent_task_callback
  | power_off_callback
deriving DecidableEq, Repr

/-- The values `power_cut_callback` takes besides `NULL`. -/
inductive PowerCutCallback
  | restart_after_power_cut
deriving DecidableEq, Repr

/-- A call of one of the two request entry points, with its arguments. -/
inductive Call
  | request_startup (reason : Int)
  | request_shutdown (restart : Bool) (reason : Int)
deriving DecidableEq, Repr

/-- The globals of power.c, the hardware they drive or read, the alarm pool
of the SDK, and two logs kept for the statements only.

* `gpio_*` are the levels of the output pins (what `gpio_get` reads back is
  what `gpio_put` wrote last); `admin_shutdown` is the shutdown request
  register written by `request_rpi_shutdown`.
* `vusb_mv`, `vin_mv` are what the ADC reads now and `tmp112_temp_msb`,
  `tmp112_temp_lsb` the temperature register of the sensor: inputs.
* `alarms` are the pending alarms of the SDK's pool, each with the id that
  `add_alarm_in_us` returned for it; `next_alarm_id` is the next id.
* `edges` logs every assignment to `current_rpi_state` as (old, new), and
  `calls` every entry into `request_startup` / `request_shutdown`. -/
structure Power where
  power_low_counter : Int
  current_rpi_state : Int
  heartbeat_missed_alarm_id : Int
  heartbeat_missing_count : Int
  power_cut_callback : Option PowerCutCallback
  power_off_alarm_id : Int
  system_up_alarm_id : Int
  rpi_off_intermittent_task_alarm_id : Int
  power_mode : Int
  vin_recoverable : Bool
  action_reason : Int
  gpio_dcdc_enable : Bool
  gpio_pi_power_ctrl : Bool
  gpio_led : Bool
  admin_shutdown : Int
  vusb_mv : Int
  vin_mv : Int
  tmp112_temp_msb : Int
  tmp112_temp_lsb : Int
  next_alarm_id : Int
  alarms : List (Int × AlarmCallback)
  edges : List (Int × Int)
  calls : List Call

/-- The whole state: the globals of power.c with the hardware, and the
environment of rtc.c and conf.c. -/
structure Sys extends Power, Env

/-- Assignment `current_rpi_state = v`. -/
def set_rpi_state (s : Sys) (v : Int) : Sys :=
  { s with current_rpi_state := v, edges := s.edges ++ [(s.current_rpi_state, v)] }

/-- `add_alarm_in_us` of the SDK: the alarm is pending under a fresh id. -/
def add_alarm_in_us (s : Sys) (callback : AlarmCallback) : Sys × Int :=
  ({ s with next_alarm_id := s.next_alarm_id + 1,
            alarms := s.alarms ++ [(s.next_alarm_id, callback)] }, s.next_alarm_id)

/-- `cancel_alarm` of the SDK: the alarm with this id, if any, is no longer
pending. -/
def cancel_alarm (s : Sys) (id : Int) : Sys :=
  { s with alarms := s.alarms.filter (fun a => a.1 != id) }

/-- `get_vusb_mv` of adc.c, a `uint16_t`. -/
def get_vusb_mv (s : Sys) : Int := uint16 s.vusb_mv

/-- `get_vin_mv` of adc.c, a `uint16_t`. -/
def get_vin_mv (s : Sys) : Int := uint16 s.vin_mv

/-- `control_led(on, 0)` of led.c. -/
def control_led (s : Sys) (led_on : Bool) : Sys := { s with gpio_led := led_on }

/-- `request_rpi_shutdown` of i2c.c. -/
def request_rpi_shutdown (s : Sys) (shutdown : Bool) : Sys :=
  { s with admin_shutdown := if shutdown then ADMIN_TURN_RPI_OFF else 0 }

/-- `get_12bits_temperature_mc` of ts.c: the 12-bit two's complement value
`(msb << 4) | (lsb >> 4)` times 62.5, truncated. -/
def get_12bits_temperature_mc (msb lsb : Int) : Int :=
  let raw := uint8 msb * 16 + uint8 lsb / 16
  let raw := if raw ≥ 2048 then raw - 4096 else raw
  cdiv (raw * 625) 10

/-- `ts_get_temperature_mc` of ts.c. -/
def ts_get_temperature_mc (s : Sys) : Int :=
  get_12bits_temperature_mc s.tmp112_temp_msb s.tmp112_temp_lsb

/-- `can_temperature_turn_off_rpi` of ts.c. -/
def can_temperature_turn_off_rpi (s : Sys) : Bool :=
  let over_action := conf_get s.toEnv ConfKey.OVER_TEMP_ACTION
  let below_action := conf_get s.toEnv ConfKey.BELOW_TEMP_ACTION
  if over_action = TEMP_ACTION_SHUTDOWN ∨ below_action = TEMP_ACTION_SHUTDOWN then
    let temp := cdiv (ts_get_temperature_mc s) 1000
    if over_action = TEMP_ACTION_SHUTDOWN
        ∧ temp > int8 (conf_get s.toEnv ConfKey.OVER_TEMP_POINT) then true
    else if below_action = TEMP_ACTION_SHUTDOWN
        ∧ temp < int8 (conf_get s.toEnv ConfKey.BELOW_TEMP_POINT) then true
    else false
  else false

/-- `can_cur_time_turn_off_rpi` of rtc.c. -/
def can_cur_time_turn_off_rpi (s : Sys) : Bool :=
  if s.current_rpi_state = STATE_OFF ∨ s.current_rpi_state = STATE_STOPPING then
    let cur := rtc_get_timestamp s.toEnv
    if cur.2 then
      let sec := bcd_to_dec (conf_get s.toEnv ConfKey.ALARM1_SECOND)
      let min := bcd_to_dec (conf_get s.toEnv ConfKey.ALARM1_MINUTE)
      let hour := bcd_to_dec (conf_get s.toEnv ConfKey.ALARM1_HOUR)
      let day := bcd_to_dec (conf_get s.toEnv ConfKey.ALARM1_DAY)
      let dt := rtc_get_scheduled_time s.toEnv (int8 day) (int8 hour) (int8 min) (int8 sec)
      decide (cur.1 < get_total_seconds dt)
    else false
  else false

/-! ## power.c: operations

`load_script` of script.c is a parameter of the operations that call it: it
reads the state and the schedule files and writes the alarm registers,
`alarm_type`, the alarm keys of the configuration and its own flag, all of
them in `Env`; it returns whether a schedule script is now in use. -/

section power

variable (load_script : Bool → Sys → Env × Bool)

/-- `system_up_timeout_callback` of power.c. -/
def system_up_timeout_callback (s : Sys) : Sys × Int :=
  let s := control_led s false
  let s := set_rpi_state s STATE_ON
  ({ s with system_up_alarm_id := -1 }, 0)

/-- `reset_heatbeat_checking_timer` of power.c. -/
def reset_heatbeat_checking_timer (s : Sys) : Sys :=
  let s := { s with heartbeat_missing_count := 0 }
  let s := cancel_alarm s s.heartbeat_missed_alarm_id
  let r := add_alarm_in_us s AlarmCallback.heartbeat_missed_callback
  { r.1 with heartbeat_missed_alarm_id := r.2 }

/-- `clear_system_up_timer` of power.c. -/
def clear_system_up_timer (s : Sys) : Sys :=
  if s.system_up_alarm_id ≠ -1 then
    let s := cancel_alarm s s.system_up_alarm_id
    let s := (system_up_timeout_callback s).1
    { s with system_up_alarm_id := -1 }
  else s

/-- `schedule_rpi_off_intermittent_task` of power.c. -/
def schedule_rpi_off_intermittent_task (s : Sys) : Sys :=
  let s := cancel_alarm s s.rpi_off_intermittent_task_alarm_id
  let r := add_alarm_in_us s AlarmCallback.rpi_off_intermittent_task_callback
  { r.1 with rpi_off_intermittent_task_alarm_id := r.2 }

/-- The branch `if (on)` of `power_control_pi_power`: try to power the
Raspberry Pi. -/
def power_control_pi_power_on (s : Sys) : Sys × Bool :=
  if s.gpio_pi_power_ctrl = true then (s, false)
  else
    let priority := conf_get s.toEnv ConfKey.PS_PRIORITY
    if priority = POWER_SOURCE_PRIORITY_VUSB then
      let vusb := get_vusb_mv s
      if vusb ≥ MIN_VUSB_MV then
        let s := { s with gpio_dcdc_enable := false }
        let s := { s with gpio_pi_power_ctrl := true }
        let s := { s with power_mode := POWER_MODE_VUSB }
        let s := set_rpi_state s STATE_STARTING
        (reset_heatbeat_checking_timer s, true)
      else
        let vin := get_vin_mv s
        if vin ≥ MIN_VIN_MV then
          let s := if s.gpio_dcdc_enable = false then { s with gpio_dcdc_enable := true } else s
          let s := { s with gpio_pi_power_ctrl := true }
          let s := set_rpi_state s STATE_STARTING
          let s := { s with power_mode := POWER_MODE_VIN }
          (reset_heatbeat_checking_timer s, true)
        else ({ s with power_mode := POWER_MODE_NONE }, false)
    else if priority = POWER_SOURCE_PRIORITY_VIN then
      let s := if s.gpio_dcdc_enable = false then { s with gpio_dcdc_enable := true } else s
      let vin := get_vin_mv s
      if vin ≥ MIN_VIN_MV then
        let s := { s with gpio_pi_power_ctrl := true }
        let s := { s with power_mode := POWER_MODE_VIN }
        let s := set_rpi_state s STATE_STARTING
        (reset_heatbeat_checking_timer s, true)
      else
        let vusb := get_vusb_mv s
        if vusb ≥ MIN_VUSB_MV then
          let s := { s with gpio_pi_power_ctrl := true }
          let s := { s with power_mode := POWER_MODE_VUSB }
          let s := set_rpi_state s STATE_STARTING
          (reset_heatbeat_checking_timer s, true)
        else ({ s with power_mode := POWER_MODE_NONE }, false)
    else ({ s with power_mode := POWER_MODE_NONE }, false)

/-- `request_startup` of power.c. The source has a `return` statement in
its last branch only; `none` is the absence of a returned value. The
argument is a `uint8_t`. -/
def request_startup (s : Sys) (reason : Int) : Sys × Option Bool :=
  let s := { s with calls := s.calls ++ [Call.request_startup reason] }
  if s.current_rpi_state = STATE_OFF then
    let v : Nat := ((uint8 reason).toNat <<< 4) ||| ((uint8 s.action_reason).toNat &&& 0xF)
    let s := { s with action_reason := uint8 v }
    let s := { s with toEnv := (apply_dst_if_needed s.toEnv).1 }
    let s := cancel_alarm s s.rpi_off_intermittent_task_alarm_id
    let s := control_led s true
    let s := (power_control_pi_power_on s).1
    let r := add_alarm_in_us s AlarmCallback.system_up_timeout_callback
    let s := { r.1 with system_up_alarm_id := r.2 }
    let ls := load_script true s
    let s := { s with toEnv := ls.1 }
    let s := if ls.2 = false then { s with toEnv := load_and_schedule_alarm s.toEnv false } else s
    (s, none)
  else if s.current_rpi_state = STATE_ON then
    ({ s with gpio_pi_power_ctrl := true }, none)
  else (s, some false)

/-- `restart_after_power_cut` of power.c. -/
def restart_after_power_cut (s : Sys) : Sys :=
  let s := { s with power_cut_callback := none }
  let s := cancel_alarm s s.rpi_off_intermittent_task_alarm_id
  (request_startup load_script s ACTION_REASON_REBOOT).1

/-- The branch `else` of `power_control_pi_power`: try to cut the power of
the Raspberry Pi. -/
def power_control_pi_power_off (s : Sys) : Sys × Bool :=
  if s.gpio_pi_power_ctrl = false then (s, false)
  else
    let s := request_rpi_shutdown s false
    let s := { s with gpio_pi_power_ctrl := false }
    let vin_first : Bool := decide (conf_get s.toEnv ConfKey.PS_PRIORITY = POWER_SOURCE_PRIORITY_VIN)
    let s := { s with gpio_dcdc_enable := vin_first }
    let s := { s with power_mode := POWER_MODE_NONE }
    let s := set_rpi_state s STATE_OFF
    let s := schedule_rpi_off_intermittent_task s
    let s := match s.power_cut_callback with
      | some PowerCutCallback.restart_after_power_cut => restart_after_power_cut load_script s
      | none => s
    (s, true)

/-- `power_control_pi_power` of power.c. -/
def power_control_pi_power (s : Sys) (turn_on : Bool) : Sys × Bool :=
  if turn_on then power_control_pi_power_on s else power_control_pi_power_off load_script s

/-- `power_off_callback` of power.c. -/
def power_off_callback (s : Sys) : Sys × Int :=
  let s := control_led s false
  let s := (power_control_pi_power load_script s false).1
  ({ s with power_off_alarm_id := -1 }, 0)

/-- `request_shutdown` of power.c. The source has a `return` statement in
its last branch only; `none` is the absence of a returned value. -/
def request_shutdown (s : Sys) (restart : Bool) (reason : Int) : Sys × Option Bool :=
  let s := { s with calls := s.calls ++ [Call.request_shutdown restart reason] }
  if s.current_rpi_state = STATE_ON then
    let v : Nat := ((uint8 s.action_reason).toNat &&& 0xF0) ||| ((uint8 reason).toNat &&& 0xF)
    let s := { s with action_reason := uint8 v }
    let s := request_rpi_shutdown s true
    let s := control_led s true
    let s := set_rpi_state s STATE_STOPPING
    let callback := if restart then some PowerCutCallback.restart_after_power_cut else none
    let s := { s with power_cut_callback := callback }
    let r := add_alarm_in_us s AlarmCallback.power_off_callback
    let s := { r.1 with power_off_alarm_id := r.2 }
    if restart = false then
      let ls := load_script true s
      let s := { s with toEnv := ls.1 }
      let s := if ls.2 = false then { s with toEnv := load_and_schedule_alarm s.toEnv true } else s
      (s, none)
    else (s, none)
  else if s.current_rpi_state = STATE_OFF then
    ({ s with gpio_pi_power_ctrl := false }, none)
  else if s.current_rpi_state ≠ STATE_STOPPING then (s, some false)
  else (s, none)

/-- `heartbeat_missed_callback` of power.c: the state and the returned
delay (0: the alarm is not repeated). -/
def heartbeat_missed_callback (s : Sys) : Sys × Int :=
  if s.current_rpi_state = STATE_STOPPING ∨ s.current_rpi_state = STATE_OFF then (s, 0)
  else
    let allowed := conf_get s.toEnv ConfKey.WATCHDOG
    if allowed = 0 then (s, 0)
    else
      let s := { s with heartbeat_missing_count := uint8 (s.heartbeat_missing_count + 1) }
      let s :=
        if s.heartbeat_missing_count > allowed then
          let s := (request_shutdown load_script s true ACTION_REASON_MISSED_HEARTBEAT).1
          { s with heartbeat_missing_count := 0 }
        else s
      if s.current_rpi_state = STATE_STARTING ∨ s.current_rpi_state = STATE_ON then
        (s, HEARTBEAT_CHECK_INTERVAL_US)
      else (s, 0)

/-- `rpi_off_intermittent_task_callback` of power.c: the returned delay; the
pulses it gives to the LED and the dummy load are outside the model. -/
def rpi_off_intermittent_task_callback (s : Sys) : Sys × Int :=
  (s, conf_get s.toEnv ConfKey.PULSE_INTERVAL * 1000000)

/-- `can_vin_turn_on_rpi` of power.c. -/
def can_vin_turn_on_rpi (s : Sys) : Sys × Bool :=
  if s.vin_recoverable = true then
    let vrec := uint16 (conf_get s.toEnv ConfKey.RECOVERY_VOLTAGE * 100)
    if vrec ≠ 0 then
      let vin := get_vin_mv s
      if vin ≥ vrec then ({ s with vin_recoverable := false }, true) else (s, false)
    else (s, false)
  else (s, false)

/-- `can_vin_turn_off_rpi` of power.c. -/
def can_vin_turn_off_rpi (s : Sys) : Bool :=
  if s.power_mode = POWER_MODE_VIN then
    let vlow := uint16 (conf_get s.toEnv ConfKey.LOW_VOLTAGE * 100)
    if vlow ≠ 0 then decide (get_vin_mv s < vlow) else false
  else false

/-- `power_source_polling` of power.c: the state and the returned polling
result; `none` is the path of the source that ends without a `return`
(host powered, priority neither 0 nor 1). -/
def power_source_polling (s : Sys) : Sys × Option Int :=
  let priority := conf_get s.toEnv ConfKey.PS_PRIORITY
  if s.gpio_pi_power_ctrl = true then
    if priority = POWER_SOURCE_PRIORITY_VUSB then
      let vusb := get_vusb_mv s
      if vusb ≥ MIN_VUSB_MV then
        let s := { s with gpio_dcdc_enable := false }
        let s := { s with power_mode := POWER_MODE_VUSB }
        ({ s with power_low_counter := 0 }, some POWERED_BY_VUSB_NO_ACTION)
      else
        let vin := get_vin_mv s
        let vlow := uint16 (conf_get s.toEnv ConfKey.LOW_VOLTAGE * 100)
        if vin ≥ MIN_VIN_MV ∧ (vlow = 0 ∨ vin ≥ vlow) then
          let s := if s.gpio_dcdc_enable = false then { s with gpio_dcdc_enable := true } else s
          let s := { s with power_mode := POWER_MODE_VIN }
          ({ s with power_low_counter := 0 }, some POWERED_BY_VIN_NO_ACTION)
        else
          let s := { s with power_low_counter := int32 (s.power_low_counter + 1) }
          if s.power_low_counter > MAX_POWER_LOW_COUNTER then
            let s := { s with vin_recoverable := true }
            ((request_shutdown load_script s false ACTION_REASON_VIN_DROP).1,
              some POWER_LOW_SHUTDOWN)
          else (s, some POWER_LOW_PENDING)
    else if priority = POWER_SOURCE_PRIORITY_VIN then
      let s := if s.gpio_dcdc_enable = false then { s with gpio_dcdc_enable := true } else s
      let vin := get_vin_mv s
      let vusb := get_vusb_mv s
      if vin ≥ MIN_VIN_MV ∨ vusb < MIN_VUSB_MV then
        let s := { s with power_mode := POWER_MODE_VIN }
        let vlow := uint16 (conf_get s.toEnv ConfKey.LOW_VOLTAGE * 100)
        if vlow = 0 ∨ vin ≥ vlow then
          ({ s with power_low_counter := 0 }, some POWERED_BY_VIN_NO_ACTION)
        else
          let s := { s with power_low_counter := int32 (s.power_low_counter + 1) }
          if s.power_low_counter > MAX_POWER_LOW_COUNTER then
            let s := { s with vin_recoverable := true }
            ((request_shutdown load_script s false ACTION_REASON_VIN_DROP).1,
              some POWER_LOW_SHUTDOWN)
          else (s, some POWER_LOW_PENDING)
      else
        let s := { s with power_mode := POWER_MODE_VUSB }
        ({ s with power_low_counter := 0 }, some POWERED_BY_VUSB_NO_ACTION)
    else (s, none)
  else
    let s := { s with power_mode := POWER_MODE_NONE }
    let r := can_vin_turn_on_rpi s
    if r.2 = true ∧ can_cur_time_turn_off_rpi r.1 = false
        ∧ can_temperature_turn_off_rpi r.1 = false then
      ((request_startup load_script r.1 ACTION_REASON_VIN_RECOVER).1, some POWER_RECOVER_STARTUP)
    else (r.1, some PI_NOT_POWERED)

/-- The globals of power.c as initialised, after `power_init`, on a board in
environment `e` with the given input readings. -/
def power_init (e : Env) (vusb_mv vin_mv tmp112_temp_msb tmp112_temp_lsb : Int) : Sys :=
  let s : Sys :=
    { toEnv := e
      power_low_counter := 0
      current_rpi_state := STATE_OFF
      heartbeat_missed_alarm_id := -1
      heartbeat_missing_count := 0
      power_cut_callback := none
      power_off_alarm_id := -1
      system_up_alarm_id := -1
      rpi_off_intermittent_task_alarm_id := -1
      power_mode := POWER_MODE_NONE
      vin_recoverable := false
      action_reason := 0
      gpio_dcdc_enable := decide (conf_get e ConfKey.PS_PRIORITY = POWER_SOURCE_PRIORITY_VIN)
      gpio_pi_power_ctrl := false
      gpio_led := false
      admin_shutdown := 0
      vusb_mv := vusb_mv
      vin_mv := vin_mv
      tmp112_temp_msb := tmp112_temp_msb
      tmp112_temp_lsb := tmp112_temp_lsb
      next_alarm_id := 1
      alarms := []
      edges := []
      calls := [] }
  schedule_rpi_off_intermittent_task s

/-- The pending alarm `id` of the pool expires: its callback runs, and the
alarm stays pending exactly when the callback returns a non-zero delay.
`none` when no alarm with this id is pending. -/
def alarm_fires (s : Sys) (id : Int) : Option Sys :=
  match s.alarms.find? (fun a => a.1 == id) with
  | none => none
  | some a =>
    let s := cancel_alarm s id
    let r : Sys × Int := match a.2 with
      | AlarmCallback.system_up_timeout_callback => system_up_timeout_callback s
      | AlarmCallback.heartbeat_missed_callback => heartbeat_missed_callback load_script s
      | AlarmCallback.rpi_off_intermittent_task_callback => rpi_off_intermittent_task_callback s
      | AlarmCallback.power_off_callback => power_off_callback load_script s
    if r.2 ≠ 0 then some { r.1 with alarms := r.1.alarms ++ [a] } else some r.1

/-- The events the state machine is driven by. -/
inductive Step
  | request_startup (reason : Int)
  | request_shutdown (restart : Bool) (reason : Int)
  | clear_system_up_timer
  | alarm_fires (id : Int)
  | readings (vusb_mv vin_mv : Int)
deriving DecidableEq, Repr

/-- One event; an alarm that is not pending cannot expire, and the state is
left as it is then. -/
def step (s : Sys) : Step → Sys
  | Step.request_startup reason => (request_startup load_script s reason).1
  | Step.request_shutdown restart reason => (request_shutdown load_script s restart reason).1
  | Step.clear_system_up_timer => clear_system_up_timer s
  | Step.alarm_fires id => (alarm_fires load_script s id).getD s
  | Step.readings vusb_mv vin_mv => { s with vusb_mv := vusb_mv, vin_mv := vin_mv }

/-- A sequence of events, from the left. -/
def run (s : Sys) (steps : List Step) : Sys := steps.foldl (step load_script) s

/-- An edge of the state machine as main.h documents it:
`OFF -> STARTING -> ON -> STOPPING -> OFF`. -/
def legal_edge (edge : Int × Int) : Bool :=
  edge == (STATE_OFF, STATE_STARTING) || edge == (STATE_STARTING, STATE_ON)
  || edge == (STATE_ON, STATE_STOPPING) || edge == (STATE_STOPPING, STATE_OFF)

/-- `load_script` when there is no schedule script: nothing is written and
`false` is returned. -/
def no_script : Bool → Sys → Env × Bool := fun _ s => (s.toEnv, false)

/-- The default configuration of conf.c. -/
def default_config : ConfKey → Int
  | ConfKey.ADDRESS => 0x51
  | ConfKey.DEFAULT_ON_DELAY => 255
  | ConfKey.POWER_CUT_DELAY => 15
  | ConfKey.PULSE_INTERVAL => 10
  | ConfKey.BLINK_LED => 100
  | ConfKey.LOG_TO_FILE => 1
  | ConfKey.BOOTSEL_FTY_RST => 1
  | ConfKey.SYS_CLOCK_MHZ => 48
  | _ => 0

end power

/-! ## Predicates and concrete states used in the statements -/

/-- Whether a source can power the Raspberry Pi: the priority is one of the
two known ones, and one of the two sources is at or above its minimum. -/
def sources_can_power_rpi (s : Sys) : Bool :=
  (decide (conf_get s.toEnv ConfKey.PS_PRIORITY = POWER_SOURCE_PRIORITY_VUSB)
    || decide (conf_get s.toEnv ConfKey.PS_PRIORITY = POWER_SOURCE_PRIORITY_VIN))
  && (decide (get_vusb_mv s ≥ MIN_VUSB_MV) || decide (get_vin_mv s ≥ MIN_VIN_MV))

/-- Whether `power_control_pi_power(true)` finds a way to power the Raspberry
Pi: the power pin is low and a source can power it. -/
def can_power_rpi (s : Sys) : Bool :=
  decide (s.gpio_pi_power_ctrl = false) && sources_can_power_rpi s

/-- The concrete environment of the examples: the default configuration and
the clock at Saturday 2024-06-01 12:00:00. -/
def example_env : Env :=
  { conf := default_config, reg_seconds := 0x00, reg_minutes := 0x00, reg_hours := 0x12,
    reg_weekday := 0x40, reg_day := 0x01, reg_month := 0x06, reg_year := 0x24,
    reg_alarm_minutes := 0, reg_alarm_hours := 0, reg_alarm_daydate := 0,
    alarm_type := ALARM_TYPE_NONE }

/-- The board after `power_init` with both sources too low to power the
Raspberry Pi (Vusb = 4000 mV, Vin = 4000 mV), at 25 degrees. -/
def board_low_voltage : Sys := power_init example_env 4000 4000 0x19 0x00

/-- The board after `power_init` with Vusb = 5000 mV and Vin = 12000 mV. -/
def board_good_voltage : Sys := power_init example_env 5000 12000 0x19 0x00

/-- The board with good voltages after an accepted `request_startup`: the
state is STARTING, the heartbeat alarm has id 2 and the system-up alarm id 3. -/
def board_starting : Sys :=
  run no_script board_good_voltage [Step.request_startup ACTION_REASON_BUTTON_CLICK]

/-- The board with good voltages, started and with the system-up alarm
expired: the state is ON and the Raspberry Pi is powered. -/
def board_on : Sys :=
  run no_script board_good_voltage
    [Step.request_startup ACTION_REASON_BUTTON_CLICK, Step.alarm_fires 3]

/-- The board with both sources too low after `request_startup` and the
expiry of the system-up alarm it armed: the state is ON although the power
pin is low. -/
def board_on_unpowered : Sys :=
  run no_script board_low_voltage
    [Step.request_startup ACTION_REASON_BUTTON_CLICK, Step.alarm_fires 2]

/-- The environment of the examples with the priority set to VIN. -/
def example_env_vin_first : Env :=
  { example_env with
    conf := fun k => if k = ConfKey.PS_PRIORITY then POWER_SOURCE_PRIORITY_VIN else default_config k }

/-- A running board (state ON, powered, low-voltage counter 0) with VIN
priority and the low-voltage threshold disabled (0), on which both sources
have fallen to 4000 mV. -/
def board_on_vin_first_low : Sys :=
  run no_script (power_init example_env_vin_first 5000 12000 0x19 0x00)
    [Step.request_startup ACTION_REASON_BUTTON_CLICK, Step.alarm_fires 3,
     Step.readings 4000 4000]

/-- A running board (state ON, powered, low-voltage counter 0) with VUSB
priority and the low-voltage threshold disabled (0), on which both sources
have fallen to 4000 mV. -/
def board_on_low : Sys :=
  run no_script board_good_voltage
    [Step.request_startup ACTION_REASON_BUTTON_CLICK, Step.alarm_fires 3,
     Step.readings 4000 4000]

/-- Whether DST is required now, as `apply_dst_if_needed` computes it from
what `load_dst_configuration` returns; `none` when the configuration cannot
be loaded (invalid clock, unresolvable rule) or the offset is 0. -/
def dst_required_now (e : Env) : Option Bool :=
  let c := load_dst_configuration e
  if c.cur_ts ≠ -1 ∧ c.offset ≠ 0 then
    some (if c.north_hemisphere then
        decide (c.cur_ts ≥ c.begin_ts) && decide (c.cur_ts < c.end_ts)
      else decide (c.cur_ts < c.end_ts) || decide (c.cur_ts ≥ c.begin_ts))
  else none

/-- The DST rule of the examples on top of the default configuration: fixed
dates (mode bit 7 set), an offset of 60 minutes, begin on 10 March 02:00, end
on 3 November 02:00, not applied yet. -/
def dst_config : ConfKey → Int
  | ConfKey.DST_OFFSET => 0x80 + 60
  | ConfKey.DST_BEGIN_MON => 0x03
  | ConfKey.DST_BEGIN_DAY => 0x10
  | ConfKey.DST_BEGIN_HOUR => 0x02
  | ConfKey.DST_BEGIN_MIN => 0x00
  | ConfKey.DST_END_MON => 0x11
  | ConfKey.DST_END_DAY => 0x03
  | ConfKey.DST_END_HOUR => 0x02
  | ConfKey.DST_END_MIN => 0x00
  | ConfKey.DST_APPLIED => 0
  | k => default_config k

/-- The DST rule of the examples, the clock at Saturday 2024-06-01 12:00:00
(inside the DST interval), DST not applied. -/
def dst_env_summer : Env := { example_env with conf := dst_config }

/-- The DST rule of the examples with DST applied, the clock at Sunday
2024-11-03 02:00:00, the end of the DST interval. -/
def dst_env_at_end : Env :=
  { conf := fun k => if k = ConfKey.DST_APPLIED then 1 else dst_config k,
    reg_seconds := 0x00, reg_minutes := 0x00, reg_hours := 0x02, reg_weekday := 0x01,
    reg_day := 0x03, reg_month := 0x11, reg_year := 0x24,
    reg_alarm_minutes := 0, reg_alarm_hours := 0, reg_alarm_daydate := 0,
    alarm_type := ALARM_TYPE_NONE }

/-- The environment of the examples with the priority set to VIN and the
low-voltage threshold at 6.0 V (stored as 60). -/
def example_env_vin_first_threshold : Env :=
  { example_env with
    conf := fun k =>
      if k = ConfKey.PS_PRIORITY then POWER_SOURCE_PRIORITY_VIN
      else if k = ConfKey.LOW_VOLTAGE then 60 else default_config k }

/-- A running board (state ON, powered, low-voltage counter 0) with VIN
priority and the low-voltage threshold at 6000 mV, on which Vin reads
5500 mV, above its minimum of 5000 mV, and Vusb 5000 mV. -/
def board_on_vin_first_below_threshold : Sys :=
  run no_script (power_init example_env_vin_first_threshold 5000 12000 0x19 0x00)
    [Step.request_startup ACTION_REASON_BUTTON_CLICK, Step.alarm_fires 3,
     Step.readings 5000 5500]

/-- The environment of the examples with the watchdog tolerance set to
`allowed` missed heartbeats. -/
def example_env_watchdog (allowed : Int) : Env :=
  { example_env with
    conf := fun k => if k = ConfKey.WATCHDOG then allowed else default_config k }

/-- A running board (state ON, heartbeat alarm pending under id 2, missed
counter 0) with the watchdog tolerance set to `allowed`. -/
def board_on_watchdog (allowed : Int) : Sys :=
  run no_script (power_init (example_env_watchdog allowed) 5000 12000 0x19 0x00)
    [Step.request_startup ACTION_REASON_BUTTON_CLICK, Step.alarm_fires 3]

/-- The board with tolerance 255 after 255 expiries of the heartbeat alarm
in state ON: the missed counter is 255. -/
def board_on_watchdog_255_missed : Sys :=
  run no_script (board_on_watchdog 255) (List.replicate 255 (Step.alarm_fires 2))

/-- The environment of the examples with a recovery voltage of 5.0 V (stored
as 50) and a shutdown configured for temperatures over 40 degrees. -/
def example_env_recovery : Env :=
  { example_env with
    conf := fun k =>
      if k = ConfKey.RECOVERY_VOLTAGE then 50
      else if k = ConfKey.OVER_TEMP_ACTION then TEMP_ACTION_SHUTDOWN
      else if k = ConfKey.OVER_TEMP_POINT then 40 else default_config k }

/-- A board that was running, lost both sources (4000 mV each), was shut
down by `power_source_polling` (which set `vin_recoverable`) and had its
power cut: the state is OFF and the host unpowered. -/
def board_off_recoverable : Sys :=
  run no_script
    (power_source_polling no_script
      (run no_script (power_init example_env_recovery 5000 12000 0x19 0x00)
        [Step.request_startup ACTION_REASON_BUTTON_CLICK, Step.alarm_fires 3,
         Step.readings 4000 4000])).1
    [Step.alarm_fires 4]

/-- The board of `board_off_recoverable` once Vin has recovered to 5500 mV
while the sensor reads 50 degrees, over the configured 40. -/
def board_off_recovered_hot : Sys :=
  { board_off_recoverable with vin_mv := 5500, tmp112_temp_msb := 0x32 }

/-- The board of `board_off_recovered_hot` after one poll, the sensor now
reading 25 degrees and Vin still 5500 mV. -/
def board_off_recovered_cool : Sys :=
  { (power_source_polling no_script board_off_recovered_hot).1 with tmp112_temp_msb := 0x19 }

/-! ## script.h / script.c: the schedule script compiler

The script text is a list of characters, one `Char` for each `char` of the
C string; the string ends before the first NUL (`c_str`). Signed overflow of
the `int` and `int64_t` sums is undefined in C and outside the model: they
are sums in `Int`. -/

def WPI_SCRIPT_STATE_ON : Int := 0
def WPI_SCRIPT_STATE_OFF : Int := 1
def WPI_MAX_LINES : Nat := 128
def WPI_MAX_LINE_LENGTH : Nat := 128
def WPI_MAX_ACTIONS : Nat := 4096

/-- The `StateInfo` struct of script.c. -/
structure StateInfo where
  type : Int
  duration : Int
deriving DecidableEq, Repr

/-- The `Action` struct of script.h; `time` is a `uint64_t`. -/
structure Action where
  is_up : Bool
  time : Int
deriving DecidableEq, Repr

/-- `isspace` of the C library in the C locale. -/
def isspace (c : Char) : Bool :=
  c == ' ' || c == '\t' || c == '\n' || c == '\x0b' || c == '\x0c' || c == '\r'

/-- `isdigit` of the C library. -/
def isdigit (c : Char) : Bool := decide ('0' ≤ c) && decide (c ≤ '9')

/-- The digits at the head of `s`, read as a decimal number on top of
`acc`, and what follows them. -/
def scan_digits : List Char → Int → Int × List Char
  | [], acc => (acc, [])
  | c :: cs, acc =>
    if isdigit c then scan_digits cs (acc * 10 + ((c.toNat : Int) - 48)) else (acc, c :: cs)

/-- A decimal integer as `%d` of `sscanf` and `atoi` read it: white space is
skipped, then an optional sign, then at least one digit; the value and the
rest of the input, or `none` when there is no digit. A number that does not
fit an `int` is undefined in C; here it is read as it stands. -/
def scan_int (s : List Char) : Option (Int × List Char) :=
  let s := s.dropWhile isspace
  let negative : Bool := match s with
    | '-' :: _ => true
    | _ => false
  let s := match s with
    | '-' :: r => r
    | '+' :: r => r
    | _ => s
  match s with
  | [] => none
  | c :: _ =>
    if isdigit c then
      let r := scan_digits s 0
      some (if negative then -r.1 else r.1, r.2)
    else none

/-- `atoi` of the C library: 0 when no number can be read. -/
def atoi (s : List Char) : Int :=
  match scan_int s with
  | some r => r.1
  | none => 0

/-- An ordinary character of a `sscanf` format: the next input character
must be this one. -/
def scan_char (c : Char) : List Char → Option (List Char)
  | [] => none
  | d :: r => if d = c then some r else none

/-- `str_to_datetime` of script.c: `sscanf(str, "%d-%d-%d %d:%d:%d", ...)`
must convert six numbers; `none` is the return value `false`. The blank of
the format skips white space, as `%d` does anyway. The six `int` values are
stored into the `int16_t` year and the `int8_t` fields of a `DateTime` whose
weekday is the 0 it was initialised with. -/
def str_to_datetime (str : List Char) : Option DateTime :=
  match scan_int str with
  | none => none
  | some (year, s) =>
  match scan_char '-' s with
  | none => none
  | some s =>
  match scan_int s with
  | none => none
  | some (month, s) =>
  match scan_char '-' s with
  | none => none
  | some s =>
  match scan_int s with
  | none => none
  | some (day, s) =>
  match scan_int (s.dropWhile isspace) with
  | none => none
  | some (hour, s) =>
  match scan_char ':' s with
  | none => none
  | some s =>
  match scan_int s with
  | none => none
  | some (min, s) =>
  match scan_char ':' s with
  | none => none
  | some s =>
  match scan_int s with
  | none => none
  | some (sec, _) =>
    some { year := int16 year, month := int8 month, day := int8 day, hour := int8 hour,
           min := int8 min, sec := int8 sec, wday := 0 }

/-- `parse_time_component` of script.c: the new values of `*hours`,
`*minutes`, `*seconds`, or `none` for the return value `false`. -/
def parse_time_component (str : List Char) (hours minutes seconds : Int) :
    Option (Int × Int × Int) :=
  if str.length < 2 then none
  else
    match str with
    | [] => none
    | unit :: rest =>
      let value := atoi rest
      if value < 0 then none
      else if unit = 'D' ∨ unit = 'd' then some (hours + value * 24, minutes, seconds)
      else if unit = 'H' ∨ unit = 'h' then some (hours + value, minutes, seconds)
      else if unit = 'M' ∨ unit = 'm' then some (hours, minutes + value, seconds)
      else if unit = 'S' ∨ unit = 's' then some (hours, minutes, seconds + value)
      else none

/-- The tokens of the rest of a state line, as the token loop of
`parse_wpi_script` finds them: maximal runs of characters that are not white
space. `cur` is the token being read. -/
def split_tokens : List Char → List Char → List (List Char)
  | [], cur => if cur = [] then [] else [cur]
  | c :: cs, cur =>
    if isspace c then (if cur = [] then split_tokens cs [] else cur :: split_tokens cs [])
    else split_tokens cs (cur ++ [c])

/-- The body of the token loop of `parse_wpi_script` over the tokens of a
state line; `none` is a `return false`. -/
def parse_tokens : List (List Char) → Int × Int × Int → Option (Int × Int × Int)
  | [], acc => some acc
  | token :: rest, acc =>
    if token.length ≥ WPI_MAX_LINE_LENGTH then none
    else
      match parse_time_component token acc.1 acc.2.1 acc.2.2 with
      | none => none
      | some acc => parse_tokens rest acc

/-- The locals of `parse_wpi_script` that its line loop updates;
`state_count` is the length of `states`. -/
structure ParseState where
  begin_found : Bool
  begin_time : Int
  end_found : Bool
  end_time : Int
  states : List StateInfo
deriving DecidableEq, Repr

/-- The locals as `parse_wpi_script` initialises them. -/
def parse_start : ParseState :=
  { begin_found := false, begin_time := 0, end_found := false, end_time := 0, states := [] }

/-- The characters of a C string: those before the first NUL. -/
def c_str (s : List Char) : List Char := s.takeWhile (fun c => decide (c ≠ '\x00'))

/-- The lines the loop `while (line_start && *line_start)` visits: the pieces
of the text between line feeds; what follows the last line feed is visited
only when it is not empty. `cur` is the line being read. -/
def split_lines : List Char → List Char → List (List Char)
  | [], cur => if cur = [] then [] else [cur]
  | c :: cs, cur => if c = '\n' then cur :: split_lines cs [] else split_lines cs (cur ++ [c])

/-- The lines of a script text. -/
def script_lines (script_text : List Char) : List (List Char) :=
  split_lines (c_str script_text) []

/-- The `trimmed` string of a line: the comment is cut off at the first `#`
and the leading white space is skipped. -/
def trimmed_line (line : List Char) : List Char :=
  (line.takeWhile (fun c => decide (c ≠ '#'))).dropWhile isspace

/-- The body of the line loop of `parse_wpi_script` for one line; `none` is
a `return false`. -/
def process_line (line : List Char) (p : ParseState) : Option ParseState :=
  if line.length ≥ WPI_MAX_LINE_LENGTH then none
  else
    let trimmed := trimmed_line line
    if trimmed = [] then some p
    else if ['B', 'E', 'G', 'I', 'N'].isPrefixOf trimmed then
      match str_to_datetime (trimmed.drop 5) with
      | some begin_dt =>
        some { p with begin_found := true, begin_time := get_total_seconds begin_dt }
      | none => some { p with begin_found := false }
    else if ['E', 'N', 'D'].isPrefixOf trimmed then
      match str_to_datetime (trimmed.drop 3) with
      | some end_dt => some { p with end_found := true, end_time := get_total_seconds end_dt }
      | none => some { p with end_found := false }
    else if ['O', 'N'].isPrefixOf trimmed || ['O', 'F', 'F'].isPrefixOf trimmed then
      let is_on_state : Bool := (trimmed.drop 1).head? = some 'N'
      let type := if is_on_state then WPI_SCRIPT_STATE_ON else WPI_SCRIPT_STATE_OFF
      let rest := if is_on_state then trimmed.drop 2 else trimmed.drop 3
      match parse_tokens (split_tokens rest []) (0, 0, 0) with
      | none => none
      | some (hours, minutes, seconds) =>
        let state : StateInfo :=
          { type := type, duration := hours * 3600 + minutes * 60 + seconds }
        if p.states.length < WPI_MAX_LINES then some { p with states := p.states ++ [state] }
        else none
    else some p

/-- The line loop of `parse_wpi_script`. -/
def process_lines : List (List Char) → ParseState → Option ParseState
  | [], p => some p
  | line :: rest, p =>
    match process_line line p with
    | none => none
    | some p => process_lines rest p

/-- The first part of `parse_wpi_script`: the line loop and the check that a
BEGIN, an END and at least one state were found; `none` is a
`return false`. -/
def parse_wpi_lines (script_text : List Char) : Option ParseState :=
  match process_lines (script_lines script_text) parse_start with
  | none => none
  | some p =>
    if !p.begin_found || !p.end_found || p.states.length == 0 then none else some p

/-- The cycle period: the sum of the durations of the states. -/
def cycle_period (states : List StateInfo) : Int := (states.map StateInfo.duration).sum

/-- The loop `while (current_time + period <= cur_time) current_time += period;`
with fuel: `none` when the loop is still running after `fuel` tests of its
condition. -/
def shift_begin : Nat → Int → Int → Int → Option Int
  | 0, _, _, _ => none
  | fuel + 1, current_time, period, cur_time =>
    if current_time + period ≤ cur_time then
      shift_begin fuel (current_time + period) period cur_time
    else some current_time

/-- The locals of the generation loop of `parse_wpi_script`; `actions` are
the elements `actions[0 .. *num_actions - 1]` written so far, also when there
are more of them than the caller's array has room for. -/
structure GenState where
  current_time : Int
  is_on : Bool
  actions : List Action
deriving DecidableEq, Repr

/-- The `for` loop over the states inside the generation loop, from state
`i` on, `states` being the states from `i` on. -/
def walk_states (end_time : Int) : List StateInfo → GenState → GenState
  | [], g => g
  | st :: rest, g =>
    let current_time := g.current_time + st.duration
    if current_time ≥ end_time then
      if g.is_on then
        { current_time := current_time, is_on := g.is_on,
          actions := g.actions ++ [{ is_up := false, time := uint64 end_time }] }
      else { current_time := current_time, is_on := g.is_on, actions := g.actions }
    else if st.type = WPI_SCRIPT_STATE_ON then
      walk_states end_time rest
        { current_time := current_time, is_on := false,
          actions := g.actions ++ [{ is_up := false, time := uint64 current_time }] }
    else
      walk_states end_time rest
        { current_time := current_time, is_on := true,
          actions := g.actions ++ [{ is_up := true, time := uint64 current_time }] }

/-- The loop `while (current_time < end_time && *num_actions < WPI_MAX_ACTIONS - 1)`
with fuel: `none` when the loop is still running after `fuel` tests of its
condition. -/
def generate_loop : Nat → Int → List StateInfo → GenState → Option GenState
  | 0, _, _, _ => none
  | fuel + 1, end_time, states, g =>
    if g.current_time < end_time ∧ g.actions.length < WPI_MAX_ACTIONS - 1 then
      generate_loop fuel end_time states (walk_states end_time states g)
    else some g

/-- What a call of `parse_wpi_script` does: it returns `false` and leaves
`actions` and `*num_actions` alone, or it returns `true` with the actions it
wrote, or one of its two loops is still running when the fuel is used up. -/
inductive Outcome where
  | out_of_fuel : Outcome
  | returns_false : Outcome
  | returns_true (actions : List Action) : Outcome
deriving DecidableEq, Repr

/-- The second part of `parse_wpi_script`, after the script was found good:
the period, the shift of the BEGIN time and the generation of the actions. -/
def compile_script (fuel : Nat) (p : ParseState) (cur_time : Int) : Outcome :=
  let period := cycle_period p.states
  match shift_begin fuel p.begin_time period cur_time with
  | none => Outcome.out_of_fuel
  | some current_time =>
    match generate_loop fuel p.end_time p.states
        { current_time := current_time, is_on := true,
          actions := [{ is_up := true, time := uint64 current_time }] } with
    | none => Outcome.out_of_fuel
    | some g => Outcome.returns_true g.actions

/-- `parse_wpi_script` of script.c. Each of its two `while` loops may test
its condition `fuel` times. -/
def parse_wpi_script (fuel : Nat) (script_text : List Char) (cur_time : Int) : Outcome :=
  match parse_wpi_lines script_text with
  | none => Outcome.returns_false
  | some p => compile_script fuel p cur_time

/-! ### The schedule a script describes

The states are taken cyclically; boundary `j` is the end of the `j`-th state
after the shifted BEGIN time. -/

/-- State `s_(j mod n)` of the cycle `s_0 .. s_(n-1)`. -/
def state_at (states : List StateInfo) (j : Nat) : StateInfo :=
  states.getD (j % states.length) { type := 0, duration := 0 }

/-- The sum of the first `j` durations, taken cyclically through the states. -/
def elapsed (states : List StateInfo) : Nat → Int
  | 0 => 0
  | j + 1 => elapsed states j + (state_at states j).duration

/-- The time `t_j` of boundary `j` for the shifted BEGIN time `b`. -/
def boundary_time (b : Int) (states : List StateInfo) (j : Nat) : Int :=
  b + elapsed states (j + 1)

/-- The action at boundary `j`: DN when state `s_(j mod n)` is ON, UP when
it is OFF, at time `t_j`, stored as a `uint64_t`. -/
def boundary_action (b : Int) (states : List StateInfo) (j : Nat) : Action :=
  { is_up := decide ((state_at states j).type = WPI_SCRIPT_STATE_OFF),
    time := uint64 (boundary_time b states j) }

/-- Whether the last action of a list is UP. -/
def last_is_up (actions : List Action) : Bool :=
  match actions.getLast? with
  | some a => a.is_up
  | none => false

/-- The invariant of the generation loop after `m` boundaries. -/
def GenInv (b : Int) (states : List StateInfo) (m : Nat) (g : GenState) : Prop :=
  g.current_time = b + elapsed states m ∧
  g.actions = Action.mk true (uint64 b) :: (List.range m).map (boundary_action b states) ∧
  g.is_on = last_is_up g.actions

/-- The trimmed line starts with `BEGIN` and a date and time can be read
after it. -/
def parsable_begin_line (line : List Char) : Bool :=
  ['B', 'E', 'G', 'I', 'N'].isPrefixOf (trimmed_line line) &&
    (str_to_datetime ((trimmed_line line).drop 5)).isSome

/-- The trimmed line starts with `END` and a date and time can be read after
it. -/
def parsable_end_line (line : List Char) : Bool :=
  ['E', 'N', 'D'].isPrefixOf (trimmed_line line) &&
    (str_to_datetime ((trimmed_line line).drop 3)).isSome

/-- The trimmed line starts with `ON` or `OFF`. -/
def is_state_line (line : List Char) : Bool :=
  ['O', 'N'].isPrefixOf (trimmed_line line) || ['O', 'F', 'F'].isPrefixOf (trimmed_line line)
/-- The number of whole periods by which the BEGIN time is shifted: the
smallest `k` with `begin_time + (k + 1) * period > cur_time`, for a positive
period. -/
def cycles_elapsed (begin_time period cur_time : Int) : Nat :=
  ((cur_time - begin_time) / period).toNat

/-- The shifted BEGIN time `b'` of a script at the current time. -/
def shifted_begin (p : ParseState) (cur_time : Int) : Int :=
  p.begin_time +
    (cycles_elapsed p.begin_time (cycle_period p.states) cur_time : Int) * cycle_period p.states

/-- The script with its END time moved `d` seconds earlier. -/
def end_moved_earlier (p : ParseState) (d : Int) : ParseState :=
  { begin_found := p.begin_found, begin_time := p.begin_time, end_found := p.end_found,
    end_time := p.end_time - d, states := p.states }

/-- An action with `d` seconds added to its time, in `uint64_t` arithmetic. -/
def shift_action (d : Int) (a : Action) : Action :=
  { is_up := a.is_up, time := uint64 (a.time + d) }
/-- A generation-loop state moved `d` seconds later. -/
def shift_gen (d : Int) (g : GenState) : GenState :=
  { current_time := g.current_time + d, is_on := g.is_on,
    actions := g.actions.map (shift_action d) }

/-- The script of the scenarios: a cycle of 12 hours on and 12 hours off
over two days. -/
def example_script : List Char :=
  "BEGIN 2024-01-01 00:00:00\nEND 2024-01-03 00:00:00\nON H12\nOFF H12".toList

/-- What the line loop finds in `example_script`. -/
def example_script_parsed : ParseState :=
  { begin_found := true, begin_time := 757382400, end_found := true, end_time := 757555200,
    states := [{ type := 0, duration := 43200 }, { type := 1, duration := 43200 }] }

/-- A script whose states have no duration tokens: its period is 0. -/
def zero_period_script : List Char :=
  "BEGIN 2024-01-01 00:00:00\nEND 2024-01-03 00:00:00\nON\nOFF".toList

/-- What the line loop finds in `zero_period_script`. -/
def zero_period_script_parsed : ParseState :=
  { begin_found := true, begin_time := 757382400, end_found := true, end_time := 757555200,
    states := [{ type := 0, duration := 0 }, { type := 1, duration := 0 }] }

/-- A script of four states of one second each over one day. -/
def four_state_script : List Char :=
  "BEGIN 2024-01-01 00:00:00\nEND 2024-01-02 00:00:00\nON S1\nOFF S1\nON S1\nOFF S1".toList

/-- What the line loop finds in `four_state_script`. -/
def four_state_script_parsed : ParseState :=
  { begin_found := true, begin_time := 757382400, end_found := true, end_time := 757468800,
    states := [{ type := 0, duration := 1 }, { type := 1, duration := 1 },
      { type := 0, duration := 1 }, { type := 1, duration := 1 }] }

/-- A script without a BEGIN line. -/
def script_without_begin : List Char :=
  "END 2024-01-03 00:00:00\nON H12\nOFF H12".toList

/-- The environment of the examples with a startup alarm live in the clock:
day 15, 08:30, tag STARTUP. -/
def alarm_env_startup_live : Env :=
  { example_env with
    reg_alarm_daydate := 0x15, reg_alarm_hours := 0x08, reg_alarm_minutes := 0x30,
    alarm_type := ALARM_TYPE_STARTUP }

/-- The environment of the examples with the clock at Thursday
2024-06-20 12:00:00. -/
def example_env_day20 : Env :=
  { example_env with reg_day := 0x20, reg_weekday := 0x10 }

/-! ## ts.c: the temperature limits of the sensor -/

/-- The T_low and T_high register pairs of the TMP112 sensor. -/
structure Tmp112Limits where
  tlow_msb : Int
  tlow_lsb : Int
  thigh_msb : Int
  thigh_lsb : Int
deriving DecidableEq, Repr

/-- `get_msb_lsb` of ts.c: the values stored through `msb` and `lsb`. On the
`int16_t raw`, `raw >> 4` is the arithmetic shift (the floor of `raw / 16`),
and `& 0xFF`, `& 0x0F` keep the low bits of the two's complement value. -/
def get_msb_lsb (temp : Int) : Int × Int :=
  let raw := int16 (cdiv (temp * 10) 625)
  let raw := if raw > 2047 then 2047 else if raw < -2048 then -2048 else raw
  (uint8 (raw / 16 % 256), uint8 (raw % 16 * 16))

/-- `ts_get_t_low_mc` of ts.c. -/
def ts_get_t_low_mc (l : Tmp112Limits) : Int :=
  get_12bits_temperature_mc l.tlow_msb l.tlow_lsb

/-- `ts_set_t_low_mc` of ts.c. -/
def ts_set_t_low_mc (l : Tmp112Limits) (tl : Int) : Tmp112Limits :=
  { l with tlow_msb := (get_msb_lsb tl).1, tlow_lsb := (get_msb_lsb tl).2 }

/-- `ts_get_t_high_mc` of ts.c. -/
def ts_get_t_high_mc (l : Tmp112Limits) : Int :=
  get_12bits_temperature_mc l.thigh_msb l.thigh_lsb

/-- `ts_set_t_high_mc` of ts.c. -/
def ts_set_t_high_mc (l : Tmp112Limits) (th : Int) : Tmp112Limits :=
  { l with thigh_msb := (get_msb_lsb th).1, thigh_lsb := (get_msb_lsb th).2 }

/-- `on_temp_point_conf_changed` of ts.c, the callback of the two set-point
keys; `new_val` is a `uint8_t`, converted to `int32_t` before the product. -/
def on_temp_point_conf_changed (l : Tmp112Limits) (key : ConfKey) (new_val : Int) :
    Tmp112Limits :=
  if key = ConfKey.BELOW_TEMP_POINT then ts_set_t_low_mc l (uint8 new_val * 1000)
  else if key = ConfKey.OVER_TEMP_POINT then ts_set_t_high_mc l (uint8 new_val * 1000)
  else l

/-! ## main.c: the temperature actions -/

/-- The callbacks that `perform_temp_action` hands to `add_alarm_in_us`. -/
inductive RetryCallback
  | retry_below_temp_startup_callback
  | retry_over_temp_startup_callback
deriving DecidableEq, Repr

/-- The state `perform_temp_action` works on: the state of power.c, rtc.c
and conf.c, `postponed_action_alarm_id` of main.c, and the pending alarms of
the SDK's pool whose callback is one of main.c's retry callbacks (they draw
their ids from the same counter as the alarms of power.c). -/
structure Main where
  sys : Sys
  postponed_action_alarm_id : Int
  retry_alarms : List (Int × RetryCallback)

section main_c

variable (load_script : Bool → Sys → Env × Bool)

/-- `perform_temp_action` of main.c; `action` is a `uint8_t`, and `retry`
only chooses the text of the log. -/
def perform_temp_action (m : Main) (action : Int) (below : Bool) (_retry : Bool) : Main :=
  let reason :=
    if below then ACTION_REASON_BELOW_TEMPERATURE else ACTION_REASON_OVER_TEMPERATURE
  if uint8 action = TEMP_ACTION_STARTUP then
    let vin_cond := !can_vin_turn_off_rpi m.sys
    let time_cond := !can_cur_time_turn_off_rpi m.sys
    let state_cond := decide (m.sys.current_rpi_state = STATE_OFF)
    if vin_cond && time_cond && state_cond then
      { m with sys := (request_startup load_script m.sys reason).1 }
    else
      let sys := cancel_alarm m.sys m.postponed_action_alarm_id
      let pending := m.retry_alarms.filter (fun a => a.1 != m.postponed_action_alarm_id)
      let callback :=
        if below then RetryCallback.retry_below_temp_startup_callback
        else RetryCallback.retry_over_temp_startup_callback
      { sys := { sys with next_alarm_id := sys.next_alarm_id + 1 },
        postponed_action_alarm_id := sys.next_alarm_id,
        retry_alarms := pending ++ [(sys.next_alarm_id, callback)] }
  else if uint8 action = TEMP_ACTION_SHUTDOWN then
    { m with sys := (request_shutdown load_script m.sys false reason).1 }
  else m

/-- `ts_below_temperature_callback` of main.c. -/
def ts_below_temperature_callback (m : Main) : Main :=
  perform_temp_action load_script m (conf_get m.sys.toEnv ConfKey.BELOW_TEMP_ACTION) true false

/-- `ts_over_temperature_callback` of main.c. -/
def ts_over_temperature_callback (m : Main) : Main :=
  perform_temp_action load_script m (conf_get m.sys.toEnv ConfKey.OVER_TEMP_ACTION) false false

end main_c

/-- The limits of the sensor after its reset: T_low 75, T_high 80 degrees. -/
def tmp112_reset_limits : Tmp112Limits :=
  { tlow_msb := 0x4B, tlow_lsb := 0x00, thigh_msb := 0x50, thigh_lsb := 0x00 }

/-! ### Weekdays -/

/-- The part of Zeller's congruence, as `timestamp_to_datetime` and
`convert_date` write it, that does not depend on the day of the month. -/
def zeller_offset (year month : Int) : Int :=
  let m := if month < 3 then month + 12 else month
  let y := if month < 3 then year - 1 else year
  let k := cmod y 100
  let j := cdiv y 100
  cdiv (13 * (m + 1)) 5 + k + cdiv k 4 + cdiv j 4 + 5 * j

/-- The true weekday of a date, 0 for Sunday: the epoch 2000-01-01 is a
Saturday (6), and the weekday advances by one per day since the epoch. -/
def true_wday (year month day : Int) : Int :=
  (6 + get_total_seconds ⟨year, month, day, 0, 0, 0, 0⟩ / 86400) % 7

/-! ## fatfs_disk.c, script.c: the compact action log -/

/-- The buffers that successive calls of `f_read_line(buff, len, file)` fill
from the rest of a file, every read succeeding: a buffer ends after a line
feed or when it holds `len - 1` characters. `cur` is the buffer being
filled. -/
def f_read_lines_from (len : Nat) : List Char → List Char → List (List Char)
  | [], cur => if cur = [] then [] else [cur]
  | c :: cs, cur =>
    if c = '\n' ∨ len - 1 ≤ cur.length + 1 then (cur ++ [c]) :: f_read_lines_from len cs []
    else f_read_lines_from len cs (cur ++ [c])

/-- The buffers that the loop `while (f_read_line(buff, len, file))` sees
for a file with this content; with `len ≤ 1` the first call already returns
`NULL`. -/
def f_read_lines (len : Nat) (content : List Char) : List (List Char) :=
  if len ≤ 1 then [] else f_read_lines_from len content []

/-- The loop `while (isdigit(*line)) timestamp = timestamp * 10 + (*line - '0')`
of `find_next_actions_from_skd` on a `uint64_t`. -/
def skd_timestamp : List Char → Int → Int
  | [], timestamp => timestamp
  | c :: cs, timestamp =>
    if isdigit c then skd_timestamp cs (uint64 (timestamp * 10 + ((c.toNat : Int) - 48)))
    else timestamp

/-- The first part of the loop body of `find_next_actions_from_skd`: from
the line buffer to `is_up` and `timestamp`; `none` is a `continue`. -/
def skd_read_line (line_buffer : List Char) : Option (Bool × Int) :=
  match (c_str line_buffer).dropWhile (fun c => decide (c = ' ' ∨ c = '\t')) with
  | [] => none
  | action_type :: line =>
    if action_type = '#' ∨ action_type = '\n' then none
    else if action_type = 'U' then some (true, skd_timestamp line 0)
    else if action_type = 'D' then some (false, skd_timestamp line 0)
    else none

/-- The compact log read as a sequence of (U|D, timestamp) lines. -/
def skd_entries (content : List Char) : List (Bool × Int) :=
  (f_read_lines 128 content).filterMap skd_read_line

/-- The locals `found_startup`, `found_shutdown` of
`find_next_actions_from_skd` and the two actions it writes through its
pointers. -/
structure SkdScan where
  found_startup : Bool
  found_shutdown : Bool
  startup : Action
  shutdown : Action
deriving DecidableEq, Repr

/-- The second part of the loop body of `find_next_actions_from_skd`, over
the lines that the first part does not skip; the recursion stops at the
`break`. -/
def skd_loop (cur_time : Int) (startup_first : Bool) : List (Bool × Int) → SkdScan → SkdScan
  | [], st => st
  | (is_up, timestamp) :: rest, st =>
    if timestamp ≤ cur_time then skd_loop cur_time startup_first rest st
    else if startup_first then
      if !st.found_startup && is_up then
        skd_loop cur_time startup_first rest
          { st with startup := { is_up := true, time := timestamp }, found_startup := true }
      else if st.found_startup && !is_up && decide (timestamp > st.startup.time) then
        { st with shutdown := { is_up := false, time := timestamp }, found_shutdown := true }
      else skd_loop cur_time startup_first rest st
    else
      if !st.found_shutdown && !is_up then
        skd_loop cur_time startup_first rest
          { st with shutdown := { is_up := false, time := timestamp }, found_shutdown := true }
      else if st.found_shutdown && is_up && decide (timestamp > st.shutdown.time) then
        { st with startup := { is_up := true, time := timestamp }, found_startup := true }
      else skd_loop cur_time startup_first rest st

/-- `find_next_actions_from_skd` of script.c. The file is given in place of
its path, `none` when it cannot be opened; `cur_time` is a `uint64_t`;
`startup` and `shutdown` are what the two pointers (not null at the only call
site) point to; the result is the return value and the two actions after the
call. -/
def find_next_actions_from_skd (file : Option (List Char)) (cur_time : Int)
    (startup_first : Bool) (startup shutdown : Action) : Bool × Action × Action :=
  match file with
  | none => (false, startup, shutdown)
  | some content =>
    let st := skd_loop (uint64 cur_time) startup_first (skd_entries content)
      { found_startup := false, found_shutdown := false, startup := startup, shutdown := shutdown }
    (st.found_startup && st.found_shutdown, st.startup, st.shutdown)

/-- The first entry of the given type whose timestamp is after `t`: its
timestamp and the entries after it. -/
def first_after (is_up : Bool) (t : Int) : List (Bool × Int) → Option (Int × List (Bool × Int))
  | [] => none
  | e :: rest => if e.1 = is_up ∧ t < e.2 then some (e.2, rest) else first_after is_up t rest

/-- The pair of actions that the search is to find: the time of the first
action of the nearer type (UP when `startup_first`) after `cur_time`, and the
time of the first action of the other type after it in the log whose time is
later. -/
def next_pair (entries : List (Bool × Int)) (cur_time : Int) (startup_first : Bool) :
    Option (Int × Int) :=
  match first_after startup_first cur_time entries with
  | none => none
  | some (nearer, rest) =>
    match first_after (!startup_first) nearer rest with
    | none => none
    | some (farther, _) => some (nearer, farther)

/-- Some action of the nearer type after `cur_time` is followed later in the
log by an action of the other type with a larger timestamp. -/
def some_pair (entries : List (Bool × Int)) (cur_time : Int) (startup_first : Bool) : Prop :=
  ∃ l1 l2 l3 t1 t2,
    entries = l1 ++ (startup_first, t1) :: (l2 ++ (!startup_first, t2) :: l3) ∧
    cur_time < t1 ∧ t1 < t2

/-- The entries at `nearer` and `farther` are the first action of the nearer
type (UP when `startup_first`) after `cur_time` and the first action of the
other type after it in the log whose time is later than `nearer`. -/
def is_next_pair (entries : List (Bool × Int)) (cur_time : Int) (startup_first : Bool)
    (nearer farther : Int) : Prop :=
  ∃ l1 l2 l3,
    entries = l1 ++ (startup_first, nearer) :: (l2 ++ (!startup_first, farther) :: l3) ∧
    cur_time < nearer ∧ nearer < farther ∧
    (∀ e ∈ l1, ¬(e.1 = startup_first ∧ cur_time < e.2)) ∧
    (∀ e ∈ l2, ¬(e.1 = (!startup_first) ∧ nearer < e.2))

/-- A compact log that is not in time order. -/
def unordered_skd : List Char := "U10\nD5\nU3\nD8\n".toList

/-- A compact log in time order. -/
def ordered_skd : List Char := "U10\nD20\nU30\nD40\n".toList

/-! ## rtc.c, conf.c: the change callback of the alarm items -/

/-- `on_alarm_conf_changed` of rtc.c after the write of the item `key`; it
reads `current_rpi_state` of power.c. The four `int` values decoded from the
configuration are passed on as `int8_t`; `ts` is an `int64_t` whose address
is given to `adjust_action_time_for_dst`. -/
def on_alarm_conf_changed (current_rpi_state : Int) (e : Env) (key : ConfKey) : Env :=
  if current_rpi_state = STATE_STOPPING ∨ current_rpi_state = STATE_OFF then
    if key = ConfKey.ALARM1_MINUTE ∨ key = ConfKey.ALARM1_HOUR ∨ key = ConfKey.ALARM1_DAY then
      let date := bcd_to_dec (conf_get e ConfKey.ALARM1_DAY)
      let hour := bcd_to_dec (conf_get e ConfKey.ALARM1_HOUR)
      let minute := bcd_to_dec (conf_get e ConfKey.ALARM1_MINUTE)
      let second := bcd_to_dec (conf_get e ConfKey.ALARM1_SECOND)
      if date < 1 ∨ date > 31 ∨ hour > 23 ∨ minute > 59 ∨ second > 59 then
        rtc_set_alarm e 0 0 0 true
      else
        let dt := rtc_get_scheduled_time e (int8 date) (int8 hour) (int8 minute) (int8 second)
        let r := adjust_action_time_for_dst e (uint64 (get_total_seconds dt))
        let dt := if r.2 then timestamp_to_datetime (int64 r.1) else dt
        rtc_set_alarm e dt.day dt.hour dt.min true
    else e
  else if current_rpi_state = STATE_STARTING ∨ current_rpi_state = STATE_ON then
    if key = ConfKey.ALARM2_MINUTE ∨ key = ConfKey.ALARM2_HOUR ∨ key = ConfKey.ALARM2_DAY then
      let date := bcd_to_dec (conf_get e ConfKey.ALARM2_DAY)
      let hour := bcd_to_dec (conf_get e ConfKey.ALARM2_HOUR)
      let minute := bcd_to_dec (conf_get e ConfKey.ALARM2_MINUTE)
      let second := bcd_to_dec (conf_get e ConfKey.ALARM2_SECOND)
      if date < 1 ∨ date > 31 ∨ hour > 23 ∨ minute > 59 ∨ second > 59 then
        rtc_set_alarm e 0 0 0 false
      else
        let dt := rtc_get_scheduled_time e (int8 date) (int8 hour) (int8 minute) (int8 second)
        let r := adjust_action_time_for_dst e (uint64 (get_total_seconds dt))
        let dt := if r.2 then timestamp_to_datetime (int64 r.1) else dt
        rtc_set_alarm e dt.day dt.hour dt.min false
    else e
  else e

/-- `conf_set` of conf.c on one of the eight alarm items, on which `rtc_init`
registers `on_alarm_conf_changed`: the value is stored, then the callback
runs. -/
def conf_set_alarm (current_rpi_state : Int) (e : Env) (key : ConfKey) (value : Int) : Env :=
  on_alarm_conf_changed current_rpi_state (conf_set e key value) key

/-! ## script.c: the three forms of the schedule and `load_script` -/

def ACT_MAX_LINE_LENGTH : Nat := 32
def SKD_MAX_LINE_LENGTH : Nat := 32

/-- The three files of the `/schedule` directory, schedule.wpi, schedule.act
and schedule.skd; `none` is a file that does not exist. Opening an existing
file and writing to a file are taken to succeed. -/
structure Disk where
  wpi : Option (List Char)
  act : Option (List Char)
  skd : Option (List Char)
deriving DecidableEq, Repr

/-- `configure_action` of script.c on an action that is not null: the new
state and the return value. -/
def configure_action (current_rpi_state : Int) (e : Env) (action : Action) : Env × Bool :=
  let dt := timestamp_to_datetime (int64 action.time)
  if action.is_up then
    let e := conf_set_alarm current_rpi_state e ConfKey.ALARM1_SECOND (dec_to_bcd (uint8 dt.sec))
    let e := conf_set_alarm current_rpi_state e ConfKey.ALARM1_MINUTE (dec_to_bcd (uint8 dt.min))
    let e := conf_set_alarm current_rpi_state e ConfKey.ALARM1_HOUR (dec_to_bcd (uint8 dt.hour))
    let e := conf_set_alarm current_rpi_state e ConfKey.ALARM1_DAY (dec_to_bcd (uint8 dt.day))
    (e, true)
  else
    let e := conf_set_alarm current_rpi_state e ConfKey.ALARM2_SECOND (dec_to_bcd (uint8 dt.sec))
    let e := conf_set_alarm current_rpi_state e ConfKey.ALARM2_MINUTE (dec_to_bcd (uint8 dt.min))
    let e := conf_set_alarm current_rpi_state e ConfKey.ALARM2_HOUR (dec_to_bcd (uint8 dt.hour))
    let e := conf_set_alarm current_rpi_state e ConfKey.ALARM2_DAY (dec_to_bcd (uint8 dt.day))
    (e, true)

/-- `set_alarm_for_action` of script.c on an action that is not null: the
new state and the return value. -/
def set_alarm_for_action (current_rpi_state : Int) (e : Env) (action : Action) : Env × Bool :=
  let dt := timestamp_to_datetime (int64 action.time)
  let e := rtc_set_alarm e dt.day dt.hour dt.min action.is_up
  if action.is_up then
    let e := conf_set_alarm current_rpi_state e ConfKey.ALARM1_SECOND (dec_to_bcd (uint8 dt.sec))
    let e := conf_set_alarm current_rpi_state e ConfKey.ALARM1_MINUTE (dec_to_bcd (uint8 dt.min))
    let e := conf_set_alarm current_rpi_state e ConfKey.ALARM1_HOUR (dec_to_bcd (uint8 dt.hour))
    let e := conf_set_alarm current_rpi_state e ConfKey.ALARM1_DAY (dec_to_bcd (uint8 dt.day))
    (e, true)
  else
    let e := conf_set_alarm current_rpi_state e ConfKey.ALARM2_SECOND (dec_to_bcd (uint8 dt.sec))
    let e := conf_set_alarm current_rpi_state e ConfKey.ALARM2_MINUTE (dec_to_bcd (uint8 dt.min))
    let e := conf_set_alarm current_rpi_state e ConfKey.ALARM2_HOUR (dec_to_bcd (uint8 dt.hour))
    let e := conf_set_alarm current_rpi_state e ConfKey.ALARM2_DAY (dec_to_bcd (uint8 dt.day))
    (e, true)

/-- `%2s` of `sscanf`: white space is skipped, then at most two characters
that are not white space are read; `none` when the input ends before one is
read. -/
def scan_2s (s : List Char) : Option (List Char) :=
  match s.dropWhile isspace with
  | [] => none
  | c :: r => some (((c :: r).takeWhile (fun x => !isspace x)).take 2)

/-- `%llu` of `printf`: the decimal digits of an unsigned number. -/
def fmt_llu (n : Int) : List Char := Nat.toDigits 10 n.toNat

/-- `%0<width>d` of `printf`: the decimal digits of an `int` after its sign,
with zeros in front up to the width. -/
def fmt_0d (width : Nat) (x : Int) : List Char :=
  let digits := Nat.toDigits 10 x.natAbs
  if x < 0 then '-' :: (List.replicate (width - 1 - digits.length) '0' ++ digits)
  else List.replicate (width - digits.length) '0' ++ digits

/-- The `datetime_str` of `convert_wpi_to_act`: `snprintf` with the format
`%04d-%02d-%02d %02d:%02d:%02d` into a buffer of 20 characters keeps the
first 19 characters of the text. -/
def datetime_str (dt : DateTime) : List Char :=
  (fmt_0d 4 dt.year ++ ['-'] ++ fmt_0d 2 dt.month ++ ['-'] ++ fmt_0d 2 dt.day ++ [' ']
    ++ fmt_0d 2 dt.hour ++ [':'] ++ fmt_0d 2 dt.min ++ [':'] ++ fmt_0d 2 dt.sec).take 19

/-- The line that `convert_wpi_to_act` formats for an action: the text
`snprintf` is asked to write into `output_buffer` with the format `%s %s\n`. -/
def act_line (a : Action) : List Char :=
  (if a.is_up then ['U', 'P'] else ['D', 'N']) ++ [' ']
    ++ datetime_str (timestamp_to_datetime (int64 a.time)) ++ ['\n']

/-- The `for` loop of `convert_wpi_to_act` over the actions: the content of
the .act file after it, and whether it ran to its end; it stops with `false`
at a line that does not fit `output_buffer`. -/
def write_act_lines : List Action → List Char → List Char × Bool
  | [], out => (out, true)
  | a :: rest, out =>
    if ACT_MAX_LINE_LENGTH ≤ (act_line a).length then (out, false)
    else write_act_lines rest (out ++ act_line a)

/-- `convert_wpi_to_act` of script.c: the files after the call and the
return value; `none` when `parse_wpi_script` is still running after `fuel`
steps. `cur_time` is an `int64_t`. -/
def convert_wpi_to_act (fuel : Nat) (d : Disk) (cur_time : Int) : Option (Disk × Bool) :=
  match d.wpi with
  | none => some (d, false)
  | some wpi_content =>
    match parse_wpi_script fuel wpi_content cur_time with
    | Outcome.out_of_fuel => none
    | Outcome.returns_false => some (d, false)
    | Outcome.returns_true actions =>
      let r := write_act_lines actions "# Converted from .wpi script\n\n".toList
      some ({ d with act := some r.1 }, r.2)

/-- What the loop body of `convert_act_to_skd` does with a line: `continue`,
`return false`, or the line it writes to the .skd file. -/
inductive SkdLine where
  | skipped : SkdLine
  | failed : SkdLine
  | written (text : List Char) : SkdLine
deriving DecidableEq, Repr

/-- The second part of the loop body of `convert_act_to_skd`, from the
extraction of the datetime string on: `datetime_start` is the line after the
action type and the blanks that follow it. -/
def act_to_skd_output (action_char : Char) (datetime_start : List Char) : SkdLine :=
  let datetime_str :=
    (datetime_start.takeWhile (fun c => decide (c ≠ '\n' ∧ c ≠ '\r' ∧ c ≠ '#'))).take 19
  match str_to_datetime datetime_str with
  | none => SkdLine.skipped
  | some dt =>
    let timestamp := uint64 (get_total_seconds dt)
    let comment := (datetime_start.drop datetime_str.length).dropWhile
      (fun c => decide (c ≠ '#'))
    let output :=
      if comment ≠ [] then action_char :: fmt_llu timestamp ++ [' '] ++ comment
      else action_char :: fmt_llu timestamp ++ ['\n']
    if SKD_MAX_LINE_LENGTH ≤ output.length then SkdLine.failed
    else SkdLine.written output

/-- The loop body of `convert_act_to_skd` on the buffer that `f_read_line`
filled. -/
def act_to_skd_line (line_buffer : List Char) : SkdLine :=
  let line := (c_str line_buffer).dropWhile (fun c => decide (c = ' ' ∨ c = '\t'))
  match line with
  | [] => SkdLine.skipped
  | first :: _ =>
    if first = '#' ∨ first = '\n' ∨ first = '\r' then SkdLine.skipped
    else
      match scan_2s line with
      | none => SkdLine.skipped
      | some action_str =>
        if action_str = ['U', 'P'] then
          act_to_skd_output 'U' ((line.drop 2).dropWhile (fun c => decide (c = ' ' ∨ c = '\t')))
        else if action_str = ['D', 'N'] then
          act_to_skd_output 'D' ((line.drop 2).dropWhile (fun c => decide (c = ' ' ∨ c = '\t')))
        else SkdLine.skipped

/-- The `while` loop of `convert_act_to_skd` over the lines read: the
content of the .skd file after it, and whether it ran to its end. -/
def act_to_skd_lines : List (List Char) → List Char → List Char × Bool
  | [], out => (out, true)
  | line_buffer :: rest, out =>
    match act_to_skd_line line_buffer with
    | SkdLine.skipped => act_to_skd_lines rest out
    | SkdLine.failed => (out, false)
    | SkdLine.written text => act_to_skd_lines rest (out ++ text)

/-- `convert_act_to_skd` of script.c: the files after the call and the
return value. -/
def convert_act_to_skd (d : Disk) : Disk × Bool :=
  match d.act with
  | none => (d, false)
  | some act_content =>
    let r := act_to_skd_lines (f_read_lines ACT_MAX_LINE_LENGTH act_content)
      "# Converted from .act script\n\n".toList
    ({ d with skd := some r.1 }, r.2)

/-- What `load_script` leaves behind: the files, the configuration and the
clock, the flag `script_in_use`, and its return value. -/
structure Loaded where
  disk : Disk
  env : Env
  script_in_use : Bool
  result : Bool

/-- The first part of `load_script`: the .skd file is generated when it does
not exist; the files afterwards and whether the function goes on (`false` is
a `return false`); `none` when `parse_wpi_script` is still running after
`fuel` steps. -/
def prepare_skd (fuel : Nat) (d : Disk) (cur_time : Int) : Option (Disk × Bool) :=
  if d.skd.isSome then some (d, true)
  else if d.act.isSome then some (convert_act_to_skd d)
  else if d.wpi.isSome then
    match convert_wpi_to_act fuel d (int64 cur_time) with
    | none => none
    | some (d1, true) => some (convert_act_to_skd d1)
    | some (d1, false) => some (d1, false)
  else some (d, false)

/-- `load_script` of script.c, reading `current_rpi_state` of power.c;
`none` when `parse_wpi_script` is still running after `fuel` steps. The
locals `startup` and `shutdown` are not initialised in the source; they are
read only after `find_next_actions_from_skd` has written both. -/
def load_script (fuel : Nat) (run : Bool) (current_rpi_state : Int) (d : Disk) (e : Env) :
    Option Loaded :=
  let cur := rtc_get_timestamp e
  if !cur.2 then some { disk := d, env := e, script_in_use := false, result := false }
  else
    let cur_time := uint64 cur.1
    match prepare_skd fuel d cur_time with
    | none => none
    | some (d, false) => some { disk := d, env := e, script_in_use := false, result := false }
    | some (d, true) =>
      if !run then some { disk := d, env := e, script_in_use := true, result := true }
      else
        let startup_first : Bool :=
          decide (current_rpi_state = STATE_STOPPING ∨ current_rpi_state = STATE_OFF)
        let found :=
          if d.skd.isSome then
            find_next_actions_from_skd d.skd cur_time startup_first ⟨false, 0⟩ ⟨false, 0⟩
          else (false, ⟨false, 0⟩, ⟨false, 0⟩)
        if !found.1 then some { disk := d, env := e, script_in_use := false, result := false }
        else
          let startup := found.2.1
          let shutdown := found.2.2
          if startup_first then
            let startup := { startup with time := (adjust_action_time_for_dst e startup.time).1 }
            let r1 := set_alarm_for_action current_rpi_state e startup
            let r2 := configure_action current_rpi_state r1.1 shutdown
            let success := r1.2 && r2.2
            some { disk := d, env := r2.1, script_in_use := success, result := success }
          else
            let shutdown :=
              { shutdown with time := (adjust_action_time_for_dst e shutdown.time).1 }
            let r1 := set_alarm_for_action current_rpi_state e shutdown
            let r2 := configure_action current_rpi_state r1.1 startup
            let success := r1.2 && r2.2
            some { disk := d, env := r2.1, script_in_use := success, result := success }

/-- The DST rule of the examples, the clock at Friday 2024-03-01 12:00:00,
nine days before the DST interval begins, DST not applied. -/
def dst_env_march : Env :=
  { conf := dst_config, reg_seconds := 0x00, reg_minutes := 0x00, reg_hours := 0x12,
    reg_weekday := 0x20, reg_day := 0x01, reg_month := 0x03, reg_year := 0x24,
    reg_alarm_minutes := 0, reg_alarm_hours := 0, reg_alarm_daydate := 0,
    alarm_type := ALARM_TYPE_NONE }

/-- A disk with an action list of a startup on 2024-03-15 at 08:00:00 and a
shutdown on the same day at 20:00:00. -/
def disk_march : Disk :=
  { wpi := none, act := some "UP 2024-03-15 08:00:00\nDN 2024-03-15 20:00:00\n".toList,
    skd := none }

/-- A disk with an action list of a shutdown on 2024-03-15 at 08:00:00 and a
startup on the same day at 20:00:00. -/
def disk_march_down_first : Disk :=
  { wpi := none, act := some "DN 2024-03-15 08:00:00\nUP 2024-03-15 20:00:00\n".toList,
    skd := none }

/-- What the claims about `load_script` read of its outcome: the return
value, `alarm_type`, the day, hour and minute alarm registers, and the
second, minute, hour and day items of ALARM1 and of ALARM2. -/
def loaded_alarms (r : Option Loaded) : Option (Bool × Int × List Int × List Int × List Int) :=
  r.map fun r =>
    (r.result, r.env.alarm_type,
      [r.env.reg_alarm_daydate, r.env.reg_alarm_hours, r.env.reg_alarm_minutes],
      [conf_get r.env ConfKey.ALARM1_SECOND, conf_get r.env ConfKey.ALARM1_MINUTE,
        conf_get r.env ConfKey.ALARM1_HOUR, conf_get r.env ConfKey.ALARM1_DAY],
      [conf_get r.env ConfKey.ALARM2_SECOND, conf_get r.env ConfKey.ALARM2_MINUTE,
        conf_get r.env ConfKey.ALARM2_HOUR, conf_get r.env ConfKey.ALARM2_DAY])

/-- The text `ds` is a decimal numeral of `v`: at least one character, digits
only, read by `scan_digits` as `v`. -/
def is_numeral (ds : List Char) (v : Int) : Prop :=
  ds ≠ [] ∧ (∀ c ∈ ds, isdigit c = true) ∧ scan_digits ds 0 = (v, [])

instance (ds : List Char) (v : Int) : Decidable (is_numeral ds v) := by
  unfold is_numeral; infer_instance

/-- The eight alarm items of the configuration. -/
def alarm_key (k : ConfKey) : Bool :=
  k == ConfKey.ALARM1_SECOND || k == ConfKey.ALARM1_MINUTE || k == ConfKey.ALARM1_HOUR
  || k == ConfKey.ALARM1_DAY || k == ConfKey.ALARM2_SECOND || k == ConfKey.ALARM2_MINUTE
  || k == ConfKey.ALARM2_HOUR || k == ConfKey.ALARM2_DAY

/-- Two states differ at most in the alarm: the time registers of the clock
and the items of the configuration other than the alarm items agree. -/
def same_clock (x y : Env) : Prop :=
  x.reg_seconds = y.reg_seconds ∧ x.reg_minutes = y.reg_minutes ∧ x.reg_hours = y.reg_hours ∧
  x.reg_weekday = y.reg_weekday ∧ x.reg_day = y.reg_day ∧ x.reg_month = y.reg_month ∧
  x.reg_year = y.reg_year ∧ ∀ k, alarm_key k = false → x.conf k = y.conf k

/-- The date and time that `on_alarm_conf_changed` arms when the alarm items
hold the day, hour, minute and second of `dt`: they are resolved against the
clock with `rtc_get_scheduled_time`, and the result is adjusted for DST. -/
def rearmed_time (e : Env) (dt : DateTime) : DateTime :=
  let scheduled := rtc_get_scheduled_time e dt.day dt.hour dt.min dt.sec
  let r := adjust_action_time_for_dst e (uint64 (get_total_seconds scheduled))
  if r.2 then timestamp_to_datetime (int64 r.1) else scheduled

/-- What `load_script(true)` leaves behind on `disk_march` with the host OFF
and the clock and DST rule of `dst_env_march`. -/
def loaded_march : Loaded :=
  (load_script 0 true STATE_OFF disk_march dst_env_march).getD
    { disk := disk_march, env := dst_env_march, script_in_use := false, result := false }

/-- The state of main.c over the running board `board_on`, no retry pending. -/
def main_on : Main :=
  { sys := board_on, postponed_action_alarm_id := -1, retry_alarms := [] }

/-- The state of main.c over the board `board_good_voltage`, which is OFF
with both sources good; no retry pending. -/
def main_off : Main :=
  { sys := board_good_voltage, postponed_action_alarm_id := -1, retry_alarms := [] }

/-! ## Time arithmetic: lemmas -/

theorem cdiv_of_nonneg {a b : Int} (ha : 0 ≤ a) (hb : 0 ≤ b) : cdiv a b = a / b :=
  Int.tdiv_eq_ediv ha hb

theorem cmod_of_nonneg {a b : Int} (ha : 0 ≤ a) (hb : 0 ≤ b) : cmod a b = a % b :=
  Int.tmod_eq_emod ha hb

theorem int8_of_range {x : Int} (h1 : -128 ≤ x) (h2 : x ≤ 127) : int8 x = x := by
  unfold int8; omega

theorem int16_of_range {x : Int} (h1 : -32768 ≤ x) (h2 : x ≤ 32767) : int16 x = x := by
  unfold int16; omega

theorem int32_of_range {x : Int} (h1 : -2147483648 ≤ x) (h2 : x ≤ 2147483647) : int32 x = x := by
  unfold int32; omega

theorem seconds_in_year_bounds (year : Int) :
    31536000 ≤ seconds_in_year year ∧ seconds_in_year year ≤ 31622400 := by
  unfold seconds_in_year; cases is_leap_year year <;> simp

theorem get_days_in_month_bounds (year month : Int) (h1 : 1 ≤ month) (h2 : month ≤ 12) :
    28 ≤ get_days_in_month year month ∧ get_days_in_month year month ≤ 31 := by
  have : month = 1 ∨ month = 2 ∨ month = 3 ∨ month = 4 ∨ month = 5 ∨ month = 6 ∨ month = 7
      ∨ month = 8 ∨ month = 9 ∨ month = 10 ∨ month = 11 ∨ month = 12 := by omega
  rcases this with h | h | h | h | h | h | h | h | h | h | h | h <;> subst h <;>
    cases hl : is_leap_year year <;> simp [get_days_in_month, days_in_month, hl]

theorem get_days_in_month_nonneg (year month : Int) : 0 ≤ get_days_in_month year month := by
  unfold get_days_in_month
  split
  · omega
  · unfold days_in_month
    split
    · omega
    · generalize month.toNat = n
      iterate 13 (rcases n with _ | n; · simp)
      simp

theorem sum_years_succ (n : Nat) :
    sum_years (n + 1) = sum_years n + seconds_in_year (2000 + n) := rfl

theorem sum_months_succ (year : Int) (n : Nat) :
    sum_months year (n + 1) = sum_months year n + get_days_in_month year (n + 1) * 86400 := rfl

theorem sum_years_mono (a b : Nat) : sum_years a ≤ sum_years (a + b) := by
  induction b with
  | zero => simp
  | succ b ih =>
    have h := seconds_in_year_bounds (2000 + (a + b : Nat))
    rw [← Nat.add_assoc, sum_years_succ]; omega

theorem sum_years_lower (n : Nat) : (n : Int) * 31536000 ≤ sum_years n := by
  induction n with
  | zero => simp [sum_years]
  | succ n ih =>
    have h := seconds_in_year_bounds (2000 + (n : Nat))
    rw [sum_years_succ]; push_cast; omega

theorem sum_months_mono (year : Int) (a b : Nat) : sum_months year a ≤ sum_months year (a + b) := by
  induction b with
  | zero => simp
  | succ b ih =>
    have h := get_days_in_month_nonneg year ((a + b : Nat) + 1)
    rw [← Nat.add_assoc, sum_months_succ]; omega

theorem sum_months_twelve (year : Int) : sum_months year 12 = seconds_in_year year := by
  cases hl : is_leap_year year <;>
    simp [sum_months, get_days_in_month, days_in_month, seconds_in_year, hl]

theorem year_loop_spec (b : Nat) : ∀ (a fuel : Nat) (r : Int), b < fuel → a + b ≤ 30000 →
    0 ≤ r → r < seconds_in_year (2000 + (a + b : Nat)) →
    year_loop fuel (2000 + (a : Int)) (sum_years (a + b) - sum_years a + r)
      = (2000 + ((a + b : Nat) : Int), r) := by
  induction b with
  | zero =>
    intro a fuel r hf _ h0 h1
    obtain ⟨f, rfl⟩ : ∃ f, fuel = f + 1 := ⟨fuel - 1, by omega⟩
    simp only [Nat.add_zero] at h1 ⊢
    unfold year_loop
    rw [if_pos (by omega)]
    simp
  | succ b ih =>
    intro a fuel r hf hb h0 h1
    obtain ⟨f, rfl⟩ : ∃ f, fuel = f + 1 := ⟨fuel - 1, by omega⟩
    have hm := sum_years_mono (a + 1) b
    have hs := sum_years_succ a
    have e1 : a + (b + 1) = a + 1 + b := by omega
    rw [e1] at h1 ⊢
    unfold year_loop
    rw [if_neg (by omega)]
    have e2 : int16 (2000 + (a : Int) + 1) = 2000 + ((a + 1 : Nat) : Int) := by
      rw [int16_of_range (by omega) (by omega)]; push_cast; omega
    have e3 : sum_years (a + 1 + b) - sum_years a + r - seconds_in_year (2000 + (a : Int))
        = sum_years (a + 1 + b) - sum_years (a + 1) + r := by omega
    rw [e2, e3]
    exact ih (a + 1) f r (by omega) (by omega) h0 h1

theorem month_loop_spec (year : Int) (b : Nat) : ∀ (a fuel : Nat) (r : Int), b < fuel →
    a + b + 1 ≤ 12 → 0 ≤ r → r < get_days_in_month year ((a + b : Nat) + 1) * 86400 →
    month_loop fuel year ((a : Int) + 1) (sum_months year (a + b) - sum_months year a + r)
      = (((a + b : Nat) : Int) + 1, r) := by
  induction b with
  | zero =>
    intro a fuel r hf _ h0 h1
    obtain ⟨f, rfl⟩ : ∃ f, fuel = f + 1 := ⟨fuel - 1, by omega⟩
    simp only [Nat.add_zero] at h1 ⊢
    unfold month_loop
    rw [if_pos (by omega)]
    simp
  | succ b ih =>
    intro a fuel r hf hb h0 h1
    obtain ⟨f, rfl⟩ : ∃ f, fuel = f + 1 := ⟨fuel - 1, by omega⟩
    have hm := sum_months_mono year (a + 1) b
    have hs : sum_months year (a + 1)
        = sum_months year a + get_days_in_month year ((a : Int) + 1) * 86400 := by
      rw [sum_months_succ]
    have e1 : a + (b + 1) = a + 1 + b := by omega
    rw [e1] at h1 ⊢
    unfold month_loop
    rw [if_neg (by omega)]
    have e2 : int8 ((a : Int) + 1 + 1) = ((a + 1 : Nat) : Int) + 1 := by
      rw [int8_of_range (by omega) (by omega)]; push_cast; omega
    have e3 : sum_months year (a + 1 + b) - sum_months year a + r
          - get_days_in_month year ((a : Int) + 1) * 86400
        = sum_months year (a + 1 + b) - sum_months year (a + 1) + r := by omega
    rw [e2, e3]
    exact ih (a + 1) f r (by omega) (by omega) h0 h1
theorem sum_months_nonneg (year : Int) (m : Nat) : 0 ≤ sum_months year m := by
  have h := sum_months_mono year 0 m
  simpa [sum_months] using h

theorem sum_months_lt_year (year : Int) (m : Nat) (hm : m ≤ 11) (r : Int)
    (h1 : r < get_days_in_month year ((m : Nat) + 1) * 86400) :
    sum_months year m + r < seconds_in_year year := by
  have h := sum_months_mono year (m + 1) (11 - m)
  have e : m + 1 + (11 - m) = 12 := by omega
  rw [e, sum_months_twelve, sum_months_succ] at h
  omega

/-- The shape of `timestamp_to_datetime` on a timestamp split into whole
years since 2000, whole months of the year and a rest within the month. -/
theorem timestamp_to_datetime_split (n m : Nat) (r : Int) (hn : n ≤ 99) (hm : m ≤ 11)
    (h0 : 0 ≤ r) (h1 : r < get_days_in_month (2000 + (n : Int)) ((m : Nat) + 1) * 86400) :
    timestamp_to_datetime (sum_years n + sum_months (2000 + (n : Int)) m + r)
      = { year := 2000 + (n : Int), month := (m : Int) + 1, day := 1 + r / 86400,
          hour := r % 86400 / 3600, min := r % 3600 / 60, sec := r % 60,
          wday := int8 (zeller_wday (2000 + (n : Int)) ((m : Int) + 1) (1 + r / 86400)) } := by
  have hd := get_days_in_month_bounds (2000 + (n : Int)) ((m : Nat) + 1) (by omega) (by omega)
  have hmn := sum_months_nonneg (2000 + (n : Int)) m
  have hlt := sum_months_lt_year (2000 + (n : Int)) m hm r h1
  have hlow := sum_years_lower n
  have hy := year_loop_spec n 0
    (((sum_years n + sum_months (2000 + (n : Int)) m + r) / (365 * 86400)).toNat + 1)
    (sum_months (2000 + (n : Int)) m + r) (by omega) (by omega) (by omega)
    (by simpa using hlt)
  have hml := month_loop_spec (2000 + (n : Int)) m 0 12 r (by omega) (by omega) h0
    (by simpa using h1)
  simp only [Nat.zero_add, sum_years, sum_months, sub_zero, Nat.cast_zero, add_zero,
    zero_add] at hy hml
  have hy' : year_loop (((sum_years n + sum_months (2000 + (n : Int)) m + r) / (365 * 86400)).toNat + 1)
      2000 (sum_years n + sum_months (2000 + (n : Int)) m + r)
      = (2000 + (n : Int), sum_months (2000 + (n : Int)) m + r) := by
    rw [← hy]; congr 1; ring
  unfold timestamp_to_datetime
  simp only [hy', hml]
  have c1 : cdiv r 86400 = r / 86400 := cdiv_of_nonneg h0 (by omega)
  have c2 : cmod r 86400 = r % 86400 := cmod_of_nonneg h0 (by omega)
  have c3 : cdiv (r % 86400) 3600 = r % 86400 / 3600 := cdiv_of_nonneg (by omega) (by omega)
  have c4 : cmod (r % 86400) 3600 = r % 3600 := by
    rw [cmod_of_nonneg (by omega) (by omega)]; omega
  have c5 : cdiv (r % 3600) 60 = r % 3600 / 60 := cdiv_of_nonneg (by omega) (by omega)
  have c6 : cmod (r % 3600) 60 = r % 60 := by
    rw [cmod_of_nonneg (by omega) (by omega)]; omega
  rw [c1, c2, c3, c4, c5, c6]
  rw [int32_of_range (x := r / 86400) (by omega) (by omega),
    int32_of_range (x := r % 86400 / 3600) (by omega) (by omega),
    int32_of_range (x := r % 3600 / 60) (by omega) (by omega),
    int32_of_range (x := r % 60) (by omega) (by omega),
    int8_of_range (x := 1 + r / 86400) (by omega) (by omega),
    int8_of_range (x := r % 86400 / 3600) (by omega) (by omega),
    int8_of_range (x := r % 3600 / 60) (by omega) (by omega),
    int8_of_range (x := r % 60) (by omega) (by omega)]

/-- The timestamp of a calendar-valid `DateTime`, split as
`timestamp_to_datetime_split` wants it. -/
theorem get_total_seconds_split (dt : DateTime) (h : dt.valid) :
    ∃ (n m : Nat), n ≤ 99 ∧ m ≤ 11 ∧ dt.year = 2000 + (n : Int) ∧ dt.month = (m : Int) + 1 ∧
      get_total_seconds dt = sum_years n + sum_months (2000 + (n : Int)) m
        + ((dt.day - 1) * 86400 + dt.hour * 3600 + dt.min * 60 + dt.sec) := by
  obtain ⟨h1, h2, h3, h4, -⟩ := h
  refine ⟨(dt.year - 2000).toNat, (dt.month - 1).toNat, by omega, by omega, by omega, by omega, ?_⟩
  unfold get_total_seconds
  have e : 2000 + (((dt.year - 2000).toNat : Nat) : Int) = dt.year := by omega
  rw [e]
theorem rest_bounds (dt : DateTime) (h : dt.valid) :
    0 ≤ (dt.day - 1) * 86400 + dt.hour * 3600 + dt.min * 60 + dt.sec ∧
    (dt.day - 1) * 86400 + dt.hour * 3600 + dt.min * 60 + dt.sec
      < get_days_in_month dt.year dt.month * 86400 := by
  obtain ⟨-, -, -, -, h5, h6, h7, h8, h9, h10, h11, h12⟩ := h
  constructor <;> omega

/-! ## Time arithmetic: theorems -/

/-- C5: for every calendar-valid `DateTime` within 2000..2099,
`timestamp_to_datetime (get_total_seconds dt)` has the year, month, day, hour,
minute and second of `dt` (the weekday is recomputed and not compared). -/
theorem timestamp_to_datetime_get_total_seconds (dt : DateTime) (h : dt.valid) :
    (timestamp_to_datetime (get_total_seconds dt)).year = dt.year ∧
    (timestamp_to_datetime (get_total_seconds dt)).month = dt.month ∧
    (timestamp_to_datetime (get_total_seconds dt)).day = dt.day ∧
    (timestamp_to_datetime (get_total_seconds dt)).hour = dt.hour ∧
    (timestamp_to_datetime (get_total_seconds dt)).min = dt.min ∧
    (timestamp_to_datetime (get_total_seconds dt)).sec = dt.sec := by
  obtain ⟨n, m, hn, hm, hy, hmo, hts⟩ := get_total_seconds_split dt h
  obtain ⟨r0, r1⟩ := rest_bounds dt h
  obtain ⟨-, -, -, -, h5, h6, h7, h8, h9, h10, h11, h12⟩ := h
  rw [hy, hmo] at r1
  rw [hts, timestamp_to_datetime_split n m _ hn hm r0 (by simpa using r1)]
  simp only
  refine ⟨hy.symm, hmo.symm, ?_, ?_, ?_, ?_⟩ <;> omega

/-- Witness of C5 at 2024-02-29 23:59:59. -/
theorem timestamp_to_datetime_get_total_seconds_witness :
    (timestamp_to_datetime (get_total_seconds ⟨2024, 2, 29, 23, 59, 59, 0⟩)).year = 2024 ∧
    (timestamp_to_datetime (get_total_seconds ⟨2024, 2, 29, 23, 59, 59, 0⟩)).month = 2 ∧
    (timestamp_to_datetime (get_total_seconds ⟨2024, 2, 29, 23, 59, 59, 0⟩)).day = 29 ∧
    (timestamp_to_datetime (get_total_seconds ⟨2024, 2, 29, 23, 59, 59, 0⟩)).hour = 23 ∧
    (timestamp_to_datetime (get_total_seconds ⟨2024, 2, 29, 23, 59, 59, 0⟩)).min = 59 ∧
    (timestamp_to_datetime (get_total_seconds ⟨2024, 2, 29, 23, 59, 59, 0⟩)).sec = 59 :=
  timestamp_to_datetime_get_total_seconds ⟨2024, 2, 29, 23, 59, 59, 0⟩ (by decide)

/-- C6: for calendar-valid `DateTime`s within 2000..2099, `get_total_seconds`
is strictly increasing in the lexicographic order of
`(year, month, day, hour, min, sec)`. -/
theorem get_total_seconds_strict_mono (a b : DateTime) (ha : a.valid) (hb : b.valid)
    (h : a.lexLt b) : get_total_seconds a < get_total_seconds b := by
  obtain ⟨na, ma, hna, hma, hya, hmoa, htsa⟩ := get_total_seconds_split a ha
  obtain ⟨nb, mb, hnb, hmb, hyb, hmob, htsb⟩ := get_total_seconds_split b hb
  obtain ⟨a0, a1⟩ := rest_bounds a ha
  obtain ⟨b0, b1⟩ := rest_bounds b hb
  rw [hya, hmoa] at a1
  rw [htsa, htsb]
  have hla := sum_months_lt_year (2000 + (na : Int)) ma hma _ (by simpa using a1)
  have hnb0 := sum_months_nonneg (2000 + (nb : Int)) mb
  rcases h with h | ⟨hy, h⟩
  · -- an earlier year
    have hlt : na + 1 ≤ nb := by omega
    obtain ⟨k, rfl⟩ : ∃ k, nb = na + 1 + k := ⟨nb - (na + 1), by omega⟩
    have h1 := sum_years_mono (na + 1) k
    have h2 := sum_years_succ na
    omega
  · have hn : na = nb := by omega
    subst hn
    rcases h with h | ⟨hmo, h⟩
    · -- the same year, an earlier month
      have hlt : ma + 1 ≤ mb := by omega
      obtain ⟨k, rfl⟩ : ∃ k, mb = ma + 1 + k := ⟨mb - (ma + 1), by omega⟩
      have h1 := sum_months_mono (2000 + (na : Int)) (ma + 1) k
      have h2 := sum_months_succ (2000 + (na : Int)) ma
      have a1' : (a.day - 1) * 86400 + a.hour * 3600 + a.min * 60 + a.sec
          < get_days_in_month (2000 + (na : Int)) (((ma : Nat) : Int) + 1) * 86400 := a1
      omega
    · have hm : ma = mb := by omega
      subst hm
      obtain ⟨-, -, -, -, -, -, a7, a8, a9, a10, a11, a12⟩ := ha
      obtain ⟨-, -, -, -, -, -, b7, b8, b9, b10, b11, b12⟩ := hb
      rcases h with h | ⟨hd, h | ⟨hh, h | ⟨hmi, h⟩⟩⟩ <;> omega

/-- Witness of C6: 2024-02-29 23:59:59 is before 2024-03-01 00:00:00. -/
theorem get_total_seconds_strict_mono_witness :
    get_total_seconds ⟨2024, 2, 29, 23, 59, 59, 0⟩ < get_total_seconds ⟨2024, 3, 1, 0, 0, 0, 0⟩ :=
  get_total_seconds_strict_mono ⟨2024, 2, 29, 23, 59, 59, 0⟩ ⟨2024, 3, 1, 0, 0, 0, 0⟩
    (by decide) (by decide) (by decide)

/-! ## Power state machine: lemmas -/

theorem apply_dst_if_needed_conf (e : Env) (k : ConfKey) (hk : k ≠ ConfKey.DST_APPLIED) :
    conf_get (apply_dst_if_needed e).1 k = conf_get e k := by
  unfold apply_dst_if_needed
  simp only []
  split_ifs <;> simp [conf_sync, conf_set, conf_get, rtc_set_timestamp, rtc_set_time, hk]

theorem power_control_pi_power_on_state (s : Sys) :
    (power_control_pi_power_on s).1.current_rpi_state
      = if can_power_rpi s = true then STATE_STARTING else s.current_rpi_state := by
  unfold power_control_pi_power_on can_power_rpi sources_can_power_rpi
  simp only []
  split_ifs <;>
    simp_all [reset_heatbeat_checking_timer, add_alarm_in_us, cancel_alarm, set_rpi_state,
      get_vusb_mv, get_vin_mv, POWER_SOURCE_PRIORITY_VUSB, POWER_SOURCE_PRIORITY_VIN] <;> omega

theorem can_power_rpi_congr (a b : Sys) (h1 : a.gpio_pi_power_ctrl = b.gpio_pi_power_ctrl)
    (h2 : conf_get a.toEnv ConfKey.PS_PRIORITY = conf_get b.toEnv ConfKey.PS_PRIORITY)
    (h3 : a.vusb_mv = b.vusb_mv) (h4 : a.vin_mv = b.vin_mv) :
    can_power_rpi a = can_power_rpi b := by
  simp [can_power_rpi, sources_can_power_rpi, get_vusb_mv, get_vin_mv, h1, h2, h3, h4]


theorem power_control_pi_power_on_edges (s : Sys) :
    (power_control_pi_power_on s).1.edges
      = s.edges ++ (if can_power_rpi s = true then [(s.current_rpi_state, STATE_STARTING)]
          else []) := by
  unfold power_control_pi_power_on can_power_rpi sources_can_power_rpi
  simp only []
  split_ifs <;>
    simp_all [reset_heatbeat_checking_timer, add_alarm_in_us, cancel_alarm, set_rpi_state,
      get_vusb_mv, get_vin_mv, POWER_SOURCE_PRIORITY_VUSB, POWER_SOURCE_PRIORITY_VIN] <;> omega

theorem power_control_pi_power_on_calls (s : Sys) :
    (power_control_pi_power_on s).1.calls = s.calls := by
  unfold power_control_pi_power_on
  simp only []
  split_ifs <;>
    simp [reset_heatbeat_checking_timer, add_alarm_in_us, cancel_alarm, set_rpi_state]

theorem request_startup_off_edges (load_script : Bool → Sys → Env × Bool) (s : Sys)
    (reason : Int) (h : s.current_rpi_state = STATE_OFF) :
    (request_startup load_script s reason).1.edges
      = s.edges ++ (if can_power_rpi s = true then [(STATE_OFF, STATE_STARTING)] else []) := by
  unfold request_startup
  simp only [h, if_true]
  split_ifs <;>
  · simp only [add_alarm_in_us, power_control_pi_power_on_edges]
    rw [can_power_rpi_congr _ s (by simp [control_led, cancel_alarm])
      (by simp [control_led, cancel_alarm, apply_dst_if_needed_conf])
      (by simp [control_led, cancel_alarm]) (by simp [control_led, cancel_alarm])]
    simp [*, control_led, cancel_alarm]

theorem request_startup_off_calls (load_script : Bool → Sys → Env × Bool) (s : Sys)
    (reason : Int) (h : s.current_rpi_state = STATE_OFF) :
    (request_startup load_script s reason).1.calls
      = s.calls ++ [Call.request_startup reason] := by
  unfold request_startup
  simp only [h, if_true]
  split_ifs <;>
  · simp only [add_alarm_in_us, power_control_pi_power_on_calls]
    simp [control_led, cancel_alarm]

theorem request_startup_off_state (load_script : Bool → Sys → Env × Bool) (s : Sys)
    (reason : Int) (h : s.current_rpi_state = STATE_OFF) :
    (request_startup load_script s reason).1.current_rpi_state
      = if can_power_rpi s = true then STATE_STARTING else STATE_OFF := by
  unfold request_startup
  simp only [h, if_true]
  split_ifs <;>
  · simp only [add_alarm_in_us, power_control_pi_power_on_state]
    rw [can_power_rpi_congr _ s (by simp [control_led, cancel_alarm])
      (by simp [control_led, cancel_alarm, apply_dst_if_needed_conf])
      (by simp [control_led, cancel_alarm]) (by simp [control_led, cancel_alarm])]
    simp [*, control_led, cancel_alarm]

/-- What `request_shutdown` does to the fields the power cut depends on,
when it is called in ON. -/
theorem request_shutdown_on (load_script : Bool → Sys → Env × Bool) (s : Sys)
    (restart : Bool) (reason : Int) (h : s.current_rpi_state = STATE_ON) :
    (request_shutdown load_script s restart reason).1.current_rpi_state = STATE_STOPPING ∧
    (request_shutdown load_script s restart reason).1.edges
      = s.edges ++ [(STATE_ON, STATE_STOPPING)] ∧
    (request_shutdown load_script s restart reason).1.calls
      = s.calls ++ [Call.request_shutdown restart reason] ∧
    (request_shutdown load_script s restart reason).1.gpio_pi_power_ctrl
      = s.gpio_pi_power_ctrl ∧
    (request_shutdown load_script s restart reason).1.power_cut_callback
      = (if restart = true then some PowerCutCallback.restart_after_power_cut else none) ∧
    (request_shutdown load_script s restart reason).1.vusb_mv = s.vusb_mv ∧
    (request_shutdown load_script s restart reason).1.vin_mv = s.vin_mv ∧
    (restart = true → (request_shutdown load_script s restart reason).1.toEnv = s.toEnv) := by
  unfold request_shutdown
  simp only [h, if_true]
  cases restart
  · simp only [add_alarm_in_us, set_rpi_state, control_led, request_rpi_shutdown, if_true]
    split_ifs <;> simp [h]
  · simp [add_alarm_in_us, set_rpi_state, control_led, request_rpi_shutdown, h]

/-- The power cut when no restart was asked for. -/
theorem power_off_callback_plain (load_script : Bool → Sys → Env × Bool) (t : Sys)
    (hp : t.gpio_pi_power_ctrl = true) (hc : t.power_cut_callback = none) :
    (power_off_callback load_script t).1.current_rpi_state = STATE_OFF ∧
    (power_off_callback load_script t).1.edges = t.edges ++ [(t.current_rpi_state, STATE_OFF)] ∧
    (power_off_callback load_script t).1.calls = t.calls := by
  unfold power_off_callback power_control_pi_power power_control_pi_power_off
  simp [control_led, hp, hc, request_rpi_shutdown, set_rpi_state,
    schedule_rpi_off_intermittent_task, add_alarm_in_us, cancel_alarm]

/-- The power cut when a restart was asked for: the continuation calls
`request_startup` with reason REBOOT. -/
theorem power_off_callback_restart (load_script : Bool → Sys → Env × Bool) (t : Sys)
    (hp : t.gpio_pi_power_ctrl = true)
    (hc : t.power_cut_callback = some PowerCutCallback.restart_after_power_cut) :
    (power_off_callback load_script t).1.edges
      = t.edges ++ [(t.current_rpi_state, STATE_OFF)]
        ++ (if sources_can_power_rpi t = true
            then [(STATE_OFF, STATE_STARTING)] else []) ∧
    (power_off_callback load_script t).1.calls
      = t.calls ++ [Call.request_startup ACTION_REASON_REBOOT] ∧
    (power_off_callback load_script t).1.current_rpi_state
      = (if sources_can_power_rpi t = true
          then STATE_STARTING else STATE_OFF) := by
  unfold power_off_callback power_control_pi_power power_control_pi_power_off
  simp only [control_led, hp, hc, request_rpi_shutdown, set_rpi_state,
    schedule_rpi_off_intermittent_task, add_alarm_in_us, cancel_alarm, restart_after_power_cut,
    Bool.false_eq_true, if_false, Bool.true_eq_false]
  rw [request_startup_off_edges _ _ _ rfl, request_startup_off_calls _ _ _ rfl,
    request_startup_off_state _ _ _ rfl]
  simp [can_power_rpi, sources_can_power_rpi, get_vusb_mv, get_vin_mv]

/-- Every call of `request_shutdown` is logged and leaves `vin_recoverable`
alone. -/
theorem request_shutdown_calls (load_script : Bool → Sys → Env × Bool) (s : Sys)
    (restart : Bool) (reason : Int) :
    (request_shutdown load_script s restart reason).1.calls
      = s.calls ++ [Call.request_shutdown restart reason] ∧
    (request_shutdown load_script s restart reason).1.vin_recoverable = s.vin_recoverable := by
  unfold request_shutdown
  simp only []
  split_ifs <;> simp [add_alarm_in_us, set_rpi_state, control_led, request_rpi_shutdown]

/-! ## Power state machine: theorems -/

/-- C2: a request made in a state that does not accept it changes neither
`current_rpi_state` (it is not even assigned) nor the action-reason byte:
`request_startup` in STARTING, ON or STOPPING, `request_shutdown` in OFF,
STARTING or STOPPING; and `request_startup` in STARTING or STOPPING and
`request_shutdown` in STARTING return `false`. -/
theorem rejected_request_changes_nothing (load_script : Bool → Sys → Env × Bool) (s : Sys)
    (restart : Bool) (reason : Int) :
    ((s.current_rpi_state = STATE_STARTING ∨ s.current_rpi_state = STATE_ON
        ∨ s.current_rpi_state = STATE_STOPPING) →
      (request_startup load_script s reason).1.current_rpi_state = s.current_rpi_state ∧
      (request_startup load_script s reason).1.edges = s.edges ∧
      (request_startup load_script s reason).1.action_reason = s.action_reason) ∧
    ((s.current_rpi_state = STATE_STARTING ∨ s.current_rpi_state = STATE_STOPPING) →
      (request_startup load_script s reason).2 = some false) ∧
    ((s.current_rpi_state = STATE_OFF ∨ s.current_rpi_state = STATE_STARTING
        ∨ s.current_rpi_state = STATE_STOPPING) →
      (request_shutdown load_script s restart reason).1.current_rpi_state = s.current_rpi_state ∧
      (request_shutdown load_script s restart reason).1.edges = s.edges ∧
      (request_shutdown load_script s restart reason).1.action_reason = s.action_reason) ∧
    (s.current_rpi_state = STATE_STARTING →
      (request_shutdown load_script s restart reason).2 = some false) := by
  refine ⟨?_, ?_, ?_, ?_⟩
  · rintro (h | h | h) <;>
      simp [request_startup, h, STATE_OFF, STATE_STARTING, STATE_ON, STATE_STOPPING]
  · rintro (h | h) <;>
      simp [request_startup, h, STATE_OFF, STATE_STARTING, STATE_ON, STATE_STOPPING]
  · rintro (h | h | h) <;>
      simp [request_shutdown, h, STATE_OFF, STATE_STARTING, STATE_ON, STATE_STOPPING]
  · intro h
    simp [request_shutdown, h, STATE_OFF, STATE_STARTING, STATE_ON, STATE_STOPPING]

/-- Witness of C2 in state STARTING, which both requests reject. -/
theorem rejected_request_changes_nothing_witness :
    board_starting.current_rpi_state = STATE_STARTING ∧
    ((request_startup no_script board_starting ACTION_REASON_ALARM1).1.current_rpi_state
        = board_starting.current_rpi_state ∧
      (request_startup no_script board_starting ACTION_REASON_ALARM1).1.edges
        = board_starting.edges ∧
      (request_startup no_script board_starting ACTION_REASON_ALARM1).1.action_reason
        = board_starting.action_reason) ∧
    (request_startup no_script board_starting ACTION_REASON_ALARM1).2 = some false ∧
    ((request_shutdown no_script board_starting true ACTION_REASON_ALARM1).1.current_rpi_state
        = board_starting.current_rpi_state ∧
      (request_shutdown no_script board_starting true ACTION_REASON_ALARM1).1.edges
        = board_starting.edges ∧
      (request_shutdown no_script board_starting true ACTION_REASON_ALARM1).1.action_reason
        = board_starting.action_reason) ∧
    (request_shutdown no_script board_starting true ACTION_REASON_ALARM1).2 = some false :=
  have hs : board_starting.current_rpi_state = STATE_STARTING := by decide
  have h := rejected_request_changes_nothing no_script board_starting true ACTION_REASON_ALARM1
  ⟨hs, h.1 (Or.inl hs), h.2.1 (Or.inl hs), h.2.2.1 (Or.inr (Or.inl hs)), h.2.2.2 hs⟩

/-- C3, as stated, fails: with both sources too low (Vusb = Vin = 4000 mV)
`request_startup` called in OFF returns with the state still OFF. -/
theorem request_startup_low_voltage_stays_off :
    board_low_voltage.current_rpi_state = STATE_OFF ∧
    (request_startup no_script board_low_voltage ACTION_REASON_BUTTON_CLICK).1.current_rpi_state
      ≠ STATE_STARTING := by
  decide

/-- C3, amended: `request_startup` called in OFF leaves the state STARTING
when the power pin is low, the priority is VUSB or VIN and one of the two
sources is at or above its minimum, and leaves it OFF otherwise. -/
theorem request_startup_from_off (load_script : Bool → Sys → Env × Bool) (s : Sys)
    (reason : Int) (h : s.current_rpi_state = STATE_OFF) :
    (request_startup load_script s reason).1.current_rpi_state
      = if can_power_rpi s = true then STATE_STARTING else STATE_OFF :=
  request_startup_off_state load_script s reason h

/-- Witness of C3, amended: with Vusb = 5000 mV the state becomes STARTING. -/
theorem request_startup_from_off_witness :
    board_good_voltage.current_rpi_state = STATE_OFF ∧
    (request_startup no_script board_good_voltage ACTION_REASON_BUTTON_CLICK).1.current_rpi_state
      = if can_power_rpi board_good_voltage = true then STATE_STARTING else STATE_OFF :=
  ⟨by decide, request_startup_from_off no_script board_good_voltage ACTION_REASON_BUTTON_CLICK
    (by decide)⟩

/-- C4, as stated, fails in the state ON that a failed startup leaves behind
(power pin low): `request_shutdown` sets STOPPING, but `power_off_callback`
finds the Raspberry Pi unpowered and leaves the state STOPPING. -/
theorem power_cut_refused_when_pin_low :
    board_on_unpowered.current_rpi_state = STATE_ON ∧
    (request_shutdown no_script board_on_unpowered false
      ACTION_REASON_BUTTON_CLICK).1.current_rpi_state = STATE_STOPPING ∧
    (power_off_callback no_script (request_shutdown no_script board_on_unpowered false
      ACTION_REASON_BUTTON_CLICK).1).1.current_rpi_state ≠ STATE_OFF := by
  decide

/-- C4, amended: `request_shutdown` called in ON with the power pin high sets
the state to STOPPING; when `power_off_callback` then runs, the state goes
from STOPPING to OFF, and `request_startup` is called, with reason REBOOT,
exactly when `restart` was true (the state then goes on to STARTING if a
source can power the Raspberry Pi). -/
theorem shutdown_then_power_cut (load_script : Bool → Sys → Env × Bool) (s : Sys)
    (restart : Bool) (reason : Int) (h : s.current_rpi_state = STATE_ON)
    (hp : s.gpio_pi_power_ctrl = true) :
    (request_shutdown load_script s restart reason).1.current_rpi_state = STATE_STOPPING ∧
    (power_off_callback load_script (request_shutdown load_script s restart reason).1).1.edges
      = s.edges ++ [(STATE_ON, STATE_STOPPING), (STATE_STOPPING, STATE_OFF)]
        ++ (if restart = true ∧ sources_can_power_rpi s = true
            then [(STATE_OFF, STATE_STARTING)] else []) ∧
    (power_off_callback load_script (request_shutdown load_script s restart reason).1).1.calls
      = s.calls ++ [Call.request_shutdown restart reason]
        ++ (if restart = true then [Call.request_startup ACTION_REASON_REBOOT] else []) ∧
    (restart = false →
      (power_off_callback load_script
        (request_shutdown load_script s restart reason).1).1.current_rpi_state = STATE_OFF) := by
  obtain ⟨h1, h2, h3, h4, h5, h6, h7, h8⟩ := request_shutdown_on load_script s restart reason h
  refine ⟨h1, ?_⟩
  cases restart
  · obtain ⟨p1, p2, p3⟩ := power_off_callback_plain load_script _ (h4.trans hp) (by simpa using h5)
    rw [p1, p2, p3, h1, h2, h3]
    simp
  · obtain ⟨p1, p2, -⟩ := power_off_callback_restart load_script _ (h4.trans hp)
      (by simpa using h5)
    have hcp : sources_can_power_rpi (request_shutdown load_script s true reason).1
        = sources_can_power_rpi s := by
      simp [sources_can_power_rpi, get_vusb_mv, get_vin_mv, h8 rfl, h6, h7]
    rw [p1, p2, h1, h2, h3, hcp]
    simp

/-- Witness of C4, amended: a forced restart of the running board. -/
theorem shutdown_then_power_cut_witness :
    board_on.current_rpi_state = STATE_ON ∧ board_on.gpio_pi_power_ctrl = true ∧
    (request_shutdown no_script board_on true
      ACTION_REASON_MISSED_HEARTBEAT).1.current_rpi_state = STATE_STOPPING ∧
    (power_off_callback no_script (request_shutdown no_script board_on true
      ACTION_REASON_MISSED_HEARTBEAT).1).1.calls
      = board_on.calls ++ [Call.request_shutdown true ACTION_REASON_MISSED_HEARTBEAT]
        ++ (if true = true then [Call.request_startup ACTION_REASON_REBOOT] else []) :=
  have h := shutdown_then_power_cut no_script board_on true ACTION_REASON_MISSED_HEARTBEAT
    (by decide) (by decide)
  ⟨by decide, by decide, h.1, h.2.2.1⟩

/-- C1 fails on the code: from the initial state with both sources too low,
`request_startup` leaves the state OFF but arms the system-up alarm (id 2);
when that alarm expires, `system_up_timeout_callback` takes the state from
OFF to ON, which is not an edge of the state machine. If instead the
sources recover and a second `request_startup` succeeds before the first
alarm expires, the second system-up alarm (id 4) is still pending after the
shutdown request and takes the state from STOPPING to ON. -/
theorem failed_startup_then_timeout_goes_off_to_on :
    board_low_voltage.current_rpi_state = STATE_OFF ∧
    (run no_script board_low_voltage [Step.request_startup ACTION_REASON_BUTTON_CLICK]).alarms
      = [(2, AlarmCallback.system_up_timeout_callback)] ∧
    (run no_script board_low_voltage
      [Step.request_startup ACTION_REASON_BUTTON_CLICK, Step.alarm_fires 2]).edges
      = [(STATE_OFF, STATE_ON)] ∧
    (run no_script board_low_voltage
      [Step.request_startup ACTION_REASON_BUTTON_CLICK, Step.alarm_fires 2]).gpio_pi_power_ctrl
      = false ∧
    legal_edge (STATE_OFF, STATE_ON) = false ∧
    (run no_script board_low_voltage
      [Step.request_startup ACTION_REASON_BUTTON_CLICK, Step.readings 5000 12000,
       Step.request_startup ACTION_REASON_BUTTON_CLICK, Step.alarm_fires 2,
       Step.request_shutdown false ACTION_REASON_BUTTON_CLICK, Step.alarm_fires 4]).edges
      = [(STATE_OFF, STATE_STARTING), (STATE_STARTING, STATE_ON), (STATE_ON, STATE_STOPPING),
         (STATE_STOPPING, STATE_ON)] ∧
    legal_edge (STATE_STOPPING, STATE_ON) = false := by
  decide

/-- C10, as stated, fails under VIN priority with the low-voltage threshold
disabled: with the host powered, Vin = 4000 mV below its minimum and
Vusb = 4000 mV below its minimum, `power_source_polling` stays on Vin and
requests no shutdown. -/
theorem polling_vin_first_threshold_disabled_no_shutdown :
    board_on_vin_first_low.gpio_pi_power_ctrl = true ∧
    board_on_vin_first_low.power_low_counter = 0 ∧
    conf_get board_on_vin_first_low.toEnv ConfKey.PS_PRIORITY = POWER_SOURCE_PRIORITY_VIN ∧
    conf_get board_on_vin_first_low.toEnv ConfKey.LOW_VOLTAGE = 0 ∧
    get_vin_mv board_on_vin_first_low < MIN_VIN_MV ∧
    get_vusb_mv board_on_vin_first_low < MIN_VUSB_MV ∧
    (power_source_polling no_script board_on_vin_first_low).2 = some POWERED_BY_VIN_NO_ACTION ∧
    (power_source_polling no_script board_on_vin_first_low).1.calls
      = board_on_vin_first_low.calls ∧
    (power_source_polling no_script board_on_vin_first_low).1.vin_recoverable = false := by
  decide

/-- C10, amended: with the host powered and the low-voltage counter at 0,
one call of `power_source_polling` issues `request_shutdown(false, VIN_DROP)`,
sets `vin_recoverable` and returns POWER_LOW_SHUTDOWN
* under VUSB priority, when Vusb is below 4750 mV and Vin is below 5000 mV or
  below the non-zero low-voltage threshold, for every value of the threshold;
* under VIN priority, when Vin is below 5000 mV, Vusb is below 4750 mV, the
  low-voltage threshold is not 0 and Vin is below it;
and under VIN priority with Vin below 5000 mV, Vusb below 4750 mV and the
threshold 0 or not above Vin, it requests nothing, resets the counter and
returns POWERED_BY_VIN_NO_ACTION. -/
theorem power_source_polling_low_voltage (load_script : Bool → Sys → Env × Bool) (s : Sys)
    (hp : s.gpio_pi_power_ctrl = true) (hc : s.power_low_counter = 0) :
    (conf_get s.toEnv ConfKey.PS_PRIORITY = POWER_SOURCE_PRIORITY_VUSB →
      get_vusb_mv s < MIN_VUSB_MV →
      (get_vin_mv s < MIN_VIN_MV ∨ (uint16 (conf_get s.toEnv ConfKey.LOW_VOLTAGE * 100) ≠ 0
        ∧ get_vin_mv s < uint16 (conf_get s.toEnv ConfKey.LOW_VOLTAGE * 100))) →
      (power_source_polling load_script s).2 = some POWER_LOW_SHUTDOWN ∧
      (power_source_polling load_script s).1.vin_recoverable = true ∧
      (power_source_polling load_script s).1.calls
        = s.calls ++ [Call.request_shutdown false ACTION_REASON_VIN_DROP]) ∧
    (conf_get s.toEnv ConfKey.PS_PRIORITY = POWER_SOURCE_PRIORITY_VIN →
      get_vin_mv s < MIN_VIN_MV → get_vusb_mv s < MIN_VUSB_MV →
      uint16 (conf_get s.toEnv ConfKey.LOW_VOLTAGE * 100) ≠ 0 →
      get_vin_mv s < uint16 (conf_get s.toEnv ConfKey.LOW_VOLTAGE * 100) →
      (power_source_polling load_script s).2 = some POWER_LOW_SHUTDOWN ∧
      (power_source_polling load_script s).1.vin_recoverable = true ∧
      (power_source_polling load_script s).1.calls
        = s.calls ++ [Call.request_shutdown false ACTION_REASON_VIN_DROP]) ∧
    (conf_get s.toEnv ConfKey.PS_PRIORITY = POWER_SOURCE_PRIORITY_VIN →
      get_vin_mv s < MIN_VIN_MV → get_vusb_mv s < MIN_VUSB_MV →
      (uint16 (conf_get s.toEnv ConfKey.LOW_VOLTAGE * 100) = 0
        ∨ get_vin_mv s ≥ uint16 (conf_get s.toEnv ConfKey.LOW_VOLTAGE * 100)) →
      (power_source_polling load_script s).2 = some POWERED_BY_VIN_NO_ACTION ∧
      (power_source_polling load_script s).1.power_low_counter = 0 ∧
      (power_source_polling load_script s).1.vin_recoverable = s.vin_recoverable ∧
      (power_source_polling load_script s).1.calls = s.calls) := by
  refine ⟨?_, ?_, ?_⟩
  · intro hprio hvusb hvin
    unfold power_source_polling
    simp only [hp, hprio, if_true]
    rw [if_neg (by omega), if_neg (by omega)]
    simp only [hc]
    rw [if_pos (by decide)]
    simp [request_shutdown_calls]
  · intro hprio hvin hvusb hv0 hvl
    have hne : POWER_SOURCE_PRIORITY_VIN ≠ POWER_SOURCE_PRIORITY_VUSB := by decide
    unfold power_source_polling
    simp only [hp, hprio, if_true, if_neg hne]
    cases hd : s.gpio_dcdc_enable <;>
      simp_all [get_vin_mv, get_vusb_mv, MAX_POWER_LOW_COUNTER, int32] <;>
      rw [if_neg (by omega)] <;> simp [request_shutdown_calls]
  · intro hprio hvin hvusb hv
    have hne : POWER_SOURCE_PRIORITY_VIN ≠ POWER_SOURCE_PRIORITY_VUSB := by decide
    unfold power_source_polling
    simp only [hp, hprio, if_true, if_neg hne]
    cases hd : s.gpio_dcdc_enable <;>
      simp_all [get_vin_mv, get_vusb_mv, MAX_POWER_LOW_COUNTER, int32]

/-- Witness of C10, amended: VUSB priority, threshold disabled, both sources
at 4000 mV. -/
theorem power_source_polling_low_voltage_witness :
    board_on_low.gpio_pi_power_ctrl = true ∧ board_on_low.power_low_counter = 0 ∧
    ((power_source_polling no_script board_on_low).2 = some POWER_LOW_SHUTDOWN ∧
      (power_source_polling no_script board_on_low).1.vin_recoverable = true ∧
      (power_source_polling no_script board_on_low).1.calls
        = board_on_low.calls ++ [Call.request_shutdown false ACTION_REASON_VIN_DROP]) :=
  have h := power_source_polling_low_voltage no_script board_on_low (by decide) (by decide)
  ⟨by decide, by decide, h.1 (by decide) (by decide) (Or.inl (by decide))⟩

/-! ## DST engine: lemmas -/

/-- The applied flag right after `conf_set` wrote 0 or 1 into it. -/
theorem conf_get_applied_after_set (e : Env) (v : Int) (hv : v = 0 ∨ v = 1) :
    conf_get (conf_sync (conf_set e ConfKey.DST_APPLIED v)) ConfKey.DST_APPLIED = v := by
  rcases hv with rfl | rfl <;> simp [conf_sync, conf_set, conf_get, uint8]

/-- `apply_dst_if_needed` in terms of the required status and the flag. -/
theorem apply_dst_if_needed_eq (e : Env) :
    apply_dst_if_needed e =
      match dst_required_now e with
      | none => (e, false)
      | some true =>
        if conf_get e ConfKey.DST_APPLIED > 0 then (e, false)
        else (conf_sync (conf_set (rtc_set_timestamp e
          ((load_dst_configuration e).cur_ts + (load_dst_configuration e).offset))
          ConfKey.DST_APPLIED 1), true)
      | some false =>
        if conf_get e ConfKey.DST_APPLIED > 0 then
          (conf_sync (conf_set (rtc_set_timestamp e
            ((load_dst_configuration e).cur_ts - (load_dst_configuration e).offset))
            ConfKey.DST_APPLIED 0), true)
        else (e, false) := by
  unfold apply_dst_if_needed dst_required_now
  simp only []
  by_cases hc : (load_dst_configuration e).cur_ts ≠ -1 ∧ (load_dst_configuration e).offset ≠ 0
  · rw [if_pos hc, if_pos hc]
    generalize (if (load_dst_configuration e).north_hemisphere = true then
        decide ((load_dst_configuration e).cur_ts ≥ (load_dst_configuration e).begin_ts)
          && decide ((load_dst_configuration e).cur_ts < (load_dst_configuration e).end_ts)
      else decide ((load_dst_configuration e).cur_ts < (load_dst_configuration e).end_ts)
          || decide ((load_dst_configuration e).cur_ts ≥ (load_dst_configuration e).begin_ts)) = b
    cases b <;> by_cases ha : conf_get e ConfKey.DST_APPLIED > 0 <;> simp [ha]
  · rw [if_neg hc, if_neg hc]

/-! ## DST engine: theorems -/

/-- C7 fails on the code at the end of the DST interval. With DST applied
and the clock at the end instant, 2024-11-03 02:00:00, the first call sets
the clock back and clears the flag; the clock is then before the end again,
where DST is required, so the second call, with no time passing, returns
true, sets the clock forward and sets the flag; a third call sets it back
once more. The flag DST_APPLIED is there to make the change happen once, and
it does so at the begin of the interval; at the end the time that the first
call leaves is read as inside the interval. -/
theorem apply_dst_twice_at_end_not_idempotent :
    (load_dst_configuration dst_env_at_end).offset = 60 ∧
    (rtc_get_time dst_env_at_end).2 = true ∧
    conf_get dst_env_at_end ConfKey.DST_APPLIED = 1 ∧
    (apply_dst_if_needed dst_env_at_end).2 = true ∧
    (apply_dst_if_needed (apply_dst_if_needed dst_env_at_end).1).2 = true ∧
    conf_get (apply_dst_if_needed dst_env_at_end).1 ConfKey.DST_APPLIED = 0 ∧
    conf_get (apply_dst_if_needed (apply_dst_if_needed dst_env_at_end).1).1 ConfKey.DST_APPLIED
      = 1 ∧
    (rtc_get_timestamp (apply_dst_if_needed (apply_dst_if_needed dst_env_at_end).1).1).1
      ≠ (rtc_get_timestamp (apply_dst_if_needed dst_env_at_end).1).1 ∧
    (rtc_get_timestamp dst_env_at_end).1 = 783914400 ∧
    (rtc_get_timestamp (apply_dst_if_needed dst_env_at_end).1).1 = 783914340 ∧
    (rtc_get_timestamp (apply_dst_if_needed (apply_dst_if_needed dst_env_at_end).1).1).1
      = 783914400 ∧
    (apply_dst_if_needed (apply_dst_if_needed (apply_dst_if_needed dst_env_at_end).1).1).2
      = true ∧
    (rtc_get_timestamp (apply_dst_if_needed (apply_dst_if_needed
      (apply_dst_if_needed dst_env_at_end).1).1).1).1 = 783914340 := by
  decide

/-- Away from the end of the interval the flag does its work: when the
second of two successive calls of `apply_dst_if_needed` computes the same
DST-required status as the first (the time the first call left is in the
same DST regime), the second call is a no-op: it returns false and leaves
the clock and the applied flag as the first call left them. -/
theorem apply_dst_if_needed_twice (e : Env)
    (h : dst_required_now (apply_dst_if_needed e).1 = dst_required_now e) :
    apply_dst_if_needed (apply_dst_if_needed e).1 = ((apply_dst_if_needed e).1, false) := by
  rw [apply_dst_if_needed_eq (apply_dst_if_needed e).1, h]
  rw [apply_dst_if_needed_eq e]
  rcases hr : dst_required_now e with _ | _ | _
  · simp
  · by_cases ha : conf_get e ConfKey.DST_APPLIED > 0
    · simp only [ha, if_true]
      rw [conf_get_applied_after_set _ 0 (Or.inl rfl)]
      simp
    · simp [ha]
  · by_cases ha : conf_get e ConfKey.DST_APPLIED > 0
    · simp [ha]
    · simp only [ha, if_false]
      rw [conf_get_applied_after_set _ 1 (Or.inr rfl)]
      simp

/-- In June, well inside the DST interval, the first call applies DST and
the second does nothing. -/
theorem apply_dst_if_needed_twice_witness :
    dst_required_now (apply_dst_if_needed dst_env_summer).1 = dst_required_now dst_env_summer ∧
    apply_dst_if_needed (apply_dst_if_needed dst_env_summer).1
      = ((apply_dst_if_needed dst_env_summer).1, false) :=
  ⟨by decide, apply_dst_if_needed_twice dst_env_summer (by decide)⟩

/-- C8 fails on the code: with an offset of 60 minutes, DST required and
not applied, `apply_dst_if_needed` returns true and sets the flag, but moves
the clock from 12:00:00 to 12:01:00, that is by 60 seconds and not by 60
minutes. -/
theorem apply_dst_adds_offset_as_seconds :
    (load_dst_configuration dst_env_summer).offset = 60 ∧
    dst_required_now dst_env_summer = some true ∧
    conf_get dst_env_summer ConfKey.DST_APPLIED = 0 ∧
    (apply_dst_if_needed dst_env_summer).2 = true ∧
    conf_get (apply_dst_if_needed dst_env_summer).1 ConfKey.DST_APPLIED = 1 ∧
    (rtc_get_time dst_env_summer).1 = ⟨2024, 6, 1, 12, 0, 0, 6⟩ ∧
    (rtc_get_time (apply_dst_if_needed dst_env_summer).1).1 = ⟨2024, 6, 1, 12, 1, 0, 6⟩ ∧
    (rtc_get_timestamp (apply_dst_if_needed dst_env_summer).1).1
      = (rtc_get_timestamp dst_env_summer).1 + 60 ∧
    (rtc_get_timestamp (apply_dst_if_needed dst_env_summer).1).1
      ≠ (rtc_get_timestamp dst_env_summer).1 + 60 * 60 := by
  decide

/-- C9 fails on the code: with an offset of 60 minutes, a non-wrapping rule,
DST not applied and an action at 2024-06-02 12:00:00 inside the interval and
after now, `adjust_action_time_for_dst` returns true but moves the action
by 60 seconds and not by 3600. -/
theorem adjust_action_time_adds_offset_as_seconds :
    (load_dst_configuration dst_env_summer).offset = 60 ∧
    (load_dst_configuration dst_env_summer).north_hemisphere = true ∧
    (load_dst_configuration dst_env_summer).cur_ts < get_total_seconds ⟨2024, 6, 2, 12, 0, 0, 0⟩ ∧
    (load_dst_configuration dst_env_summer).begin_ts ≤ get_total_seconds ⟨2024, 6, 2, 12, 0, 0, 0⟩ ∧
    get_total_seconds ⟨2024, 6, 2, 12, 0, 0, 0⟩ < (load_dst_configuration dst_env_summer).end_ts ∧
    adjust_action_time_for_dst dst_env_summer (get_total_seconds ⟨2024, 6, 2, 12, 0, 0, 0⟩)
      = (get_total_seconds ⟨2024, 6, 2, 12, 0, 0, 0⟩ + 60, true) ∧
    (adjust_action_time_for_dst dst_env_summer (get_total_seconds ⟨2024, 6, 2, 12, 0, 0, 0⟩)).1
      ≠ get_total_seconds ⟨2024, 6, 2, 12, 0, 0, 0⟩ + 3600 := by
  decide

/-! ## Power source polling and heartbeat watchdog: theorems -/

/-- C11, as stated, fails under VIN priority when a low-voltage threshold
above Vin is configured: with the host powered, Vin = 5500 mV at or above
its minimum and the threshold at 6000 mV, `power_source_polling` requests a
shutdown and returns POWER_LOW_SHUTDOWN. -/
theorem polling_vin_first_below_threshold_shuts_down :
    board_on_vin_first_below_threshold.gpio_pi_power_ctrl = true ∧
    conf_get board_on_vin_first_below_threshold.toEnv ConfKey.PS_PRIORITY
      = POWER_SOURCE_PRIORITY_VIN ∧
    get_vin_mv board_on_vin_first_below_threshold ≥ MIN_VIN_MV ∧
    (power_source_polling no_script board_on_vin_first_below_threshold).2
      = some POWER_LOW_SHUTDOWN ∧
    (power_source_polling no_script board_on_vin_first_below_threshold).1.calls
      = board_on_vin_first_below_threshold.calls
        ++ [Call.request_shutdown false ACTION_REASON_VIN_DROP] ∧
    (power_source_polling no_script board_on_vin_first_below_threshold).1.power_low_counter
      ≠ 0 := by
  decide

/-- C11, amended: with the host powered, `power_source_polling` selects the
priority source, resets the low-voltage counter, requests nothing and
returns the NO_ACTION result of that source
* under VUSB priority when Vusb is at or above 4750 mV, whatever Vin and the
  low-voltage threshold are;
* under VIN priority when Vin is at or above 5000 mV and the low-voltage
  threshold is 0 or not above Vin, whatever Vusb is. -/
theorem power_source_polling_priority_ok (load_script : Bool → Sys → Env × Bool) (s : Sys)
    (hp : s.gpio_pi_power_ctrl = true) :
    (conf_get s.toEnv ConfKey.PS_PRIORITY = POWER_SOURCE_PRIORITY_VUSB →
      get_vusb_mv s ≥ MIN_VUSB_MV →
      (power_source_polling load_script s).2 = some POWERED_BY_VUSB_NO_ACTION ∧
      (power_source_polling load_script s).1.power_mode = POWER_MODE_VUSB ∧
      (power_source_polling load_script s).1.power_low_counter = 0 ∧
      (power_source_polling load_script s).1.calls = s.calls) ∧
    (conf_get s.toEnv ConfKey.PS_PRIORITY = POWER_SOURCE_PRIORITY_VIN →
      get_vin_mv s ≥ MIN_VIN_MV →
      (uint16 (conf_get s.toEnv ConfKey.LOW_VOLTAGE * 100) = 0
        ∨ get_vin_mv s ≥ uint16 (conf_get s.toEnv ConfKey.LOW_VOLTAGE * 100)) →
      (power_source_polling load_script s).2 = some POWERED_BY_VIN_NO_ACTION ∧
      (power_source_polling load_script s).1.power_mode = POWER_MODE_VIN ∧
      (power_source_polling load_script s).1.power_low_counter = 0 ∧
      (power_source_polling load_script s).1.calls = s.calls) := by
  refine ⟨?_, ?_⟩
  · intro hprio hvusb
    unfold power_source_polling
    simp only [hp, hprio, if_true]
    rw [if_pos hvusb]
    simp
  · intro hprio hvin hv
    have hne : POWER_SOURCE_PRIORITY_VIN ≠ POWER_SOURCE_PRIORITY_VUSB := by decide
    unfold power_source_polling
    simp only [hp, hprio, if_true, if_neg hne]
    cases hd : s.gpio_dcdc_enable <;>
      simp_all [get_vin_mv, get_vusb_mv, MAX_POWER_LOW_COUNTER, int32]

/-- Witness of C11, amended: the running board with VUSB priority and
Vusb = 5000 mV. -/
theorem power_source_polling_priority_ok_witness :
    board_on.gpio_pi_power_ctrl = true ∧
    conf_get board_on.toEnv ConfKey.PS_PRIORITY = POWER_SOURCE_PRIORITY_VUSB ∧
    get_vusb_mv board_on ≥ MIN_VUSB_MV ∧
    ((power_source_polling no_script board_on).2 = some POWERED_BY_VUSB_NO_ACTION ∧
      (power_source_polling no_script board_on).1.power_mode = POWER_MODE_VUSB ∧
      (power_source_polling no_script board_on).1.power_low_counter = 0 ∧
      (power_source_polling no_script board_on).1.calls = board_on.calls) :=
  ⟨by decide, by decide, by decide,
    (power_source_polling_priority_ok no_script board_on (by decide)).1 (by decide) (by decide)⟩

/-- One expiry of the heartbeat alarm in state ON with
tolerance `n` and missed counter `c`. If `n = 0` nothing changes and the
alarm is not repeated. If `n > 0` the counter becomes `c + 1` as a byte
(`c + 1` for `c < 255`, 0 for `c = 255`); when that exceeds `n`,
`request_shutdown(true, MISSED_HEARTBEAT)` is called and the counter is 0 on
return, and otherwise nothing is requested. -/
theorem heartbeat_missed_callback_in_on (load_script : Bool → Sys → Env × Bool) (s : Sys)
    (h : s.current_rpi_state = STATE_ON) :
    (conf_get s.toEnv ConfKey.WATCHDOG = 0 →
      heartbeat_missed_callback load_script s = (s, 0)) ∧
    (conf_get s.toEnv ConfKey.WATCHDOG ≠ 0 →
      uint8 (s.heartbeat_missing_count + 1) > conf_get s.toEnv ConfKey.WATCHDOG →
      (heartbeat_missed_callback load_script s).1.heartbeat_missing_count = 0 ∧
      (heartbeat_missed_callback load_script s).1.calls
        = s.calls ++ [Call.request_shutdown true ACTION_REASON_MISSED_HEARTBEAT]) ∧
    (conf_get s.toEnv ConfKey.WATCHDOG ≠ 0 →
      ¬ uint8 (s.heartbeat_missing_count + 1) > conf_get s.toEnv ConfKey.WATCHDOG →
      (heartbeat_missed_callback load_script s).1.heartbeat_missing_count
        = uint8 (s.heartbeat_missing_count + 1) ∧
      (heartbeat_missed_callback load_script s).1.calls = s.calls ∧
      (heartbeat_missed_callback load_script s).2 = HEARTBEAT_CHECK_INTERVAL_US) ∧
    (0 ≤ s.heartbeat_missing_count → s.heartbeat_missing_count < 255 →
      uint8 (s.heartbeat_missing_count + 1) = s.heartbeat_missing_count + 1) := by
  have h1 : ¬ (s.current_rpi_state = STATE_STOPPING ∨ s.current_rpi_state = STATE_OFF) := by
    rw [h]; decide
  refine ⟨?_, ?_, ?_, ?_⟩
  · intro hn
    unfold heartbeat_missed_callback
    simp only [if_neg h1, hn, if_true]
  · intro hn hgt
    unfold heartbeat_missed_callback
    simp only [if_neg h1, if_neg hn]
    rw [if_pos hgt]
    split_ifs <;> simp [request_shutdown_calls]
  · intro hn hle
    unfold heartbeat_missed_callback
    simp only [if_neg h1, if_neg hn]
    rw [if_neg hle]
    simp [h, STATE_ON, STATE_STARTING]
  · intro h0 h255
    unfold uint8; omega

/-- Tolerance 2. The first two expiries in state
ON only count; the third finds the counter at 2, requests the restart and
leaves the counter at 0, so that three consecutive expiries request exactly
one restart-shutdown. -/
theorem heartbeat_missed_callback_in_on_witness :
    (run no_script (board_on_watchdog 2)
      [Step.alarm_fires 2, Step.alarm_fires 2]).current_rpi_state = STATE_ON ∧
    (run no_script (board_on_watchdog 2)
      [Step.alarm_fires 2, Step.alarm_fires 2]).heartbeat_missing_count = 2 ∧
    (run no_script (board_on_watchdog 2) [Step.alarm_fires 2, Step.alarm_fires 2]).calls
      = [Call.request_startup ACTION_REASON_BUTTON_CLICK] ∧
    ((heartbeat_missed_callback no_script (run no_script (board_on_watchdog 2)
        [Step.alarm_fires 2, Step.alarm_fires 2])).1.heartbeat_missing_count = 0 ∧
      (heartbeat_missed_callback no_script (run no_script (board_on_watchdog 2)
        [Step.alarm_fires 2, Step.alarm_fires 2])).1.calls
        = (run no_script (board_on_watchdog 2) [Step.alarm_fires 2, Step.alarm_fires 2]).calls
          ++ [Call.request_shutdown true ACTION_REASON_MISSED_HEARTBEAT]) ∧
    (run no_script (board_on_watchdog 2)
      [Step.alarm_fires 2, Step.alarm_fires 2, Step.alarm_fires 2]).calls
      = [Call.request_startup ACTION_REASON_BUTTON_CLICK,
         Call.request_shutdown true ACTION_REASON_MISSED_HEARTBEAT] ∧
    (run no_script (board_on_watchdog 2)
      [Step.alarm_fires 2, Step.alarm_fires 2, Step.alarm_fires 2]).heartbeat_missing_count
      = 0 :=
  ⟨by decide, by decide, by decide,
    (heartbeat_missed_callback_in_on no_script
      (run no_script (board_on_watchdog 2) [Step.alarm_fires 2, Step.alarm_fires 2])
      (by decide)).2.1 (by decide) (by decide),
    by decide, by decide⟩


set_option maxRecDepth 100000 in
/-- C13 fails on the code for the tolerance 255. The missed counter
`heartbeat_missing_count` is a `uint8_t`, so after the increment it is never
greater than 255: with WATCHDOG = 255 no expiry of the heartbeat alarm in
state ON requests a shutdown, whatever the counter, and the alarm goes on
repeating. On the board that has missed 255 heartbeats the next expiry, the
256th, which the claim has request the restart (255 + 1 > 255), wraps the
counter to 0 and requests nothing. conf.h gives WATCHDOG as the allowed
number of missed heartbeats before the power cycle, with 0 as the only value
that disables the watchdog. -/
theorem heartbeat_counter_wraps_at_255 :
    (∀ (load_script : Bool → Sys → Env × Bool) (s : Sys),
      s.current_rpi_state = STATE_ON → conf_get s.toEnv ConfKey.WATCHDOG = 255 →
      (heartbeat_missed_callback load_script s).1.calls = s.calls ∧
      (heartbeat_missed_callback load_script s).1.heartbeat_missing_count
        = uint8 (s.heartbeat_missing_count + 1) ∧
      (heartbeat_missed_callback load_script s).2 = HEARTBEAT_CHECK_INTERVAL_US) ∧
    board_on_watchdog_255_missed.current_rpi_state = STATE_ON ∧
    conf_get board_on_watchdog_255_missed.toEnv ConfKey.WATCHDOG = 255 ∧
    board_on_watchdog_255_missed.heartbeat_missing_count = 255 ∧
    (heartbeat_missed_callback no_script board_on_watchdog_255_missed).1.heartbeat_missing_count
      = 0 ∧
    (heartbeat_missed_callback no_script board_on_watchdog_255_missed).1.calls
      = board_on_watchdog_255_missed.calls ∧
    (heartbeat_missed_callback no_script board_on_watchdog_255_missed).1.current_rpi_state
      = STATE_ON := by
  refine ⟨?_, by decide, by decide, by decide, by decide, by decide, by decide⟩
  intro load_script s hs hn
  obtain ⟨_, _, h3, _⟩ := heartbeat_missed_callback_in_on load_script s hs
  have hle : ¬ uint8 (s.heartbeat_missing_count + 1) > conf_get s.toEnv ConfKey.WATCHDOG := by
    rw [hn]; unfold uint8; omega
  obtain ⟨a, b, c⟩ := h3 (by rw [hn]; decide) hle
  exact ⟨b, a, c⟩

/-- C12 fails on the code: the host is unpowered, `vin_recoverable` is set,
the recovery threshold is 5000 mV and Vin has recovered to 5500 mV, but the
temperature guard forbids starting. The poll returns PI_NOT_POWERED, and
`can_vin_turn_on_rpi` has cleared `vin_recoverable` while doing so. On the
next poll both guards are false and Vin is still 5500 mV, yet no
`request_startup` is called and the result is PI_NOT_POWERED again. -/
theorem recovery_startup_dropped_after_guarded_poll :
    board_off_recovered_hot.gpio_pi_power_ctrl = false ∧
    board_off_recovered_hot.vin_recoverable = true ∧
    uint16 (conf_get board_off_recovered_hot.toEnv ConfKey.RECOVERY_VOLTAGE * 100) = 5000 ∧
    get_vin_mv board_off_recovered_hot = 5500 ∧
    can_temperature_turn_off_rpi board_off_recovered_hot = true ∧
    (power_source_polling no_script board_off_recovered_hot).2 = some PI_NOT_POWERED ∧
    board_off_recovered_cool.vin_recoverable = false ∧
    board_off_recovered_cool.gpio_pi_power_ctrl = false ∧
    can_cur_time_turn_off_rpi board_off_recovered_cool = false ∧
    can_temperature_turn_off_rpi board_off_recovered_cool = false ∧
    get_vin_mv board_off_recovered_cool = 5500 ∧
    (power_source_polling no_script board_off_recovered_cool).2 = some PI_NOT_POWERED ∧
    (power_source_polling no_script board_off_recovered_cool).1.calls
      = board_off_recovered_hot.calls ∧
    Call.request_startup ACTION_REASON_VIN_RECOVER
      ∉ (power_source_polling no_script board_off_recovered_cool).1.calls := by
  decide

/-! ## Schedule script compiler: lemmas -/

theorem uint64_of_range {x : Int} (h1 : 0 ≤ x) (h2 : x < 18446744073709551616) : uint64 x = x := by
  unfold uint64; omega

theorem shift_begin_spec (period cur_time : Int) :
    ∀ (k fuel : Nat) (b : Int), k < fuel →
      (∀ j : Nat, j < k → b + ((j : Int) + 1) * period ≤ cur_time) →
      cur_time < b + ((k : Int) + 1) * period →
      shift_begin fuel b period cur_time = some (b + (k : Int) * period) := by
  intro k
  induction k with
  | zero =>
    intro fuel b hf _ hlt
    obtain ⟨f, rfl⟩ : ∃ f, fuel = f + 1 := ⟨fuel - 1, by omega⟩
    have hlt2 : ¬ (b + period ≤ cur_time) := by
      have : b + ((0 : Nat) + 1 : Int) * period = b + period := by ring
      rw [this] at hlt; omega
    simp [shift_begin, hlt2]
  | succ k ih =>
    intro fuel b hf hmin hlt
    obtain ⟨f, rfl⟩ : ∃ f, fuel = f + 1 := ⟨fuel - 1, by omega⟩
    have h0 : b + period ≤ cur_time := by
      have := hmin 0 (by omega)
      simpa using this
    have hrec := ih f (b + period) (by omega)
      (by
        intro j hj
        have := hmin (j + 1) (by omega)
        push_cast at this
        linarith)
      (by push_cast at hlt; linarith)
    simp only [shift_begin, h0, if_true]
    rw [hrec]; congr 1; push_cast; ring

theorem shift_begin_zero_period (cur_time : Int) :
    ∀ (fuel : Nat) (b : Int), b ≤ cur_time → shift_begin fuel b 0 cur_time = none := by
  intro fuel
  induction fuel with
  | zero => intro b _; rfl
  | succ f ih =>
    intro b hb
    have h : b + 0 ≤ cur_time := by omega
    simp only [shift_begin, h, if_true]
    exact ih (b + 0) h

theorem walk_states_cons_break (end_time : Int) (st : StateInfo) (rest : List StateInfo)
    (g : GenState) (h : end_time ≤ g.current_time + st.duration) :
    walk_states end_time (st :: rest) g =
      GenState.mk (g.current_time + st.duration) g.is_on
        (g.actions ++ if g.is_on then [Action.mk false (uint64 end_time)] else []) := by
  unfold walk_states
  cases ho : g.is_on <;> simp [h]

theorem walk_states_cons_step (end_time : Int) (st : StateInfo) (rest : List StateInfo)
    (g : GenState) (h : g.current_time + st.duration < end_time) :
    walk_states end_time (st :: rest) g =
      walk_states end_time rest
        (GenState.mk (g.current_time + st.duration) (decide (st.type ≠ WPI_SCRIPT_STATE_ON))
          (g.actions ++ [Action.mk (decide (st.type ≠ WPI_SCRIPT_STATE_ON))
            (uint64 (g.current_time + st.duration))])) := by
  have h2 : ¬ (g.current_time + st.duration ≥ end_time) := by omega
  rw [walk_states]
  by_cases ht : st.type = WPI_SCRIPT_STATE_ON <;> simp [h2, ht]

theorem walk_states_append (end_time : Int) :
    ∀ (l : List StateInfo) (g : GenState), ∃ extra,
      (walk_states end_time l g).actions = g.actions ++ extra ∧
      (end_time ≤ (walk_states end_time l g).current_time ∨ extra.length = l.length) := by
  intro l
  induction l with
  | nil => intro g; exact ⟨[], by simp [walk_states], Or.inr rfl⟩
  | cons st rest ih =>
    intro g
    by_cases h : end_time ≤ g.current_time + st.duration
    · rw [walk_states_cons_break end_time st rest g h]
      exact ⟨_, rfl, Or.inl h⟩
    · rw [walk_states_cons_step end_time st rest g (by omega)]
      obtain ⟨extra, h1, h2⟩ := ih (GenState.mk (g.current_time + st.duration)
        (decide (st.type ≠ WPI_SCRIPT_STATE_ON))
        (g.actions ++ [Action.mk (decide (st.type ≠ WPI_SCRIPT_STATE_ON))
          (uint64 (g.current_time + st.duration))]))
      refine ⟨Action.mk (decide (st.type ≠ WPI_SCRIPT_STATE_ON))
        (uint64 (g.current_time + st.duration)) :: extra, ?_, ?_⟩
      · rw [h1]; simp
      · rcases h2 with h2 | h2
        · exact Or.inl h2
        · exact Or.inr (by simp [h2])

theorem generate_loop_total (end_time : Int) (states : List StateInfo) (hn : states ≠ []) :
    ∀ (fuel : Nat) (g : GenState), 1 ≤ fuel →
      (end_time ≤ g.current_time ∨ 4095 - g.actions.length + 2 ≤ fuel) →
      ∃ g1 extra, generate_loop fuel end_time states g = some g1 ∧
        g1.actions = g.actions ++ extra := by
  intro fuel
  induction fuel with
  | zero => intro g h; omega
  | succ f ih =>
    intro g _ h2
    unfold generate_loop
    by_cases hc : g.current_time < end_time ∧ g.actions.length < WPI_MAX_ACTIONS - 1
    · simp only [hc, and_self, if_true]
      obtain ⟨extra, e1, e2⟩ := walk_states_append end_time states g
      have hlen : 1 ≤ states.length := by
        cases states with
        | nil => exact absurd rfl hn
        | cons a l => simp
      have hc2 : g.actions.length < 4095 := hc.2
      have hf : 1 ≤ f := by omega
      obtain ⟨g1, extra1, r1, r2⟩ := ih (walk_states end_time states g) hf
        (by
          rcases e2 with e2 | e2
          · exact Or.inl e2
          · right; rw [e1]; simp only [List.length_append, e2]; omega)
      exact ⟨g1, extra ++ extra1, r1, by rw [r2, e1]; simp⟩
    · simp only [hc, if_false]
      exact ⟨g, [], rfl, by simp⟩
theorem last_is_up_concat (l : List Action) (a : Action) : last_is_up (l ++ [a]) = a.is_up := by
  simp [last_is_up]

theorem GenInv_start (b : Int) (states : List StateInfo) :
    GenInv b states 0 (GenState.mk b true [Action.mk true (uint64 b)]) := by
  refine ⟨by simp [elapsed], by simp, ?_⟩
  simp [last_is_up]

theorem walk_states_step_inv (b end_time : Int) (states : List StateInfo)
    (htypes : ∀ st ∈ states, st.type = WPI_SCRIPT_STATE_ON ∨ st.type = WPI_SCRIPT_STATE_OFF)
    (st : StateInfo) (hmem : st ∈ states) (rest : List StateInfo) (m : Nat) (g : GenState)
    (hst : state_at states m = st) (hinv : GenInv b states m g)
    (hlt : boundary_time b states m < end_time) :
    ∃ g1, walk_states end_time (st :: rest) g = walk_states end_time rest g1 ∧
      GenInv b states (m + 1) g1 := by
  obtain ⟨h1, h2, h3⟩ := hinv
  have ht : g.current_time + st.duration = boundary_time b states m := by
    rw [boundary_time, elapsed, hst, h1]; ring
  have hup : decide (st.type ≠ WPI_SCRIPT_STATE_ON) = decide (st.type = WPI_SCRIPT_STATE_OFF) := by
    rcases htypes st hmem with h | h <;> simp [h, WPI_SCRIPT_STATE_ON, WPI_SCRIPT_STATE_OFF]
  refine ⟨_, walk_states_cons_step end_time st rest g (by omega), ?_, ?_, ?_⟩
  · simp only [ht, boundary_time]
  · simp only [h2, List.range_succ, List.map_append, List.map_cons, List.map_nil, boundary_action,
      hst, ht, hup, List.cons_append]
  · simp only [last_is_up_concat]

/-- A run of the `for` loop that does not reach the END time. -/
theorem walk_states_full (b end_time : Int) (states : List StateInfo)
    (htypes : ∀ st ∈ states, st.type = WPI_SCRIPT_STATE_ON ∨ st.type = WPI_SCRIPT_STATE_OFF) :
    ∀ (l : List StateInfo) (m : Nat) (g : GenState),
      (∀ i, i < l.length → l[i]? = some (state_at states (m + i))) →
      (∀ st ∈ l, st ∈ states) →
      GenInv b states m g →
      (∀ j, m ≤ j → j < m + l.length → boundary_time b states j < end_time) →
      GenInv b states (m + l.length) (walk_states end_time l g) := by
  intro l
  induction l with
  | nil => intro m g _ _ hinv _; simpa [walk_states] using hinv
  | cons st rest ih =>
    intro m g hl hmem hinv hlt
    have hst : state_at states m = st := by
      have := hl 0 (by simp)
      simpa using this.symm
    obtain ⟨g1, e1, inv1⟩ := walk_states_step_inv b end_time states htypes st
      (hmem st (by simp)) rest m g hst hinv (hlt m (le_refl _) (by simp))
    rw [e1]
    have := ih (m + 1) g1
      (by
        intro i hi
        have := hl (i + 1) (by simpa using hi)
        rw [show m + 1 + i = m + (i + 1) by omega]
        simpa using this)
      (fun s hs => hmem s (by simp [hs])) inv1
      (by intro j h1 h2; exact hlt j (by omega) (by simp only [List.length_cons]; omega))
    rw [show m + (st :: rest).length = m + 1 + rest.length by simp only [List.length_cons]; omega]
    exact this

theorem state_at_cycle (states : List StateInfo) (m i : Nat) (hm : states.length ∣ m)
    (hi : i < states.length) : states[i]? = some (state_at states (m + i)) := by
  obtain ⟨c, rfl⟩ := hm
  have : (states.length * c + i) % states.length = i := by
    rw [Nat.mul_add_mod]; exact Nat.mod_eq_of_lt hi
  simp [state_at, this, List.getD_eq_getElem?_getD, List.getElem?_eq_getElem hi]
theorem GenInv_length {b : Int} {states : List StateInfo} {m : Nat} {g : GenState}
    (h : GenInv b states m g) : g.actions.length = m + 1 := by
  rw [h.2.1]; simp

theorem GenInv_time {b : Int} {states : List StateInfo} {m : Nat} {g : GenState}
    (h : GenInv b states (m + 1) g) : g.current_time = boundary_time b states m := h.1

theorem generate_loop_done (fuel : Nat) (end_time : Int) (states : List StateInfo) (g : GenState)
    (h : end_time ≤ g.current_time ∨ 4095 ≤ g.actions.length) :
    generate_loop (fuel + 1) end_time states g = some g := by
  have hc : ¬ (g.current_time < end_time ∧ g.actions.length < WPI_MAX_ACTIONS - 1) := by
    have : WPI_MAX_ACTIONS - 1 = 4095 := rfl
    rw [this]; omega
  simp only [generate_loop, hc, if_false]

theorem generate_loop_pass (fuel : Nat) (end_time : Int) (states : List StateInfo) (g : GenState)
    (h1 : g.current_time < end_time) (h2 : g.actions.length < 4095) :
    generate_loop (fuel + 1) end_time states g =
      generate_loop fuel end_time states (walk_states end_time states g) := by
  have hc : g.current_time < end_time ∧ g.actions.length < WPI_MAX_ACTIONS - 1 := ⟨h1, h2⟩
  simp only [generate_loop, hc, and_self, if_true]

/-- The generation loop when the buffer limit stops it: `M` is the first
multiple of the number of states from 4094 on. -/
theorem generate_loop_truncated (b end_time : Int) (states : List StateInfo)
    (hn : states ≠ [])
    (htypes : ∀ st ∈ states, st.type = WPI_SCRIPT_STATE_ON ∨ st.type = WPI_SCRIPT_STATE_OFF)
    (M : Nat) (hM : states.length ∣ M) (hM1 : 4094 ≤ M) (hM2 : M < 4094 + states.length)
    (hlt : ∀ j, j < M → boundary_time b states j < end_time) :
    ∀ (fuel m : Nat) (g : GenState), states.length ∣ m → GenInv b states m g →
      g.current_time < end_time → m ≤ M → M - m + 1 ≤ fuel →
      ∃ g1, generate_loop fuel end_time states g = some g1 ∧
        g1.actions = Action.mk true (uint64 b) :: (List.range M).map (boundary_action b states) := by
  have hlen : 1 ≤ states.length := by
    cases states with
    | nil => exact absurd rfl hn
    | cons a l => simp
  intro fuel
  induction fuel with
  | zero => intro m g _ _ _ _ hf; omega
  | succ f ih =>
    intro m g hdvd hinv hcur hm hf
    by_cases hcase : m = M
    · subst hcase
      exact ⟨g, generate_loop_done f end_time states g
        (Or.inr (by rw [GenInv_length hinv]; omega)), hinv.2.1⟩
    · have hstep : m + states.length ≤ M := by
        have h1 : states.length ∣ M - m := Nat.dvd_sub' hM hdvd
        have h2 := Nat.le_of_dvd (by omega) h1
        omega
      rw [generate_loop_pass f end_time states g hcur (by rw [GenInv_length hinv]; omega)]
      have inv1 := walk_states_full b end_time states htypes states m g
        (fun i hi => state_at_cycle states m i hdvd hi) (fun _ h => h) hinv
        (fun j _ h => hlt j (by omega))
      have hcur1 : (walk_states end_time states g).current_time < end_time := by
        obtain ⟨c, hc⟩ : ∃ c, m + states.length = c + 1 := ⟨m + states.length - 1, by omega⟩
        rw [hc] at inv1
        rw [GenInv_time inv1]
        exact hlt c (by omega)
      exact ih (m + states.length) _ (Nat.dvd_add hdvd (dvd_refl _)) inv1 hcur1 hstep (by omega)
theorem begin_not_state (t : List Char) (h : ['B', 'E', 'G', 'I', 'N'].isPrefixOf t = true) :
    (['O', 'N'].isPrefixOf t || ['O', 'F', 'F'].isPrefixOf t) = false := by
  cases t with
  | nil => simp [List.isPrefixOf] at h
  | cons c cs =>
    simp only [List.isPrefixOf, Bool.and_eq_true, beq_iff_eq] at h
    obtain ⟨rfl, -⟩ := h
    simp [List.isPrefixOf]

theorem end_not_state (t : List Char) (h : ['E', 'N', 'D'].isPrefixOf t = true) :
    (['O', 'N'].isPrefixOf t || ['O', 'F', 'F'].isPrefixOf t) = false := by
  cases t with
  | nil => simp [List.isPrefixOf] at h
  | cons c cs =>
    simp only [List.isPrefixOf, Bool.and_eq_true, beq_iff_eq] at h
    obtain ⟨rfl, -⟩ := h
    simp [List.isPrefixOf]

theorem begin_not_end (t : List Char) (h : ['B', 'E', 'G', 'I', 'N'].isPrefixOf t = true) :
    ['E', 'N', 'D'].isPrefixOf t = false := by
  cases t with
  | nil => simp [List.isPrefixOf] at h
  | cons c cs =>
    simp only [List.isPrefixOf, Bool.and_eq_true, beq_iff_eq] at h
    obtain ⟨rfl, -⟩ := h
    simp [List.isPrefixOf]

theorem parse_time_component_nonneg (str : List Char) (h m s : Int) (r : Int × Int × Int)
    (hh : 0 ≤ h) (hm : 0 ≤ m) (hs : 0 ≤ s)
    (hr : parse_time_component str h m s = some r) : 0 ≤ r.1 ∧ 0 ≤ r.2.1 ∧ 0 ≤ r.2.2 := by
  unfold parse_time_component at hr
  split_ifs at hr
  cases str with
  | nil => simp at hr
  | cons unit rest =>
    simp only at hr
    split_ifs at hr with h1 h2 h3 h4 h5 <;> simp only [Option.some.injEq] at hr <;> subst hr <;>
      simp only <;> refine ⟨?_, ?_, ?_⟩ <;> omega

theorem parse_tokens_nonneg : ∀ (tokens : List (List Char)) (acc r : Int × Int × Int),
    0 ≤ acc.1 → 0 ≤ acc.2.1 → 0 ≤ acc.2.2 → parse_tokens tokens acc = some r →
    0 ≤ r.1 ∧ 0 ≤ r.2.1 ∧ 0 ≤ r.2.2 := by
  intro tokens
  induction tokens with
  | nil =>
    intro acc r h1 h2 h3 hr
    simp only [parse_tokens, Option.some.injEq] at hr
    subst hr; exact ⟨h1, h2, h3⟩
  | cons token rest ih =>
    intro acc r h1 h2 h3 hr
    unfold parse_tokens at hr
    split_ifs at hr
    split at hr
    · simp at hr
    · rename_i acc1 hc
      obtain ⟨a1, a2, a3⟩ := parse_time_component_nonneg token _ _ _ acc1 h1 h2 h3 hc
      exact ih acc1 r a1 a2 a3 hr
theorem process_line_some (line : List Char) (p p1 : ParseState)
    (h : process_line line p = some p1) :
    line.length < 128 ∧
    (p1.begin_found = true → p.begin_found = true ∨ parsable_begin_line line = true) ∧
    (p1.end_found = true → p.end_found = true ∨ parsable_end_line line = true) ∧
    (p1.states = p.states ∧ is_state_line line = false ∨
      ∃ st, p1.states = p.states ++ [st] ∧ is_state_line line = true ∧ p.states.length < 128 ∧
        (st.type = WPI_SCRIPT_STATE_ON ∨ st.type = WPI_SCRIPT_STATE_OFF) ∧ 0 ≤ st.duration) ∧
    (p1.begin_time = p.begin_time ∨
      ∃ s dt, str_to_datetime s = some dt ∧ p1.begin_time = get_total_seconds dt) ∧
    (p1.end_time = p.end_time ∨
      ∃ s dt, str_to_datetime s = some dt ∧ p1.end_time = get_total_seconds dt) := by
  unfold process_line at h
  have hlen : WPI_MAX_LINE_LENGTH = 128 := rfl
  have hlines : WPI_MAX_LINES = 128 := rfl
  by_cases h0 : line.length ≥ WPI_MAX_LINE_LENGTH
  · simp [h0] at h
  rw [if_neg h0] at h
  dsimp only at h
  by_cases h1 : trimmed_line line = []
  · -- empty line
    rw [if_pos h1] at h
    simp only [Option.some.injEq] at h
    subst h
    refine ⟨by omega, Or.inl, Or.inl, Or.inl ⟨rfl, ?_⟩, Or.inl rfl, Or.inl rfl⟩
    simp [is_state_line, h1, List.isPrefixOf]
  rw [if_neg h1] at h
  by_cases h2 : ['B', 'E', 'G', 'I', 'N'].isPrefixOf (trimmed_line line) = true
  · -- BEGIN
    rw [if_pos h2] at h
    have hs := begin_not_state _ h2
    split at h
    · rename_i dt hdt
      simp only [Option.some.injEq] at h
      subst h
      refine ⟨by omega, fun _ => Or.inr ?_, Or.inl, Or.inl ⟨rfl, ?_⟩, Or.inr ⟨_, dt, hdt, rfl⟩,
        Or.inl rfl⟩
      · simp [parsable_begin_line, h2, hdt]
      · simpa [is_state_line] using hs
    · simp only [Option.some.injEq] at h
      subst h
      refine ⟨by omega, fun hf => by simp at hf, Or.inl, Or.inl ⟨rfl, ?_⟩, Or.inl rfl, Or.inl rfl⟩
      simpa [is_state_line] using hs
  rw [if_neg h2] at h
  by_cases h3 : ['E', 'N', 'D'].isPrefixOf (trimmed_line line) = true
  · -- END
    rw [if_pos h3] at h
    have hs := end_not_state _ h3
    split at h
    · rename_i dt hdt
      simp only [Option.some.injEq] at h
      subst h
      refine ⟨by omega, Or.inl, fun _ => Or.inr ?_, Or.inl ⟨rfl, ?_⟩, Or.inl rfl,
        Or.inr ⟨_, dt, hdt, rfl⟩⟩
      · simp [parsable_end_line, h3, hdt]
      · simpa [is_state_line] using hs
    · simp only [Option.some.injEq] at h
      subst h
      refine ⟨by omega, Or.inl, fun hf => by simp at hf, Or.inl ⟨rfl, ?_⟩, Or.inl rfl, Or.inl rfl⟩
      simpa [is_state_line] using hs
  rw [if_neg h3] at h
  by_cases h4 : (['O', 'N'].isPrefixOf (trimmed_line line) ||
      ['O', 'F', 'F'].isPrefixOf (trimmed_line line)) = true
  · -- ON / OFF
    rw [if_pos h4] at h
    split at h
    · simp at h
    · rename_i hours minutes seconds htok
      by_cases h5 : p.states.length < WPI_MAX_LINES
      · rw [if_pos h5] at h
        simp only [Option.some.injEq] at h
        subst h
        obtain ⟨a1, a2, a3⟩ :=
          parse_tokens_nonneg _ (0, 0, 0) _ (le_refl _) (le_refl _) (le_refl _) htok
        simp only at a1 a2 a3
        refine ⟨by omega, Or.inl, Or.inl, Or.inr ⟨_, rfl, ?_, by omega, ?_, ?_⟩, Or.inl rfl,
          Or.inl rfl⟩
        · simpa [is_state_line] using h4
        · simp only
          split_ifs
          · exact Or.inl rfl
          · exact Or.inr rfl
        · simp only; omega
      · rw [if_neg h5] at h
        simp at h
  · -- any other line
    rw [if_neg h4] at h
    simp only [Option.some.injEq] at h
    subst h
    exact ⟨by omega, Or.inl, Or.inl, Or.inl ⟨rfl, Bool.eq_false_iff.mpr h4⟩, Or.inl rfl, Or.inl rfl⟩
theorem process_lines_some : ∀ (lines : List (List Char)) (p p1 : ParseState),
    process_lines lines p = some p1 →
    (∀ line ∈ lines, line.length < 128) ∧
    (p1.begin_found = true →
      p.begin_found = true ∨ ∃ line ∈ lines, parsable_begin_line line = true) ∧
    (p1.end_found = true → p.end_found = true ∨ ∃ line ∈ lines, parsable_end_line line = true) ∧
    p1.states.length = p.states.length + lines.countP is_state_line ∧
    p1.states.length ≤ max p.states.length 128 ∧
    (∃ added, p1.states = p.states ++ added ∧ ∀ st ∈ added,
      (st.type = WPI_SCRIPT_STATE_ON ∨ st.type = WPI_SCRIPT_STATE_OFF) ∧ 0 ≤ st.duration) ∧
    (p1.begin_time = p.begin_time ∨
      ∃ s dt, str_to_datetime s = some dt ∧ p1.begin_time = get_total_seconds dt) ∧
    (p1.end_time = p.end_time ∨
      ∃ s dt, str_to_datetime s = some dt ∧ p1.end_time = get_total_seconds dt) := by
  intro lines
  induction lines with
  | nil =>
    intro p p1 h
    simp only [process_lines, Option.some.injEq] at h
    subst h
    exact ⟨by simp, Or.inl, Or.inl, by simp, by simp, ⟨[], by simp, by simp⟩, Or.inl rfl, Or.inl rfl⟩
  | cons line rest ih =>
    intro p p1 h
    unfold process_lines at h
    split at h
    · simp at h
    · rename_i p2 h2
      obtain ⟨a1, a2, a3, a4, a5, a6⟩ := process_line_some line p p2 h2
      obtain ⟨b1, b2, b3, b4, b5, ⟨added, b6, b7⟩, b8, b9⟩ := ih p2 p1 h
      refine ⟨?_, ?_, ?_, ?_, ?_, ?_, ?_, ?_⟩
      · intro l hl
        rcases List.mem_cons.mp hl with rfl | hl
        · exact a1
        · exact b1 l hl
      · intro hf
        rcases b2 hf with h | ⟨l, hl, hp⟩
        · rcases a2 h with h | h
          · exact Or.inl h
          · exact Or.inr ⟨line, by simp, h⟩
        · exact Or.inr ⟨l, by simp [hl], hp⟩
      · intro hf
        rcases b3 hf with h | ⟨l, hl, hp⟩
        · rcases a3 h with h | h
          · exact Or.inl h
          · exact Or.inr ⟨line, by simp, h⟩
        · exact Or.inr ⟨l, by simp [hl], hp⟩
      · rcases a4 with ⟨e, hs⟩ | ⟨st, e, hs, -⟩
        · rw [b4, e, List.countP_cons, hs]; simp
        · rw [b4, e, List.countP_cons, hs]; simp; omega
      · rcases a4 with ⟨e, -⟩ | ⟨st, e, -, hl, -⟩
        · rw [e] at b5; exact b5
        · rw [e] at b5; simp only [List.length_append, List.length_singleton] at b5; omega
      · rcases a4 with ⟨e, -⟩ | ⟨st, e, -, -, ht, hd⟩
        · exact ⟨added, by rw [b6, e], b7⟩
        · refine ⟨st :: added, by rw [b6, e]; simp, ?_⟩
          intro s hs
          rcases List.mem_cons.mp hs with rfl | hs
          · exact ⟨ht, hd⟩
          · exact b7 s hs
      · rcases b8 with h | h
        · rcases a5 with h5 | h5
          · exact Or.inl (h.trans h5)
          · obtain ⟨s, dt, e1, e2⟩ := h5
            exact Or.inr ⟨s, dt, e1, h.trans e2⟩
        · exact Or.inr h
      · rcases b9 with h | h
        · rcases a6 with h6 | h6
          · exact Or.inl (h.trans h6)
          · obtain ⟨s, dt, e1, e2⟩ := h6
            exact Or.inr ⟨s, dt, e1, h.trans e2⟩
        · exact Or.inr h

theorem str_to_datetime_fields (str : List Char) (dt : DateTime)
    (h : str_to_datetime str = some dt) :
    ∃ year month day hour min sec : Int,
      dt = DateTime.mk (int16 year) (int8 month) (int8 day) (int8 hour) (int8 min) (int8 sec) 0 := by
  unfold str_to_datetime at h
  repeat' split at h
  all_goals first
    | (simp only [Option.some.injEq] at h; subst h; exact ⟨_, _, _, _, _, _, rfl⟩)
    | simp at h

theorem get_days_in_month_le (year month : Int) : get_days_in_month year month ≤ 31 := by
  unfold get_days_in_month
  split
  · omega
  · unfold days_in_month
    split
    · omega
    · have : month.toNat ≤ 12 ∨ 13 ≤ month.toNat := by omega
      rcases this with h | h
      · interval_cases month.toNat <;> simp
      · rw [List.getD_eq_default]
        · omega
        · simpa using h

theorem sum_years_le (n : Nat) : sum_years n ≤ (n : Int) * 31622400 := by
  induction n with
  | zero => simp [sum_years]
  | succ n ih =>
    have h := seconds_in_year_bounds (2000 + (n : Nat))
    rw [sum_years_succ]; push_cast; omega

theorem sum_months_le (year : Int) (n : Nat) : sum_months year n ≤ (n : Int) * 2678400 := by
  induction n with
  | zero => simp [sum_months]
  | succ n ih =>
    have h := get_days_in_month_le year ((n : Nat) + 1)
    rw [sum_months_succ]; push_cast; omega

theorem str_to_datetime_bound (str : List Char) (dt : DateTime)
    (h : str_to_datetime str = some dt) : get_total_seconds dt < 1099511627776 := by
  obtain ⟨year, month, day, hour, min, sec, rfl⟩ := str_to_datetime_fields str dt h
  unfold get_total_seconds
  simp only
  have h1 := sum_years_le (int16 year - 2000).toNat
  have h2 := sum_months_le (int16 year) (int8 month - 1).toNat
  have y1 : int16 year ≤ 32767 := by unfold int16; omega
  have m1 : int8 month ≤ 127 := by unfold int8; omega
  have d1 : int8 day ≤ 127 := by unfold int8; omega
  have hh1 : int8 hour ≤ 127 := by unfold int8; omega
  have mi1 : int8 min ≤ 127 := by unfold int8; omega
  have s1 : int8 sec ≤ 127 := by unfold int8; omega
  have h3 : (((int16 year - 2000).toNat : Nat) : Int) ≤ 30767 := by omega
  have h4 : (((int8 month - 1).toNat : Nat) : Int) ≤ 126 := by omega
  omega
theorem parse_wpi_lines_some (script_text : List Char) (p : ParseState)
    (h : parse_wpi_lines script_text = some p) :
    p.states ≠ [] ∧ p.states.length ≤ 128 ∧
    (∀ st ∈ p.states,
      (st.type = WPI_SCRIPT_STATE_ON ∨ st.type = WPI_SCRIPT_STATE_OFF) ∧ 0 ≤ st.duration) ∧
    p.begin_time < 1099511627776 ∧ p.end_time < 1099511627776 ∧
    (∀ line ∈ script_lines script_text, line.length < 128) ∧
    (∃ line ∈ script_lines script_text, parsable_begin_line line = true) ∧
    (∃ line ∈ script_lines script_text, parsable_end_line line = true) ∧
    p.states.length = (script_lines script_text).countP is_state_line := by
  unfold parse_wpi_lines at h
  split at h
  · simp at h
  · rename_i p1 h1
    split_ifs at h with hc
    simp only [Option.some.injEq] at h
    subst h
    simp only [Bool.or_eq_true, Bool.not_eq_true', beq_iff_eq, not_or, Bool.not_eq_false] at hc
    obtain ⟨⟨c1, c2⟩, c3⟩ := hc
    obtain ⟨b1, b2, b3, b4, b5, ⟨added, b6, b7⟩, b8, b9⟩ := process_lines_some _ _ _ h1
    simp only [parse_start, List.length_nil, zero_add, List.nil_append, Bool.false_eq_true,
      false_or] at b2 b3 b4 b5 b6 b8 b9
    have hl : p1.states.length ≤ 128 := by simpa using b5
    refine ⟨?_, hl, ?_, ?_, ?_, b1, b2 c1, b3 c2, b4⟩
    · intro hnil; rw [hnil] at c3; simp at c3
    · rw [b6]; exact b7
    · rcases b8 with h | ⟨s, dt, e1, e2⟩
      · rw [h]; decide
      · rw [e2]; exact str_to_datetime_bound s dt e1
    · rcases b9 with h | ⟨s, dt, e1, e2⟩
      · rw [h]; decide
      · rw [e2]; exact str_to_datetime_bound s dt e1

theorem cycles_elapsed_spec (b period cur_time : Int) (hP : 0 < period) :
    cur_time < b + ((cycles_elapsed b period cur_time : Int) + 1) * period ∧
    ∀ j : Nat, j < cycles_elapsed b period cur_time → b + ((j : Int) + 1) * period ≤ cur_time := by
  unfold cycles_elapsed
  have e := Int.ediv_add_emod (cur_time - b) period
  have r0 := Int.emod_nonneg (cur_time - b) (ne_of_gt hP)
  have r1 := Int.emod_lt_of_pos (cur_time - b) hP
  generalize (cur_time - b) / period = q at e
  generalize (cur_time - b) % period = r at e r0 r1
  by_cases hq : q < 0
  · have hk : q.toNat = 0 := by omega
    rw [hk]
    have : period * q ≤ period * (-1) := mul_le_mul_of_nonneg_left (by omega) (le_of_lt hP)
    constructor
    · simp only [Nat.cast_zero, zero_add, one_mul]; omega
    · intro j hj; omega
  · have hk : ((q.toNat : Nat) : Int) = q := by omega
    constructor
    · rw [hk]
      have : (q + 1) * period = period * q + period := by ring
      rw [this]; omega
    · intro j hj
      have hj2 : (j : Int) + 1 ≤ q := by omega
      have : period * ((j : Int) + 1) ≤ period * q := mul_le_mul_of_nonneg_left hj2 (le_of_lt hP)
      have e2 : ((j : Int) + 1) * period = period * ((j : Int) + 1) := by ring
      rw [e2]; omega

theorem uint64_shift (x d : Int) : uint64 (uint64 x + d) = uint64 (x + d) := by
  unfold uint64; omega

theorem walk_states_shift (end_time d : Int) : ∀ (l : List StateInfo) (g : GenState),
    walk_states end_time l (shift_gen d g) = shift_gen d (walk_states (end_time - d) l g) := by
  intro l
  induction l with
  | nil => intro g; simp [walk_states]
  | cons st rest ih =>
    intro g
    by_cases h : end_time - d ≤ g.current_time + st.duration
    · rw [walk_states_cons_break (end_time - d) st rest g h,
        walk_states_cons_break end_time st rest (shift_gen d g)
          (by simp only [shift_gen]; omega)]
      cases ho : g.is_on
      · simp only [shift_gen, ho, Bool.false_eq_true, if_false, List.append_nil, GenState.mk.injEq,
          and_true]
        omega
      · simp only [shift_gen, ho, if_true, List.map_append, List.map_cons, List.map_nil,
          shift_action, uint64_shift, GenState.mk.injEq, and_true]
        rw [show end_time - d + d = end_time by omega]
        exact ⟨by omega, trivial, rfl⟩
    · rw [walk_states_cons_step (end_time - d) st rest g (by omega),
        walk_states_cons_step end_time st rest (shift_gen d g)
          (by simp only [shift_gen]; omega), ← ih]
      congr 1
      simp only [shift_gen, List.map_append, List.map_cons, List.map_nil, shift_action,
        uint64_shift, GenState.mk.injEq, and_true, true_and]
      refine ⟨by omega, ?_⟩
      rw [show g.current_time + d + st.duration = g.current_time + st.duration + d by omega]

theorem generate_loop_shift (end_time d : Int) (states : List StateInfo) :
    ∀ (fuel : Nat) (g : GenState),
      generate_loop fuel end_time states (shift_gen d g) =
        (generate_loop fuel (end_time - d) states g).map (shift_gen d) := by
  intro fuel
  induction fuel with
  | zero => intro g; rfl
  | succ f ih =>
    intro g
    by_cases hc : g.current_time < end_time - d ∧ g.actions.length < 4095
    · rw [generate_loop_pass f (end_time - d) states g hc.1 hc.2,
        generate_loop_pass f end_time states (shift_gen d g)
          (by simp only [shift_gen]; omega) (by simp only [shift_gen, List.length_map]; exact hc.2),
        walk_states_shift, ih]
    · rw [generate_loop_done f (end_time - d) states g (by omega),
        generate_loop_done f end_time states (shift_gen d g)
          (by simp only [shift_gen, List.length_map]; omega)]
      rfl

theorem shifted_begin_ge (p : ParseState) (cur_time : Int) (hP : 0 ≤ cycle_period p.states) :
    p.begin_time ≤ shifted_begin p cur_time := by
  unfold shifted_begin
  have : 0 ≤ (cycles_elapsed p.begin_time (cycle_period p.states) cur_time : Int) *
      cycle_period p.states := mul_nonneg (by omega) hP
  omega
/-! ## Schedule script compiler: theorems -/

/-- C14: for a script that parses, with BEGIN time `b` and period `P > 0`,
compiled at `cur_time` with enough fuel for its loops, `parse_wpi_script`
returns true and its first action is UP at `b' = b + k * P` (stored as a
`uint64_t`), where `k = cycles_elapsed b P cur_time` is the smallest natural
number with `b + (k + 1) * P > cur_time`. So `b' = b` when
`cur_time < b + P`, and otherwise `b' ≤ cur_time < b' + P`. For a BEGIN time
that is not negative and a current time below `2 ^ 63` the stored time is
`b'` itself. -/
theorem parse_wpi_script_first_action (script_text : List Char) (p : ParseState)
    (cur_time : Int) (fuel : Nat)
    (hparse : parse_wpi_lines script_text = some p)
    (hP : 0 < cycle_period p.states)
    (hfuel : cycles_elapsed p.begin_time (cycle_period p.states) cur_time + 4096 < fuel) :
    (∃ rest, parse_wpi_script fuel script_text cur_time =
      Outcome.returns_true (Action.mk true (uint64 (shifted_begin p cur_time)) :: rest)) ∧
    shifted_begin p cur_time = p.begin_time +
      (cycles_elapsed p.begin_time (cycle_period p.states) cur_time : Int) * cycle_period p.states ∧
    cur_time < p.begin_time +
      ((cycles_elapsed p.begin_time (cycle_period p.states) cur_time : Int) + 1) *
        cycle_period p.states ∧
    (∀ j : Nat, j < cycles_elapsed p.begin_time (cycle_period p.states) cur_time →
      p.begin_time + ((j : Int) + 1) * cycle_period p.states ≤ cur_time) ∧
    (cur_time < p.begin_time + cycle_period p.states → shifted_begin p cur_time = p.begin_time) ∧
    (p.begin_time + cycle_period p.states ≤ cur_time →
      shifted_begin p cur_time ≤ cur_time ∧
      cur_time < shifted_begin p cur_time + cycle_period p.states) ∧
    (0 ≤ p.begin_time → cur_time < 9223372036854775808 →
      uint64 (shifted_begin p cur_time) = shifted_begin p cur_time) := by
  obtain ⟨hn, -, -, hb40, -⟩ := parse_wpi_lines_some script_text p hparse
  obtain ⟨k1, k2⟩ := cycles_elapsed_spec p.begin_time (cycle_period p.states) cur_time hP
  have hshift := shift_begin_spec (cycle_period p.states) cur_time
    (cycles_elapsed p.begin_time (cycle_period p.states) cur_time) fuel p.begin_time (by omega) k2 k1
  have hk0 : cur_time < p.begin_time + cycle_period p.states →
      cycles_elapsed p.begin_time (cycle_period p.states) cur_time = 0 := by
    intro hlt
    by_contra hne
    have := k2 0 (by omega)
    simp only [Nat.cast_zero, zero_add, one_mul] at this
    omega
  have hk1 : p.begin_time + cycle_period p.states ≤ cur_time →
      shifted_begin p cur_time ≤ cur_time := by
    intro hle
    have hpos : 0 < cycles_elapsed p.begin_time (cycle_period p.states) cur_time := by
      by_contra hne
      have h0 : cycles_elapsed p.begin_time (cycle_period p.states) cur_time = 0 := by omega
      rw [h0] at k1
      simp only [Nat.cast_zero, zero_add, one_mul] at k1
      omega
    obtain ⟨c, hc⟩ : ∃ c, cycles_elapsed p.begin_time (cycle_period p.states) cur_time = c + 1 :=
      ⟨_, (Nat.succ_pred_eq_of_pos hpos).symm⟩
    have := k2 c (by omega)
    unfold shifted_begin
    rw [hc]; push_cast; exact this
  refine ⟨?_, rfl, k1, k2, ?_, ?_, ?_⟩
  · obtain ⟨g1, extra, e1, e2⟩ := generate_loop_total p.end_time p.states hn fuel
      (GenState.mk (shifted_begin p cur_time) true
        [Action.mk true (uint64 (shifted_begin p cur_time))])
      (by omega) (Or.inr (by simp only [List.length_singleton]; omega))
    have e3 : generate_loop fuel p.end_time p.states
        (GenState.mk (p.begin_time +
          (cycles_elapsed p.begin_time (cycle_period p.states) cur_time : Int) *
            cycle_period p.states)
          true [Action.mk true (uint64 (p.begin_time +
          (cycles_elapsed p.begin_time (cycle_period p.states) cur_time : Int) *
            cycle_period p.states))]) = some g1 := e1
    refine ⟨extra, ?_⟩
    unfold parse_wpi_script compile_script
    simp only [hparse, hshift, e3, e2, List.singleton_append]
  · intro hlt
    unfold shifted_begin
    rw [hk0 hlt]; simp
  · intro hle
    refine ⟨hk1 hle, ?_⟩
    unfold shifted_begin
    have : ((cycles_elapsed p.begin_time (cycle_period p.states) cur_time : Int) + 1) *
        cycle_period p.states =
      (cycles_elapsed p.begin_time (cycle_period p.states) cur_time : Int) * cycle_period p.states
        + cycle_period p.states := by ring
    omega
  · intro h0 hnow
    have hge := shifted_begin_ge p cur_time (le_of_lt hP)
    apply uint64_of_range (by omega)
    by_cases hlt : cur_time < p.begin_time + cycle_period p.states
    · unfold shifted_begin
      rw [hk0 hlt]; simp only [Nat.cast_zero, zero_mul, add_zero]; omega
    · have := hk1 (by omega)
      omega

/-- Witness of C14: `example_script` compiled on 2024-01-02 13:00:00 starts
with UP on 2024-01-02 00:00:00. -/
theorem parse_wpi_script_first_action_witness :
    ∃ rest, parse_wpi_script 4098 example_script (get_total_seconds ⟨2024, 1, 2, 13, 0, 0, 0⟩) =
      Outcome.returns_true (Action.mk true (get_total_seconds ⟨2024, 1, 2, 0, 0, 0, 0⟩) :: rest) :=
  (parse_wpi_script_first_action example_script example_script_parsed
    (get_total_seconds ⟨2024, 1, 2, 13, 0, 0, 0⟩) 4098 (by decide) (by decide) (by decide)).1
/-- C17, as stated, fails: `example_script` (period 86400 s) compiled on
2024-01-01 06:00:00 gives four actions, and compiled one period later, on
2024-01-02 06:00:00, it gives the two actions of the second day only, not the
four actions moved by one day: the END time does not move with the current
time. -/
theorem one_period_later_not_shifted :
    cycle_period example_script_parsed.states = 86400 ∧
    parse_wpi_script 100 example_script 757404000 =
      Outcome.returns_true [Action.mk true 757382400, Action.mk false 757425600,
        Action.mk true 757468800, Action.mk false 757512000] ∧
    parse_wpi_script 100 example_script (757404000 + 86400) =
      Outcome.returns_true [Action.mk true 757468800, Action.mk false 757512000] ∧
    parse_wpi_script 100 example_script (757404000 + 86400) ≠
      Outcome.returns_true ([Action.mk true 757382400, Action.mk false 757425600,
        Action.mk true 757468800, Action.mk false 757512000].map (shift_action 86400)) := by
  decide

/-- C17, amended: for a script that parses, with period `P > 0`, and a
current time not before its BEGIN time, compiling one period later gives the
actions that the same script with its END time moved one period earlier
gives at the current time, each with `P` added to its time: the same number
of actions, the same UP/DN types in the same order. -/
theorem parse_wpi_script_one_period_later (script_text : List Char) (p : ParseState)
    (cur_time : Int) (fuel : Nat)
    (hparse : parse_wpi_lines script_text = some p)
    (hP : 0 < cycle_period p.states)
    (hnow : p.begin_time ≤ cur_time)
    (hfuel : cycles_elapsed p.begin_time (cycle_period p.states) cur_time + 4097 < fuel) :
    ∃ actions,
      compile_script fuel (end_moved_earlier p (cycle_period p.states)) cur_time =
        Outcome.returns_true actions ∧
      parse_wpi_script fuel script_text (cur_time + cycle_period p.states) =
        Outcome.returns_true (actions.map (shift_action (cycle_period p.states))) := by
  obtain ⟨hn, -⟩ := parse_wpi_lines_some script_text p hparse
  obtain ⟨k1, k2⟩ := cycles_elapsed_spec p.begin_time (cycle_period p.states) cur_time hP
  have hshift := shift_begin_spec (cycle_period p.states) cur_time
    (cycles_elapsed p.begin_time (cycle_period p.states) cur_time) fuel p.begin_time (by omega) k2 k1
  have hshift2 := shift_begin_spec (cycle_period p.states) (cur_time + cycle_period p.states)
    (cycles_elapsed p.begin_time (cycle_period p.states) cur_time + 1) fuel p.begin_time
    (by omega)
    (by
      intro j hj
      rcases Nat.eq_zero_or_pos j with rfl | hpos
      · simp only [Nat.cast_zero, zero_add, one_mul]; omega
      · obtain ⟨c, rfl⟩ : ∃ c, j = c + 1 := ⟨j - 1, by omega⟩
        have := k2 c (by omega)
        push_cast
        linarith)
    (by push_cast; linarith)
  obtain ⟨g1, extra, e1, -⟩ := generate_loop_total (p.end_time - cycle_period p.states) p.states hn
    fuel (GenState.mk (shifted_begin p cur_time) true
      [Action.mk true (uint64 (shifted_begin p cur_time))])
    (by omega) (Or.inr (by simp only [List.length_singleton]; omega))
  have e2 := generate_loop_shift p.end_time (cycle_period p.states) p.states fuel
    (GenState.mk (shifted_begin p cur_time) true
      [Action.mk true (uint64 (shifted_begin p cur_time))])
  rw [e1] at e2
  have hstart : shift_gen (cycle_period p.states)
      (GenState.mk (shifted_begin p cur_time) true
        [Action.mk true (uint64 (shifted_begin p cur_time))]) =
      GenState.mk (p.begin_time +
        ((cycles_elapsed p.begin_time (cycle_period p.states) cur_time + 1 : Nat) : Int) *
          cycle_period p.states) true
        [Action.mk true (uint64 (p.begin_time +
          ((cycles_elapsed p.begin_time (cycle_period p.states) cur_time + 1 : Nat) : Int) *
            cycle_period p.states))] := by
    have e : p.begin_time +
        ((cycles_elapsed p.begin_time (cycle_period p.states) cur_time + 1 : Nat) : Int) *
          cycle_period p.states = shifted_begin p cur_time + cycle_period p.states := by
      unfold shifted_begin; push_cast; ring
    rw [e]
    simp only [shift_gen, shift_action, List.map_cons, List.map_nil, uint64_shift]
  rw [hstart] at e2
  have e3 : generate_loop fuel (p.end_time - cycle_period p.states) p.states
      (GenState.mk (p.begin_time +
        (cycles_elapsed p.begin_time (cycle_period p.states) cur_time : Int) * cycle_period p.states)
        true [Action.mk true (uint64 (p.begin_time +
        (cycles_elapsed p.begin_time (cycle_period p.states) cur_time : Int) *
          cycle_period p.states))]) = some g1 := e1
  refine ⟨g1.actions, ?_, ?_⟩
  · unfold compile_script end_moved_earlier
    simp only [hshift, e3]
  · unfold parse_wpi_script compile_script
    simp only [hparse, hshift2, e2, Option.map_some', shift_gen]

/-- Witness of C17, amended: `example_script` on 2024-01-01 06:00:00 and one
day later. -/
theorem parse_wpi_script_one_period_later_witness :
    ∃ actions,
      compile_script 4099 (end_moved_earlier example_script_parsed 86400) 757404000 =
        Outcome.returns_true actions ∧
      parse_wpi_script 4099 example_script (757404000 + 86400) =
        Outcome.returns_true (actions.map (shift_action 86400)) :=
  parse_wpi_script_one_period_later example_script example_script_parsed 757404000 4099
    (by decide) (by decide) (by decide) (by decide)
theorem four_state_elapsed (j : Nat) : elapsed four_state_script_parsed.states j = (j : Int) := by
  induction j with
  | zero => rfl
  | succ j ih =>
    have hd : (state_at four_state_script_parsed.states j).duration = 1 := by
      have h4 : j % 4 = 0 ∨ j % 4 = 1 ∨ j % 4 = 2 ∨ j % 4 = 3 := by omega
      have hl : four_state_script_parsed.states.length = 4 := rfl
      unfold state_at
      rw [hl]
      rcases h4 with h | h | h | h <;> rw [h] <;> rfl
    rw [elapsed, ih, hd]; push_cast; rfl

/-- The run of `parse_wpi_script` on `four_state_script` at its BEGIN time. -/
theorem four_state_script_run (fuel : Nat) (hfuel : 4097 ≤ fuel) :
    ∃ actions, parse_wpi_script fuel four_state_script 757382400 =
      Outcome.returns_true actions ∧ actions.length = 4097 := by
  have hparse : parse_wpi_lines four_state_script = some four_state_script_parsed := by decide
  have hshift : shift_begin fuel four_state_script_parsed.begin_time
      (cycle_period four_state_script_parsed.states) 757382400
      = some 757382400 := by
    have := shift_begin_spec (cycle_period four_state_script_parsed.states) 757382400 0
      fuel four_state_script_parsed.begin_time (by omega) (by intro j hj; omega)
      (by decide)
    rw [this]; rfl
  obtain ⟨g1, e1, e2⟩ := generate_loop_truncated 757382400 four_state_script_parsed.end_time
    four_state_script_parsed.states (by decide) (by decide) 4096 (by decide) (by omega)
    (by
      have hl : four_state_script_parsed.states.length = 4 := rfl
      rw [hl]; omega)
    (by
      intro j hj
      have he : four_state_script_parsed.end_time = 757468800 := rfl
      rw [boundary_time, four_state_elapsed, he]
      push_cast; omega)
    fuel 0 (GenState.mk 757382400 true [Action.mk true (uint64 757382400)])
    (dvd_zero _) (GenInv_start _ _) (by decide) (by omega) (by omega)
  refine ⟨g1.actions, ?_, ?_⟩
  · unfold parse_wpi_script compile_script
    simp only [hparse, hshift, e1]
  · rw [e2]; simp only [List.length_cons, List.length_map, List.length_range]

/-- C18 fails on the code: `four_state_script` (four states of one second,
END one day after BEGIN) compiled at its BEGIN time makes `parse_wpi_script`
return true after writing 4097 actions, one more than the `WPI_MAX_ACTIONS`
(4096) elements of the caller's array: the limit is tested once per cycle,
before the `for` loop over the states, and the pass that starts with 4093
actions writes four more. -/
theorem parse_wpi_script_writes_past_buffer (fuel : Nat) :
    WPI_MAX_ACTIONS = 4096 ∧
    ∃ actions, parse_wpi_script (fuel + 4097) four_state_script 757382400 =
      Outcome.returns_true actions ∧ actions.length = 4097 :=
  ⟨rfl, four_state_script_run (fuel + 4097) (by omega)⟩
/-- C19 fails on the code: `zero_period_script` (a BEGIN, an END and two
state lines without duration tokens, so the period is 0) compiled at its
BEGIN time never leaves the loop
`while (current_time + period <= cur_time) current_time += period;`:
whatever the fuel, the loop is still running when it is used up. -/
theorem parse_wpi_script_hangs_on_zero_period (fuel : Nat) :
    parse_wpi_lines zero_period_script = some zero_period_script_parsed ∧
    cycle_period zero_period_script_parsed.states = 0 ∧
    parse_wpi_script fuel zero_period_script 757382400 = Outcome.out_of_fuel := by
  have hparse : parse_wpi_lines zero_period_script = some zero_period_script_parsed := by decide
  refine ⟨hparse, rfl, ?_⟩
  have hshift : shift_begin fuel zero_period_script_parsed.begin_time
      (cycle_period zero_period_script_parsed.states) 757382400 = none :=
    shift_begin_zero_period 757382400 fuel zero_period_script_parsed.begin_time (by decide)
  unfold parse_wpi_script compile_script
  simp only [hparse, hshift]

/-- C20: `parse_wpi_script` returns false, whatever the current time and
the fuel, when no line of the script is a BEGIN line with a readable date and
time, or none is such an END line, or none is a state line, or a line has 128
or more characters, or there are more than 128 state lines. -/
theorem parse_wpi_script_rejects_malformed (script_text : List Char) (cur_time : Int)
    (fuel : Nat)
    (h : (∀ line ∈ script_lines script_text, parsable_begin_line line = false) ∨
      (∀ line ∈ script_lines script_text, parsable_end_line line = false) ∨
      (∀ line ∈ script_lines script_text, is_state_line line = false) ∨
      (∃ line ∈ script_lines script_text, WPI_MAX_LINE_LENGTH ≤ line.length) ∨
      WPI_MAX_LINES < (script_lines script_text).countP is_state_line) :
    parse_wpi_script fuel script_text cur_time = Outcome.returns_false := by
  unfold parse_wpi_script
  cases hp : parse_wpi_lines script_text with
  | none => rfl
  | some p =>
    exfalso
    obtain ⟨hn, hlen, -, -, -, hlines, ⟨lb, hb1, hb2⟩, ⟨le, he1, he2⟩, hcount⟩ :=
      parse_wpi_lines_some script_text p hp
    rcases h with h | h | h | h | h
    · rw [h lb hb1] at hb2; exact Bool.noConfusion hb2
    · rw [h le he1] at he2; exact Bool.noConfusion he2
    · have hz : (script_lines script_text).countP is_state_line = 0 := by
        rw [List.countP_eq_zero]
        intro a ha
        rw [h a ha]; simp
      rw [hz] at hcount
      exact hn (List.length_eq_zero.mp hcount)
    · obtain ⟨l, hl1, hl2⟩ := h
      have := hlines l hl1
      have hw : WPI_MAX_LINE_LENGTH = 128 := rfl
      omega
    · have hw : WPI_MAX_LINES = 128 := rfl
      omega

/-- Witness of C20: a script without a BEGIN line. -/
theorem parse_wpi_script_rejects_malformed_witness :
    parse_wpi_script 4098 script_without_begin 757404000 = Outcome.returns_false :=
  parse_wpi_script_rejects_malformed script_without_begin 757404000 4098 (Or.inl (by decide))

/-! ## Alarm scheduling: theorems -/

/-- C23 fails on the code: `rtc_set_alarm(0, 0, 0, for_startup)` changes the
tag as the claim says (to NONE when it matches the type being cleared, not at
all otherwise), but it writes the three alarm registers before it looks at
the tag, so they are 0 afterwards in every case. A shutdown-clear issued
while the startup alarm of day 15, 08:30 is live leaves the tag STARTUP and
erases the alarm from the registers. -/
theorem rtc_set_alarm_clear_erases_registers (e : Env) (for_startup : Bool) :
    (rtc_set_alarm e 0 0 0 for_startup).alarm_type =
      (if (e.alarm_type = ALARM_TYPE_STARTUP ∧ for_startup = true)
          ∨ (e.alarm_type = ALARM_TYPE_SHUTDOWN ∧ for_startup = false)
        then ALARM_TYPE_NONE else e.alarm_type) ∧
    (rtc_set_alarm e 0 0 0 for_startup).reg_alarm_daydate = 0 ∧
    (rtc_set_alarm e 0 0 0 for_startup).reg_alarm_hours = 0 ∧
    (rtc_set_alarm e 0 0 0 for_startup).reg_alarm_minutes = 0 ∧
    alarm_env_startup_live.alarm_type = ALARM_TYPE_STARTUP ∧
    alarm_env_startup_live.reg_alarm_daydate = 0x15 ∧
    alarm_env_startup_live.reg_alarm_hours = 0x08 ∧
    alarm_env_startup_live.reg_alarm_minutes = 0x30 ∧
    (rtc_set_alarm alarm_env_startup_live 0 0 0 false).alarm_type = ALARM_TYPE_STARTUP ∧
    (rtc_set_alarm alarm_env_startup_live 0 0 0 false).reg_alarm_daydate = 0 := by
  refine ⟨?_, ?_, ?_, ?_, by decide, by decide, by decide, by decide, by decide, by decide⟩
  · unfold rtc_set_alarm
    simp only [ne_eq, not_true_eq_false, or_self, if_false, ge_iff_le, le_refl, if_true]
    split_ifs <;> rfl
  all_goals
    unfold rtc_set_alarm
    simp only [ne_eq, not_true_eq_false, or_self, if_false, ge_iff_le, le_refl, if_true]
    split_ifs <;> simp [dec_to_bcd, uint8]

theorem rtc_get_time_valid_month (e : Env) (h : (rtc_get_time e).2 = true) :
    1 ≤ (rtc_get_time e).1.month ∧ (rtc_get_time e).1.month ≤ 12 ∧
    2000 ≤ (rtc_get_time e).1.year ∧ (rtc_get_time e).1.year ≤ 2099 := by
  unfold rtc_get_time at h ⊢
  simp only [Bool.and_eq_true, decide_eq_true_eq] at h ⊢
  obtain ⟨⟨⟨⟨⟨⟨⟨⟨⟨_, _⟩, _⟩, _⟩, _⟩, _⟩, _⟩, h1⟩, h2⟩, h3⟩ := h
  have h4 : 0 ≤ bcd_to_dec (uint8 e.reg_year) := by unfold bcd_to_dec uint8; omega
  rw [int8_of_range (by omega) (by omega), int16_of_range (by omega) (by omega)]
  omega

/-- C24 fails on the code, whose comparison is the reverse of the claimed
one. For every valid clock with day-of-month `c` and every target day in
1..31, `rtc_get_scheduled_time` returns the target day in the following
month (January of the next year when the clock is in December) when
`c < day`, that is when the target day has NOT yet passed, and in the month
and year of the clock when `day ≤ c`, that is also when the target day has
already passed. -/
theorem rtc_get_scheduled_time_rolls_the_wrong_way (e : Env) (day hour min sec : Int)
    (h : (rtc_get_time e).2 = true) (h1 : 1 ≤ day) (h2 : day ≤ 31) :
    (rtc_get_scheduled_time e day hour min sec).day = day ∧
    ((rtc_get_time e).1.day < day →
      ((rtc_get_time e).1.month < 12 →
        (rtc_get_scheduled_time e day hour min sec).month = (rtc_get_time e).1.month + 1 ∧
        (rtc_get_scheduled_time e day hour min sec).year = (rtc_get_time e).1.year) ∧
      ((rtc_get_time e).1.month = 12 →
        (rtc_get_scheduled_time e day hour min sec).month = 1 ∧
        (rtc_get_scheduled_time e day hour min sec).year = (rtc_get_time e).1.year + 1)) ∧
    (day ≤ (rtc_get_time e).1.day →
      (rtc_get_scheduled_time e day hour min sec).month = (rtc_get_time e).1.month ∧
      (rtc_get_scheduled_time e day hour min sec).year = (rtc_get_time e).1.year) := by
  obtain ⟨m1, m2, y1, y2⟩ := rtc_get_time_valid_month e h
  have hd : day % 128 = day := by omega
  unfold rtc_get_scheduled_time
  simp only [hd]
  refine ⟨trivial, ?_, ?_⟩
  · intro hlt
    rw [if_pos hlt, int8_of_range (by omega) (by omega)]
    constructor
    · intro hm
      rw [if_neg (by omega)]
      exact ⟨rfl, rfl⟩
    · intro hm
      rw [if_pos (by omega), int16_of_range (by omega) (by omega)]
      exact ⟨rfl, rfl⟩
  · intro hge
    rw [if_neg (by omega)]
    exact ⟨rfl, rfl⟩

/-- C24 on two clocks: at 2024-06-01 12:00:00 the target day 15, 08:30:00 is
resolved to 2024-07-15 instead of 2024-06-15; at 2024-06-20 12:00:00 the
target day 10 is resolved to 2024-06-10, which is before the current time,
instead of 2024-07-10. -/
theorem rtc_get_scheduled_time_rolls_the_wrong_way_witness :
    rtc_get_time example_env = (⟨2024, 6, 1, 12, 0, 0, 6⟩, true) ∧
    rtc_get_scheduled_time example_env 15 8 30 0 = ⟨2024, 7, 15, 8, 30, 0, 6⟩ ∧
    rtc_get_time example_env_day20 = (⟨2024, 6, 20, 12, 0, 0, 4⟩, true) ∧
    rtc_get_scheduled_time example_env_day20 10 8 30 0 = ⟨2024, 6, 10, 8, 30, 0, 4⟩ ∧
    get_total_seconds (rtc_get_scheduled_time example_env_day20 10 8 30 0)
      < (rtc_get_timestamp example_env_day20).1 ∧
    (rtc_get_scheduled_time example_env 15 8 30 0).day = 15 ∧
    ((rtc_get_time example_env).1.day < 15 →
      ((rtc_get_time example_env).1.month < 12 →
        (rtc_get_scheduled_time example_env 15 8 30 0).month
          = (rtc_get_time example_env).1.month + 1 ∧
        (rtc_get_scheduled_time example_env 15 8 30 0).year = (rtc_get_time example_env).1.year) ∧
      ((rtc_get_time example_env).1.month = 12 →
        (rtc_get_scheduled_time example_env 15 8 30 0).month = 1 ∧
        (rtc_get_scheduled_time example_env 15 8 30 0).year
          = (rtc_get_time example_env).1.year + 1)) ∧
    (15 ≤ (rtc_get_time example_env).1.day →
      (rtc_get_scheduled_time example_env 15 8 30 0).month = (rtc_get_time example_env).1.month ∧
      (rtc_get_scheduled_time example_env 15 8 30 0).year = (rtc_get_time example_env).1.year) :=
  ⟨by decide, by decide, by decide, by decide, by decide,
    rtc_get_scheduled_time_rolls_the_wrong_way example_env 15 8 30 0 (by decide) (by decide)
      (by decide)⟩

/-! ## Action reason: lemmas -/

theorem or_low_nibble (a b : Nat) : (a <<< 4) ||| (b &&& 0xF) = a * 16 + b % 16 := by
  have h1 : b &&& 0xF = b % 16 := Nat.and_pow_two_sub_one_eq_mod b 4
  have h2 : b % 16 < 2 ^ 4 := by omega
  have h3 := Nat.mul_add_lt_is_or h2 a
  rw [h1, Nat.shiftLeft_eq, Nat.mul_comm a (2 ^ 4), ← h3]

set_option maxRecDepth 100000 in
theorem and_high_nibble : ∀ a : Nat, a < 256 → a &&& 0xF0 = (a / 16) <<< 4 := by
  decide

theorem uint8_toNat_lt (x : Int) : (uint8 x).toNat < 256 := by
  unfold uint8; omega

theorem uint8_toNat_cast (x : Int) : (((uint8 x).toNat : Nat) : Int) = x % 256 := by
  unfold uint8; omega

/-- The byte `(reason << 4) | (action_reason & 0xF)`. -/
theorem startup_reason_byte (reason old : Int) :
    uint8 ((((uint8 reason).toNat <<< 4) ||| ((uint8 old).toNat &&& 0xF) : Nat) : Int)
      = (reason % 16) * 16 + old % 16 := by
  rw [or_low_nibble]
  have h1 := uint8_toNat_cast reason
  have h2 := uint8_toNat_cast old
  unfold uint8
  push_cast
  omega

/-- The byte `(action_reason & 0xF0) | (reason & 0xF)`. -/
theorem shutdown_reason_byte (reason old : Int) :
    uint8 ((((uint8 old).toNat &&& 0xF0) ||| ((uint8 reason).toNat &&& 0xF) : Nat) : Int)
      = (old / 16 % 16) * 16 + reason % 16 := by
  rw [and_high_nibble _ (uint8_toNat_lt old), or_low_nibble]
  have h1 := uint8_toNat_cast reason
  have h2 := uint8_toNat_cast old
  unfold uint8
  push_cast
  omega

theorem power_control_pi_power_on_action_reason (s : Sys) :
    (power_control_pi_power_on s).1.action_reason = s.action_reason := by
  unfold power_control_pi_power_on
  simp only []
  split_ifs <;>
    simp [reset_heatbeat_checking_timer, add_alarm_in_us, cancel_alarm, set_rpi_state]

theorem request_startup_off_action_reason (load_script : Bool → Sys → Env × Bool) (s : Sys)
    (reason : Int) (h : s.current_rpi_state = STATE_OFF) :
    (request_startup load_script s reason).1.action_reason
      = (reason % 16) * 16 + s.action_reason % 16 := by
  unfold request_startup
  simp only [h, if_true]
  split_ifs <;>
  · simp only [add_alarm_in_us, power_control_pi_power_on_action_reason]
    simp only [control_led, cancel_alarm]
    exact startup_reason_byte reason s.action_reason

theorem request_shutdown_on_action_reason (load_script : Bool → Sys → Env × Bool) (s : Sys)
    (restart : Bool) (reason : Int) (h : s.current_rpi_state = STATE_ON) :
    (request_shutdown load_script s restart reason).1.action_reason
      = (s.action_reason / 16 % 16) * 16 + reason % 16 := by
  unfold request_shutdown
  simp only [h, if_true]
  cases restart
  · simp only [add_alarm_in_us, set_rpi_state, control_led, request_rpi_shutdown, if_true]
    split_ifs <;> exact shutdown_reason_byte reason s.action_reason
  · simp only [add_alarm_in_us, set_rpi_state, control_led, request_rpi_shutdown]
    exact shutdown_reason_byte reason s.action_reason

/-! ## Action reason: theorems -/

/-- C25: the action-reason byte keeps two independent 4-bit fields. After
`request_startup(r)` in OFF the byte is `(r mod 16) * 16 + (old mod 16)`: the
high nibble is `r mod 16` and the low nibble is the old one. After
`request_shutdown(restart, r)` in ON the byte is
`(old / 16 mod 16) * 16 + (r mod 16)`: the low nibble is `r mod 16` and the
high nibble is the old one. -/
theorem action_reason_nibbles (load_script : Bool → Sys → Env × Bool) (s : Sys)
    (restart : Bool) (reason : Int) :
    (s.current_rpi_state = STATE_OFF →
      (request_startup load_script s reason).1.action_reason / 16 = reason % 16 ∧
      (request_startup load_script s reason).1.action_reason % 16 = s.action_reason % 16) ∧
    (s.current_rpi_state = STATE_ON →
      (request_shutdown load_script s restart reason).1.action_reason % 16 = reason % 16 ∧
      (request_shutdown load_script s restart reason).1.action_reason / 16
        = s.action_reason / 16 % 16) := by
  constructor
  · intro h
    rw [request_startup_off_action_reason load_script s reason h]
    constructor <;> omega
  · intro h
    rw [request_shutdown_on_action_reason load_script s restart reason h]
    constructor <;> omega

/-- Witness of C25: on the board that is off with reason byte 0, a startup by
button click (3) gives the byte 0x30; on the running board, whose byte is
0x30, a shutdown for a missed heartbeat (10) gives 0x3A. -/
theorem action_reason_nibbles_witness :
    board_good_voltage.current_rpi_state = STATE_OFF ∧
    board_good_voltage.action_reason = 0 ∧
    (request_startup no_script board_good_voltage ACTION_REASON_BUTTON_CLICK).1.action_reason / 16
      = 3 ∧
    (request_startup no_script board_good_voltage ACTION_REASON_BUTTON_CLICK).1.action_reason % 16
      = 0 ∧
    board_on.current_rpi_state = STATE_ON ∧
    board_on.action_reason = 0x30 ∧
    (request_shutdown no_script board_on false ACTION_REASON_MISSED_HEARTBEAT).1.action_reason % 16
      = 10 ∧
    (request_shutdown no_script board_on false ACTION_REASON_MISSED_HEARTBEAT).1.action_reason / 16
      = 3 :=
  have h1 := (action_reason_nibbles no_script board_good_voltage false
    ACTION_REASON_BUTTON_CLICK).1 (by decide)
  have h2 := (action_reason_nibbles no_script board_on false
    ACTION_REASON_MISSED_HEARTBEAT).2 (by decide)
  ⟨by decide, by decide, h1.1, h1.2, by decide, by decide, h2.1, h2.2⟩

/-! ## Temperature actions and limits: theorems -/

set_option maxRecDepth 100000 in
/-- What the sensor decodes from the limit that `get_msb_lsb` encodes for a
set-point byte. -/
theorem set_point_decoded : ∀ v : Nat, v < 256 →
    get_12bits_temperature_mc (get_msb_lsb (uint8 (v : Int) * 1000)).1
      (get_msb_lsb (uint8 (v : Int) * 1000)).2
      = if v < 128 then 1000 * (v : Int) else 127937 := by
  decide

/-- C27 fails on the code: `on_temp_point_conf_changed` multiplies the
set-point byte as an unsigned number. For a byte below 128 the limit
programmed into T_low (and T_high) decodes to exactly 1000 times the byte,
but for a byte `v` from 128 on, which `can_temperature_turn_off_rpi` reads as
the negative number `v - 256` of degrees, the product is clamped by
`get_msb_lsb` to the raw value 2047 and the limit decodes to 127937
millidegrees: the byte 0xF6 (-10 degrees) programs +127.9375 degrees. -/
theorem set_point_programmed_unsigned (l : Tmp112Limits) :
    (∀ v : Nat, v < 128 →
      ts_get_t_low_mc (on_temp_point_conf_changed l ConfKey.BELOW_TEMP_POINT v) = 1000 * int8 v ∧
      ts_get_t_high_mc (on_temp_point_conf_changed l ConfKey.OVER_TEMP_POINT v) = 1000 * int8 v) ∧
    (∀ v : Nat, 128 ≤ v → v < 256 →
      ts_get_t_low_mc (on_temp_point_conf_changed l ConfKey.BELOW_TEMP_POINT v) = 127937 ∧
      ts_get_t_high_mc (on_temp_point_conf_changed l ConfKey.OVER_TEMP_POINT v) = 127937 ∧
      1000 * int8 v < 0) ∧
    int8 0xF6 = -10 ∧
    ts_get_t_low_mc (on_temp_point_conf_changed tmp112_reset_limits ConfKey.BELOW_TEMP_POINT 0xF6)
      = 127937 := by
  have hlow : ∀ v : Nat,
      ts_get_t_low_mc (on_temp_point_conf_changed l ConfKey.BELOW_TEMP_POINT v)
        = get_12bits_temperature_mc (get_msb_lsb (uint8 (v : Int) * 1000)).1
            (get_msb_lsb (uint8 (v : Int) * 1000)).2 := by
    intro v
    simp [ts_get_t_low_mc, on_temp_point_conf_changed, ts_set_t_low_mc]
  have hhigh : ∀ v : Nat,
      ts_get_t_high_mc (on_temp_point_conf_changed l ConfKey.OVER_TEMP_POINT v)
        = get_12bits_temperature_mc (get_msb_lsb (uint8 (v : Int) * 1000)).1
            (get_msb_lsb (uint8 (v : Int) * 1000)).2 := by
    intro v
    simp [ts_get_t_high_mc, on_temp_point_conf_changed, ts_set_t_high_mc]
  refine ⟨?_, ?_, by decide, by decide⟩
  · intro v hv
    have h := set_point_decoded v (by omega)
    rw [if_pos hv] at h
    rw [hlow, hhigh, h, int8_of_range (by omega) (by omega)]
    exact ⟨rfl, rfl⟩
  · intro v h1 h2
    have h := set_point_decoded v h2
    rw [if_neg (by omega)] at h
    rw [hlow, hhigh, h]
    refine ⟨rfl, rfl, ?_⟩
    unfold int8; omega

/-- C26, as stated, fails: the two values are the other way round. On the
running board an over-temperature event with the value 1 requests no
shutdown: the host stays ON, no call is added, and the startup is postponed
to a retry alarm; on the board that is OFF the value 1 calls
`request_startup`. With the value 2 the event calls
`request_shutdown(false, OVER_TEMPERATURE)`, the host goes to STOPPING, and
nothing is postponed. -/
theorem perform_temp_action_one_starts_two_stops :
    main_on.sys.current_rpi_state = STATE_ON ∧
    (perform_temp_action no_script main_on 1 false false).sys.calls = main_on.sys.calls ∧
    (perform_temp_action no_script main_on 1 false false).sys.current_rpi_state = STATE_ON ∧
    (perform_temp_action no_script main_on 1 false false).retry_alarms
      = [(main_on.sys.next_alarm_id, RetryCallback.retry_over_temp_startup_callback)] ∧
    main_off.sys.current_rpi_state = STATE_OFF ∧
    (perform_temp_action no_script main_off 1 false false).sys.calls
      = main_off.sys.calls ++ [Call.request_startup ACTION_REASON_OVER_TEMPERATURE] ∧
    (perform_temp_action no_script main_on 2 false false).sys.calls
      = main_on.sys.calls ++ [Call.request_shutdown false ACTION_REASON_OVER_TEMPERATURE] ∧
    (perform_temp_action no_script main_on 2 false false).sys.current_rpi_state
      = STATE_STOPPING ∧
    (perform_temp_action no_script main_on 2 false false).retry_alarms = [] := by
  decide

/-- C26, amended: for BELOW_TEMP_ACTION and OVER_TEMP_ACTION the value 0
does nothing, the value 1 (`TEMP_ACTION_STARTUP` of ts.h) makes the
temperature event take the guarded startup path, and the value 2
(`TEMP_ACTION_SHUTDOWN`) makes it request a shutdown:
`perform_temp_action(0, below, retry)` changes nothing;
`perform_temp_action(1, below, retry)` calls `request_startup(reason)` when
Vin and the schedule do not ask for the host to be off and the host is OFF,
and otherwise requests nothing and arms the retry alarm in place of the one
pending; `perform_temp_action(2, below, retry)` calls
`request_shutdown(false, reason)`. -/
theorem perform_temp_action_by_value (load_script : Bool → Sys → Env × Bool)
    (m : Main) (below retry : Bool) :
    TEMP_ACTION_STARTUP = 1 ∧ TEMP_ACTION_SHUTDOWN = 2 ∧
    perform_temp_action load_script m 0 below retry = m ∧
    (perform_temp_action load_script m 1 below retry).sys.calls
      = m.sys.calls ++
        (if (!can_vin_turn_off_rpi m.sys && !can_cur_time_turn_off_rpi m.sys
            && decide (m.sys.current_rpi_state = STATE_OFF)) = true
          then [Call.request_startup
            (if below then ACTION_REASON_BELOW_TEMPERATURE else ACTION_REASON_OVER_TEMPERATURE)]
          else []) ∧
    ((!can_vin_turn_off_rpi m.sys && !can_cur_time_turn_off_rpi m.sys
        && decide (m.sys.current_rpi_state = STATE_OFF)) = false →
      (perform_temp_action load_script m 1 below retry).retry_alarms
        = m.retry_alarms.filter (fun a => a.1 != m.postponed_action_alarm_id)
          ++ [(m.sys.next_alarm_id,
            if below then RetryCallback.retry_below_temp_startup_callback
            else RetryCallback.retry_over_temp_startup_callback)] ∧
      (perform_temp_action load_script m 1 below retry).postponed_action_alarm_id
        = m.sys.next_alarm_id) ∧
    (perform_temp_action load_script m 2 below retry).sys.calls
      = m.sys.calls ++ [Call.request_shutdown false
          (if below then ACTION_REASON_BELOW_TEMPERATURE else ACTION_REASON_OVER_TEMPERATURE)] := by
  refine ⟨rfl, rfl, ?_, ?_, ?_, ?_⟩
  · have h1 : ¬ (uint8 0 = TEMP_ACTION_STARTUP) := by decide
    have h2 : ¬ (uint8 0 = TEMP_ACTION_SHUTDOWN) := by decide
    unfold perform_temp_action
    simp only [h1, h2, if_false]
  · have h1 : uint8 1 = TEMP_ACTION_STARTUP := by decide
    unfold perform_temp_action
    simp only [h1, if_true]
    by_cases hc : (!can_vin_turn_off_rpi m.sys && !can_cur_time_turn_off_rpi m.sys
        && decide (m.sys.current_rpi_state = STATE_OFF)) = true
    · have hoff : m.sys.current_rpi_state = STATE_OFF := by
        simp only [Bool.and_eq_true, decide_eq_true_eq] at hc
        exact hc.2
      rw [if_pos hc, if_pos hc]
      exact request_startup_off_calls load_script m.sys _ hoff
    · rw [if_neg hc, if_neg hc]
      simp [cancel_alarm]
  · intro hc
    have h1 : uint8 1 = TEMP_ACTION_STARTUP := by decide
    unfold perform_temp_action
    simp only [h1, if_true]
    rw [if_neg (by rw [hc]; exact Bool.false_ne_true)]
    simp [cancel_alarm]
  · have h1 : ¬ (uint8 2 = TEMP_ACTION_STARTUP) := by decide
    have h2 : uint8 2 = TEMP_ACTION_SHUTDOWN := by decide
    unfold perform_temp_action
    simp only [h1, h2, if_true, if_false]
    exact (request_shutdown_calls load_script m.sys false _).1

/-- Witness of C26, amended, on the running board and an over-temperature
event: the value 0 changes nothing, the value 1 requests nothing and arms the
retry alarm, the value 2 calls `request_shutdown(false, OVER_TEMPERATURE)`. -/
theorem perform_temp_action_by_value_witness :
    perform_temp_action no_script main_on 0 false false = main_on ∧
    (perform_temp_action no_script main_on 1 false false).sys.calls
      = main_on.sys.calls ++
        (if (!can_vin_turn_off_rpi main_on.sys && !can_cur_time_turn_off_rpi main_on.sys
            && decide (main_on.sys.current_rpi_state = STATE_OFF)) = true
          then [Call.request_startup
            (if false = true then ACTION_REASON_BELOW_TEMPERATURE
              else ACTION_REASON_OVER_TEMPERATURE)]
          else []) ∧
    (perform_temp_action no_script main_on 2 false false).sys.calls
      = main_on.sys.calls ++ [Call.request_shutdown false
          (if false = true then ACTION_REASON_BELOW_TEMPERATURE
            else ACTION_REASON_OVER_TEMPERATURE)] :=
  have h := perform_temp_action_by_value no_script main_on false false
  ⟨h.2.2.1, h.2.2.2.1, h.2.2.2.2.2⟩

/-! ## Calendar: lemmas -/

theorem zeller_wday_offset (year month day : Int) :
    zeller_wday year month day = cmod (cmod (day + zeller_offset year month) 7 + 6) 7 := by
  unfold zeller_wday zeller_offset
  simp only []
  congr 2
  ring_nf

set_option maxRecDepth 1000000 in
/-- For every month of 2000..2099: the seconds before the month are whole
days, and Zeller's offset agrees modulo 7 with the number of these days. -/
theorem month_table : ∀ n : Nat, n < 100 → ∀ m : Nat, m < 12 →
    0 ≤ zeller_offset (2000 + (n : Int)) ((m : Int) + 1) ∧
    (zeller_offset (2000 + (n : Int)) ((m : Int) + 1) + 1) % 7
      = ((sum_years n + sum_months (2000 + (n : Int)) m) / 86400) % 7 ∧
    (sum_years n + sum_months (2000 + (n : Int)) m) % 86400 = 0 ∧
    0 ≤ sum_years n + sum_months (2000 + (n : Int)) m := by
  decide

theorem year_split : ∀ (N : Nat) (t : Int), 0 ≤ t → t < sum_years N →
    ∃ n, n < N ∧ sum_years n ≤ t ∧ t < sum_years (n + 1) := by
  intro N
  induction N with
  | zero => intro t h0 h1; simp [sum_years] at h1; omega
  | succ N ih =>
    intro t h0 h1
    by_cases h : t < sum_years N
    · obtain ⟨n, hn, h2, h3⟩ := ih t h0 h
      exact ⟨n, by omega, h2, h3⟩
    · exact ⟨N, by omega, by omega, h1⟩

theorem month_split (year : Int) : ∀ (M : Nat) (r : Int), 0 ≤ r → r < sum_months year M →
    ∃ m, m < M ∧ sum_months year m ≤ r ∧ r < sum_months year (m + 1) := by
  intro M
  induction M with
  | zero => intro r h0 h1; simp [sum_months] at h1; omega
  | succ M ih =>
    intro r h0 h1
    by_cases h : r < sum_months year M
    · obtain ⟨m, hm, h2, h3⟩ := ih r h0 h
      exact ⟨m, by omega, h2, h3⟩
    · exact ⟨M, by omega, by omega, h1⟩

set_option maxRecDepth 100000 in
theorem end_of_range : get_total_seconds ⟨2100, 1, 1, 0, 0, 0, 0⟩ = sum_years 100 := by
  decide

/-- Every timestamp of the years 2000..2099 splits into whole years, whole
months and a rest within the month. -/
theorem timestamp_split (t : Int) (h0 : 0 ≤ t) (h1 : t < sum_years 100) :
    ∃ (n m : Nat) (r : Int), n ≤ 99 ∧ m ≤ 11 ∧ 0 ≤ r ∧
      r < get_days_in_month (2000 + (n : Int)) ((m : Nat) + 1) * 86400 ∧
      t = sum_years n + sum_months (2000 + (n : Int)) m + r := by
  obtain ⟨n, hn, h2, h3⟩ := year_split 100 t h0 h1
  have h4 : t - sum_years n < sum_months (2000 + (n : Int)) 12 := by
    rw [sum_months_twelve]; rw [sum_years_succ] at h3; omega
  obtain ⟨m, hm, h5, h6⟩ := month_split (2000 + (n : Int)) 12 (t - sum_years n) (by omega) h4
  refine ⟨n, m, t - sum_years n - sum_months (2000 + (n : Int)) m, by omega, by omega, by omega,
    ?_, by omega⟩
  rw [sum_months_succ] at h6
  omega

/-! ## Calendar: theorems -/

/-- Every timestamp of the years 2000..2099 is taken by
`timestamp_to_datetime` to a calendar-valid date and time, and
`get_total_seconds` takes that back to the timestamp. -/
theorem timestamp_to_datetime_in_range (t : Int) (h0 : 0 ≤ t)
    (h1 : t < get_total_seconds ⟨2100, 1, 1, 0, 0, 0, 0⟩) :
    (timestamp_to_datetime t).valid ∧ get_total_seconds (timestamp_to_datetime t) = t := by
  rw [end_of_range] at h1
  obtain ⟨n, m, r, hn, hm, hr0, hr1, rfl⟩ := timestamp_split t h0 h1
  have hd := get_days_in_month_bounds (2000 + (n : Int)) ((m : Nat) + 1) (by omega) (by omega)
  rw [timestamp_to_datetime_split n m r hn hm hr0 hr1]
  constructor
  · unfold DateTime.valid
    simp only
    refine ⟨by omega, by omega, by omega, by omega, by omega, ?_, by omega, by omega, by omega,
      by omega, by omega, by omega⟩
    have : (m : Int) + 1 = ((m : Nat) : Int) + 1 := rfl
    omega
  · unfold get_total_seconds
    simp only
    have e1 : (2000 + (n : Int) - 2000).toNat = n := by omega
    have e2 : ((m : Int) + 1 - 1).toNat = m := by omega
    rw [e1, e2]
    omega

/-- C30: for every timestamp `t` with
`0 ≤ t < get_total_seconds (2100-01-01 00:00:00)`, the weekday that
`timestamp_to_datetime t` computes with Zeller's congruence is
`(6 + t / 86400) mod 7`: the epoch 2000-01-01 is a Saturday (6), 0 is
Sunday, and the weekday advances by one per elapsed day. -/
theorem timestamp_to_datetime_wday (t : Int) (h0 : 0 ≤ t)
    (h1 : t < get_total_seconds ⟨2100, 1, 1, 0, 0, 0, 0⟩) :
    (timestamp_to_datetime t).wday = (6 + t / 86400) % 7 := by
  rw [end_of_range] at h1
  obtain ⟨n, m, r, hn, hm, hr0, hr1, rfl⟩ := timestamp_split t h0 h1
  obtain ⟨z0, z1, z2, z3⟩ := month_table n (by omega) m (by omega)
  rw [timestamp_to_datetime_split n m r hn hm hr0 hr1]
  simp only
  rw [zeller_wday_offset,
    cmod_of_nonneg (a := 1 + r / 86400 + zeller_offset (2000 + (n : Int)) ((m : Int) + 1))
      (by omega) (by omega),
    cmod_of_nonneg (by omega) (by omega), int8_of_range (by omega) (by omega)]
  omega

set_option maxRecDepth 100000 in
/-- Witness of C30: 2024-06-01 12:00:00 is a Saturday. -/
theorem timestamp_to_datetime_wday_witness :
    (timestamp_to_datetime (get_total_seconds ⟨2024, 6, 1, 12, 0, 0, 0⟩)).wday = 6 :=
  timestamp_to_datetime_wday (get_total_seconds ⟨2024, 6, 1, 12, 0, 0, 0⟩) (by decide) (by decide)

/-- The true weekday of a day of a month of 2000..2099, through the weekday
of the first of the month. -/
theorem true_wday_of_month (n m : Nat) (hn : n < 100) (hm : m < 12) (day : Int) :
    true_wday (2000 + (n : Int)) ((m : Int) + 1) day
      = (zeller_wday (2000 + (n : Int)) ((m : Int) + 1) 1 + (day - 1)) % 7 ∧
    0 ≤ zeller_wday (2000 + (n : Int)) ((m : Int) + 1) 1 ∧
    zeller_wday (2000 + (n : Int)) ((m : Int) + 1) 1 ≤ 6 := by
  obtain ⟨z0, z1, z2, z3⟩ := month_table n hn m hm
  rw [zeller_wday_offset,
    cmod_of_nonneg (a := 1 + zeller_offset (2000 + (n : Int)) ((m : Int) + 1))
      (by omega) (by omega),
    cmod_of_nonneg (by omega) (by omega)]
  unfold true_wday get_total_seconds
  simp only
  have e1 : (2000 + (n : Int) - 2000).toNat = n := by omega
  have e2 : ((m : Int) + 1 - 1).toNat = m := by omega
  rw [e1, e2]
  refine ⟨?_, by omega, by omega⟩
  omega

/-- The day that `convert_date` returns, in terms of the weekday `first` of
the first of the month. -/
theorem convert_date_eq (year month week wday hour min : Int)
    (hy1 : 2000 ≤ year) (hy2 : year ≤ 2099) (hm1 : 1 ≤ month) (hm2 : month ≤ 12)
    (hk1 : 0 ≤ week) (hk2 : week ≤ 5) (hw1 : 0 ≤ wday) (hw2 : wday ≤ 6)
    (hh1 : 0 ≤ hour) (hh2 : hour ≤ 23) (hi1 : 0 ≤ min) (hi2 : min ≤ 59)
    (hf1 : 0 ≤ zeller_wday year month 1) (hf2 : zeller_wday year month 1 ≤ 6) :
    convert_date year month week wday hour min =
      if week = 0 then
        some ⟨year, month,
          get_days_in_month year month -
            (((zeller_wday year month 1 + get_days_in_month year month - 1) % 7 - wday + 7) % 7),
          hour, min, 0, wday⟩
      else if 1 + (wday + 7 - zeller_wday year month 1) % 7 + (week - 1) * 7
          > get_days_in_month year month then none
      else
        some ⟨year, month, 1 + (wday + 7 - zeller_wday year month 1) % 7 + (week - 1) * 7,
          hour, min, 0, wday⟩ := by
  have hd := get_days_in_month_bounds year month hm1 hm2
  have hc : ¬ (month < 1 ∨ month > 12 ∨ week > 5 ∨ year < 2000 ∨ year > 2099 ∨ hour > 23
      ∨ min > 59) := by omega
  have hz : cmod (cmod (1 + cdiv (13 * ((if month < 3 then month + 12 else month) + 1)) 5
      + cmod (if month < 3 then year - 1 else year) 100
      + cdiv (cmod (if month < 3 then year - 1 else year) 100) 4
      + cdiv (cdiv (if month < 3 then year - 1 else year) 100) 4
      + 5 * cdiv (if month < 3 then year - 1 else year) 100) 7 + 6) 7
      = zeller_wday year month 1 := rfl
  unfold convert_date
  rw [if_neg hc]
  simp only [hz]
  generalize zeller_wday year month 1 = first at hf1 hf2
  generalize get_days_in_month year month = days at hd
  have c1 : cmod (wday + 7 - first) 7 = (wday + 7 - first) % 7 :=
    cmod_of_nonneg (by omega) (by omega)
  have c2 : cmod (first + days - 1) 7 = (first + days - 1) % 7 :=
    cmod_of_nonneg (by omega) (by omega)
  have c3 : cmod ((first + days - 1) % 7 - wday + 7) 7 = ((first + days - 1) % 7 - wday + 7) % 7 :=
    cmod_of_nonneg (by omega) (by omega)
  rw [c1, c2, c3]
  by_cases h0 : week = 0
  · simp only [h0, if_true]
    rw [int8_of_range (x := month) (by omega) (by omega),
      int8_of_range (x := hour) (by omega) (by omega),
      int8_of_range (x := min) (by omega) (by omega),
      int8_of_range (x := wday) (by omega) (by omega),
      int8_of_range (x := days - ((first + days - 1) % 7 - wday + 7) % 7) (by omega) (by omega)]
  · simp only [h0, if_false]
    by_cases h1 : 1 + (wday + 7 - first) % 7 + (week - 1) * 7 > days
    · simp only [h1, if_true]
    · simp only [h1, if_false]
      rw [int8_of_range (x := month) (by omega) (by omega),
        int8_of_range (x := hour) (by omega) (by omega),
        int8_of_range (x := min) (by omega) (by omega),
        int8_of_range (x := wday) (by omega) (by omega),
        int8_of_range (x := 1 + (wday + 7 - first) % 7 + (week - 1) * 7) (by omega) (by omega)]

/-- C29: for every year in 2000..2099, month in 1..12, weekday `wday` in
0..6 (0 = Sunday), hour up to 23 and minute up to 59, the true weekday of a
date being `(6 + days since 2000-01-01) mod 7`: with `week` in 1..5,
`convert_date` returns true iff the `week`-th occurrence of `wday` exists in
the month (a day in `7 * (week - 1) + 1 .. 7 * week`, within the month, whose
true weekday is `wday`), and then the returned day is that occurrence; with
`week = 0` it returns true and the returned day is the last day of the month
whose true weekday is `wday`. The other fields returned are the arguments
and second 0. It returns false when month, week, year, hour or min is out of
range. -/
theorem convert_date_weekday_of_month (year month week wday hour min : Int) :
    (2000 ≤ year ∧ year ≤ 2099 ∧ 1 ≤ month ∧ month ≤ 12 ∧ 0 ≤ wday ∧ wday ≤ 6 ∧
        0 ≤ hour ∧ hour ≤ 23 ∧ 0 ≤ min ∧ min ≤ 59 →
      (1 ≤ week ∧ week ≤ 5 →
        ((convert_date year month week wday hour min).isSome = true ↔
          ∃ d, 7 * (week - 1) + 1 ≤ d ∧ d ≤ 7 * week ∧ d ≤ get_days_in_month year month ∧
            true_wday year month d = wday) ∧
        ∀ dt, convert_date year month week wday hour min = some dt →
          dt = ⟨year, month, dt.day, hour, min, 0, wday⟩ ∧
          7 * (week - 1) + 1 ≤ dt.day ∧ dt.day ≤ 7 * week ∧
          dt.day ≤ get_days_in_month year month ∧ true_wday year month dt.day = wday) ∧
      (week = 0 →
        ∃ dt, convert_date year month week wday hour min = some dt ∧
          dt = ⟨year, month, dt.day, hour, min, 0, wday⟩ ∧
          1 ≤ dt.day ∧ dt.day ≤ get_days_in_month year month ∧
          true_wday year month dt.day = wday ∧
          ∀ d, dt.day < d → d ≤ get_days_in_month year month →
            true_wday year month d ≠ wday)) ∧
    (month < 1 ∨ month > 12 ∨ week > 5 ∨ year < 2000 ∨ year > 2099 ∨ hour > 23 ∨ min > 59 →
      convert_date year month week wday hour min = none) := by
  constructor
  · rintro ⟨hy1, hy2, hm1, hm2, hw1, hw2, hh1, hh2, hi1, hi2⟩
    obtain ⟨n, hn, rfl⟩ : ∃ n : Nat, n < 100 ∧ year = 2000 + (n : Int) :=
      ⟨(year - 2000).toNat, by omega, by omega⟩
    obtain ⟨m, hm, rfl⟩ : ∃ m : Nat, m < 12 ∧ month = (m : Int) + 1 :=
      ⟨(month - 1).toNat, by omega, by omega⟩
    have hd := get_days_in_month_bounds (2000 + (n : Int)) ((m : Int) + 1) hm1 hm2
    have hf := (true_wday_of_month n m hn hm 1).2
    have htw : ∀ d, true_wday (2000 + (n : Int)) ((m : Int) + 1) d
        = (zeller_wday (2000 + (n : Int)) ((m : Int) + 1) 1 + (d - 1)) % 7 :=
      fun d => (true_wday_of_month n m hn hm d).1
    constructor
    · rintro ⟨hk1, hk2⟩
      rw [convert_date_eq _ _ week wday hour min hy1 hy2 hm1 hm2 (by omega) hk2 hw1 hw2 hh1 hh2
        hi1 hi2 hf.1 hf.2, if_neg (by omega)]
      generalize zeller_wday (2000 + (n : Int)) ((m : Int) + 1) 1 = first at hf htw
      generalize get_days_in_month (2000 + (n : Int)) ((m : Int) + 1) = days at hd
      by_cases h1 : 1 + (wday + 7 - first) % 7 + (week - 1) * 7 > days
      · rw [if_pos h1]
        constructor
        · constructor
          · intro h; simp at h
          · rintro ⟨d, d1, d2, d3, d4⟩
            rw [htw d] at d4
            omega
        · intro dt h; simp at h
      · rw [if_neg h1]
        constructor
        · constructor
          · intro _
            refine ⟨1 + (wday + 7 - first) % 7 + (week - 1) * 7, by omega, by omega, by omega, ?_⟩
            rw [htw]; omega
          · intro _; rfl
        · intro dt h
          simp only [Option.some.injEq] at h
          subst h
          simp only
          refine ⟨trivial, by omega, by omega, by omega, ?_⟩
          rw [htw]; omega
    · intro h0
      rw [convert_date_eq _ _ week wday hour min hy1 hy2 hm1 hm2 (by omega) (by omega) hw1 hw2
        hh1 hh2 hi1 hi2 hf.1 hf.2, if_pos h0]
      generalize zeller_wday (2000 + (n : Int)) ((m : Int) + 1) 1 = first at hf htw
      generalize get_days_in_month (2000 + (n : Int)) ((m : Int) + 1) = days at hd
      refine ⟨_, rfl, ?_⟩
      simp only
      refine ⟨trivial, by omega, by omega, ?_, ?_⟩
      · rw [htw]; omega
      · intro d d1 d2
        rw [htw]; omega
  · intro h
    unfold convert_date
    rw [if_pos h]

set_option maxRecDepth 100000 in
/-- Witness of C29: the second Sunday of March 2024 is the 10th, the last
Sunday of October 2024 is the 27th, and February 2023 has no fifth Monday. -/
theorem convert_date_weekday_of_month_witness :
    convert_date 2024 3 2 0 2 0 = some ⟨2024, 3, 10, 2, 0, 0, 0⟩ ∧
    ((convert_date 2024 3 2 0 2 0).isSome = true ↔
      ∃ d, 7 * ((2 : Int) - 1) + 1 ≤ d ∧ d ≤ 7 * 2 ∧ d ≤ get_days_in_month 2024 3 ∧
        true_wday 2024 3 d = 0) ∧
    (∃ dt, convert_date 2024 10 0 0 3 0 = some dt ∧
      dt = ⟨2024, 10, dt.day, 3, 0, 0, 0⟩ ∧
      1 ≤ dt.day ∧ dt.day ≤ get_days_in_month 2024 10 ∧
      true_wday 2024 10 dt.day = 0 ∧
      ∀ d, dt.day < d → d ≤ get_days_in_month 2024 10 → true_wday 2024 10 d ≠ 0) ∧
    convert_date 2024 10 0 0 3 0 = some ⟨2024, 10, 27, 3, 0, 0, 0⟩ ∧
    convert_date 2023 2 5 1 0 0 = none :=
  ⟨by decide,
    (((convert_date_weekday_of_month 2024 3 2 0 2 0).1 (by decide)).1 (by decide)).1,
    ((convert_date_weekday_of_month 2024 10 0 0 3 0).1 (by decide)).2 rfl,
    by decide, by decide⟩

/-! ## Compact action log: lemmas -/

theorem skd_loop_skip (cur_time : Int) (startup_first is_up : Bool) (timestamp : Int)
    (rest : List (Bool × Int)) (st : SkdScan) (h : timestamp ≤ cur_time) :
    skd_loop cur_time startup_first ((is_up, timestamp) :: rest) st
      = skd_loop cur_time startup_first rest st := by
  rw [skd_loop, if_pos h]

theorem skd_loop_up_take (cur_time timestamp : Int) (rest : List (Bool × Int)) (st : SkdScan)
    (h : cur_time < timestamp) (hf : st.found_startup = false) :
    skd_loop cur_time true ((true, timestamp) :: rest) st
      = skd_loop cur_time true rest
          (SkdScan.mk true st.found_shutdown (Action.mk true timestamp) st.shutdown) := by
  rw [skd_loop, if_neg (by omega)]
  simp [hf]

theorem skd_loop_up_pass (cur_time timestamp : Int) (rest : List (Bool × Int)) (st : SkdScan)
    (hf : st.found_startup = false) :
    skd_loop cur_time true ((false, timestamp) :: rest) st = skd_loop cur_time true rest st := by
  rw [skd_loop]
  simp [hf]

theorem skd_loop_up_found_up (cur_time timestamp : Int) (rest : List (Bool × Int))
    (st : SkdScan) (hf : st.found_startup = true) :
    skd_loop cur_time true ((true, timestamp) :: rest) st = skd_loop cur_time true rest st := by
  rw [skd_loop]
  simp [hf]

theorem skd_loop_up_found_down (cur_time timestamp : Int) (rest : List (Bool × Int))
    (st : SkdScan) (h : cur_time < timestamp) (hf : st.found_startup = true) :
    skd_loop cur_time true ((false, timestamp) :: rest) st
      = if timestamp > st.startup.time then
          SkdScan.mk st.found_startup true st.startup (Action.mk false timestamp)
        else skd_loop cur_time true rest st := by
  rw [skd_loop, if_neg (by omega)]
  simp [hf]

theorem skd_loop_down_take (cur_time timestamp : Int) (rest : List (Bool × Int)) (st : SkdScan)
    (h : cur_time < timestamp) (hf : st.found_shutdown = false) :
    skd_loop cur_time false ((false, timestamp) :: rest) st
      = skd_loop cur_time false rest
          (SkdScan.mk st.found_startup true st.startup (Action.mk false timestamp)) := by
  rw [skd_loop, if_neg (by omega)]
  simp [hf]

theorem skd_loop_down_pass (cur_time timestamp : Int) (rest : List (Bool × Int)) (st : SkdScan)
    (hf : st.found_shutdown = false) :
    skd_loop cur_time false ((true, timestamp) :: rest) st
      = skd_loop cur_time false rest st := by
  rw [skd_loop]
  simp [hf]

theorem skd_loop_down_found_down (cur_time timestamp : Int) (rest : List (Bool × Int))
    (st : SkdScan) (hf : st.found_shutdown = true) :
    skd_loop cur_time false ((false, timestamp) :: rest) st
      = skd_loop cur_time false rest st := by
  rw [skd_loop]
  simp [hf]

theorem skd_loop_down_found_up (cur_time timestamp : Int) (rest : List (Bool × Int))
    (st : SkdScan) (h : cur_time < timestamp) (hf : st.found_shutdown = true) :
    skd_loop cur_time false ((true, timestamp) :: rest) st
      = if timestamp > st.shutdown.time then
          SkdScan.mk true st.found_shutdown (Action.mk true timestamp) st.shutdown
        else skd_loop cur_time false rest st := by
  rw [skd_loop, if_neg (by omega)]
  simp [hf]

theorem first_after_cons (is_up : Bool) (t : Int) (e : Bool × Int) (rest : List (Bool × Int)) :
    first_after is_up t (e :: rest)
      = if e.1 = is_up ∧ t < e.2 then some (e.2, rest) else first_after is_up t rest := rfl

/-- The search for the shutdown after the startup has been found. -/
theorem skd_loop_up_second (cur_time t1 : Int) (hle : cur_time ≤ t1) :
    ∀ (entries : List (Bool × Int)) (st : SkdScan), st.found_startup = true →
      st.startup.time = t1 →
      skd_loop cur_time true entries st =
        match first_after false t1 entries with
        | none => st
        | some (t2, _) => SkdScan.mk st.found_startup true st.startup (Action.mk false t2) := by
  intro entries
  induction entries with
  | nil => intro st _ _; rfl
  | cons e rest ih =>
    intro st hf ht
    obtain ⟨is_up, timestamp⟩ := e
    rw [first_after_cons]
    by_cases h1 : timestamp ≤ cur_time
    · rw [skd_loop_skip _ _ _ _ _ _ h1, if_neg (by simp only; omega)]
      exact ih st hf ht
    · cases is_up
      · rw [skd_loop_up_found_down _ _ _ _ (by omega) hf, ht]
        by_cases h3 : timestamp > t1
        · rw [if_pos h3, if_pos ⟨rfl, h3⟩]
        · rw [if_neg h3, if_neg (by simp only; omega)]
          exact ih st hf ht
      · rw [skd_loop_up_found_up _ _ _ _ hf, if_neg (by simp)]
        exact ih st hf ht

/-- The search for the startup. -/
theorem skd_loop_up_first (cur_time : Int) :
    ∀ (entries : List (Bool × Int)) (st : SkdScan), st.found_startup = false →
      skd_loop cur_time true entries st =
        match first_after true cur_time entries with
        | none => st
        | some (t1, rest) =>
          skd_loop cur_time true rest
            (SkdScan.mk true st.found_shutdown (Action.mk true t1) st.shutdown) := by
  intro entries
  induction entries with
  | nil => intro st _; rfl
  | cons e rest ih =>
    intro st hf
    obtain ⟨is_up, timestamp⟩ := e
    rw [first_after_cons]
    by_cases h1 : timestamp ≤ cur_time
    · rw [skd_loop_skip _ _ _ _ _ _ h1, if_neg (by simp only; omega)]
      exact ih st hf
    · cases is_up
      · rw [skd_loop_up_pass _ _ _ _ hf, if_neg (by simp)]
        exact ih st hf
      · rw [skd_loop_up_take _ _ _ _ (by omega) hf, if_pos ⟨rfl, by simp only; omega⟩]

/-- The search for the startup after the shutdown has been found. -/
theorem skd_loop_down_second (cur_time t1 : Int) (hle : cur_time ≤ t1) :
    ∀ (entries : List (Bool × Int)) (st : SkdScan), st.found_shutdown = true →
      st.shutdown.time = t1 →
      skd_loop cur_time false entries st =
        match first_after true t1 entries with
        | none => st
        | some (t2, _) => SkdScan.mk true st.found_shutdown (Action.mk true t2) st.shutdown := by
  intro entries
  induction entries with
  | nil => intro st _ _; rfl
  | cons e rest ih =>
    intro st hf ht
    obtain ⟨is_up, timestamp⟩ := e
    rw [first_after_cons]
    by_cases h1 : timestamp ≤ cur_time
    · rw [skd_loop_skip _ _ _ _ _ _ h1, if_neg (by simp only; omega)]
      exact ih st hf ht
    · cases is_up
      · rw [skd_loop_down_found_down _ _ _ _ hf, if_neg (by simp)]
        exact ih st hf ht
      · rw [skd_loop_down_found_up _ _ _ _ (by omega) hf, ht]
        by_cases h3 : timestamp > t1
        · rw [if_pos h3, if_pos ⟨rfl, h3⟩]
        · rw [if_neg h3, if_neg (by simp only; omega)]
          exact ih st hf ht

/-- The search for the shutdown when it is searched first. -/
theorem skd_loop_down_first (cur_time : Int) :
    ∀ (entries : List (Bool × Int)) (st : SkdScan), st.found_shutdown = false →
      skd_loop cur_time false entries st =
        match first_after false cur_time entries with
        | none => st
        | some (t1, rest) =>
          skd_loop cur_time false rest
            (SkdScan.mk st.found_startup true st.startup (Action.mk false t1)) := by
  intro entries
  induction entries with
  | nil => intro st _; rfl
  | cons e rest ih =>
    intro st hf
    obtain ⟨is_up, timestamp⟩ := e
    rw [first_after_cons]
    by_cases h1 : timestamp ≤ cur_time
    · rw [skd_loop_skip _ _ _ _ _ _ h1, if_neg (by simp only; omega)]
      exact ih st hf
    · cases is_up
      · rw [skd_loop_down_take _ _ _ _ (by omega) hf, if_pos ⟨rfl, by simp only; omega⟩]
      · rw [skd_loop_down_pass _ _ _ _ hf, if_neg (by simp)]
        exact ih st hf

theorem first_after_first (is_up : Bool) (t : Int) :
    ∀ (entries : List (Bool × Int)) (u : Int) (rest : List (Bool × Int)),
      first_after is_up t entries = some (u, rest) →
      t < u ∧ ∃ before, entries = before ++ (is_up, u) :: rest ∧
        ∀ e ∈ before, ¬(e.1 = is_up ∧ t < e.2) := by
  intro entries
  induction entries with
  | nil => intro u rest h; simp [first_after] at h
  | cons e l ih =>
    intro u rest h
    rw [first_after_cons] at h
    by_cases hc : e.1 = is_up ∧ t < e.2
    · rw [if_pos hc] at h
      simp only [Option.some.injEq, Prod.mk.injEq] at h
      obtain ⟨rfl, rfl⟩ := h
      exact ⟨hc.2, [], by rw [← hc.1]; rfl, by simp⟩
    · rw [if_neg hc] at h
      obtain ⟨h1, before, h2, h3⟩ := ih u rest h
      refine ⟨h1, e :: before, by rw [h2]; rfl, ?_⟩
      intro x hx
      rcases List.mem_cons.mp hx with rfl | hx
      · exact hc
      · exact h3 x hx

theorem first_after_isSome (is_up : Bool) (t : Int) :
    ∀ (entries : List (Bool × Int)) (u : Int), (is_up, u) ∈ entries → t < u →
      (first_after is_up t entries).isSome = true := by
  intro entries
  induction entries with
  | nil => intro u h; simp at h
  | cons e l ih =>
    intro u h hu
    rw [first_after_cons]
    by_cases hc : e.1 = is_up ∧ t < e.2
    · rw [if_pos hc]; rfl
    · rw [if_neg hc]
      rcases List.mem_cons.mp h with rfl | h
      · exact absurd ⟨rfl, hu⟩ hc
      · exact ih u h hu

/-- In a log in time order the first action of a type after `t` is not later
than any such action, and everything after that action is still to come. -/
theorem first_after_sorted (is_up : Bool) (t t1 : Int) (tail : List (Bool × Int))
    (ht : t < t1) :
    ∀ l1 : List (Bool × Int),
      (l1 ++ (is_up, t1) :: tail).Pairwise (fun a b => a.2 ≤ b.2) →
      ∃ u mid, first_after is_up t (l1 ++ (is_up, t1) :: tail) = some (u, mid ++ tail) ∧
        u ≤ t1 := by
  intro l1
  induction l1 with
  | nil =>
    intro _
    refine ⟨t1, [], ?_, le_refl _⟩
    rw [List.nil_append, first_after_cons, if_pos ⟨rfl, ht⟩]
    rfl
  | cons e l ih =>
    intro hp
    rw [List.cons_append, first_after_cons]
    rw [List.cons_append, List.pairwise_cons] at hp
    by_cases hc : e.1 = is_up ∧ t < e.2
    · rw [if_pos hc]
      refine ⟨e.2, l ++ [(is_up, t1)], by simp, ?_⟩
      exact hp.1 (is_up, t1) (by simp)
    · rw [if_neg hc]
      exact ih hp.2

theorem next_pair_is_next_pair (entries : List (Bool × Int)) (cur_time : Int)
    (startup_first : Bool) (nearer farther : Int)
    (h : next_pair entries cur_time startup_first = some (nearer, farther)) :
    is_next_pair entries cur_time startup_first nearer farther := by
  unfold next_pair at h
  cases h1 : first_after startup_first cur_time entries with
  | none => rw [h1] at h; simp at h
  | some p1 =>
    obtain ⟨n, rest⟩ := p1
    rw [h1] at h
    simp only at h
    cases h2 : first_after (!startup_first) n rest with
    | none => rw [h2] at h; simp at h
    | some p2 =>
      obtain ⟨f, rest2⟩ := p2
      rw [h2] at h
      simp only [Option.some.injEq, Prod.mk.injEq] at h
      obtain ⟨rfl, rfl⟩ := h
      obtain ⟨hn, l1, e1, hl1⟩ := first_after_first _ _ _ _ _ h1
      obtain ⟨hf, l2, e2, hl2⟩ := first_after_first _ _ _ _ _ h2
      exact ⟨l1, l2, rest2, by rw [e1, e2], hn, hf, hl1, hl2⟩

theorem next_pair_of_sorted (entries : List (Bool × Int)) (cur_time : Int)
    (startup_first : Bool) (hs : entries.Pairwise (fun a b => a.2 ≤ b.2))
    (h : some_pair entries cur_time startup_first) :
    (next_pair entries cur_time startup_first).isSome = true := by
  obtain ⟨l1, l2, l3, t1, t2, he, h1, h2⟩ := h
  rw [he] at hs
  obtain ⟨u, mid, hu, hle⟩ := first_after_sorted startup_first cur_time t1 _ h1 l1 hs
  unfold next_pair
  rw [he, hu]
  simp only
  have h3 := first_after_isSome (!startup_first) u
    (mid ++ (l2 ++ (!startup_first, t2) :: l3)) t2 (by simp) (by omega)
  cases h4 : first_after (!startup_first) u (mid ++ (l2 ++ (!startup_first, t2) :: l3)) with
  | none => rw [h4] at h3; simp at h3
  | some p => rfl

theorem is_next_pair_some_pair (entries : List (Bool × Int)) (cur_time : Int)
    (startup_first : Bool) (nearer farther : Int)
    (h : is_next_pair entries cur_time startup_first nearer farther) :
    some_pair entries cur_time startup_first := by
  obtain ⟨l1, l2, l3, he, h1, h2, _, _⟩ := h
  exact ⟨l1, l2, l3, nearer, farther, he, h1, h2⟩

/-- What `find_next_actions_from_skd` returns, in terms of `next_pair`. -/
theorem find_next_actions_from_skd_eq (content : List Char) (cur_time : Int)
    (startup_first : Bool) (startup shutdown : Action) :
    (find_next_actions_from_skd (some content) cur_time startup_first startup shutdown).1
        = (next_pair (skd_entries content) (uint64 cur_time) startup_first).isSome ∧
    ∀ nearer farther,
      next_pair (skd_entries content) (uint64 cur_time) startup_first = some (nearer, farther) →
      (find_next_actions_from_skd (some content) cur_time startup_first startup shutdown).2
        = if startup_first then (Action.mk true nearer, Action.mk false farther)
          else (Action.mk true farther, Action.mk false nearer) := by
  unfold find_next_actions_from_skd next_pair
  simp only
  cases startup_first
  · rw [skd_loop_down_first _ _ _ rfl]
    cases h1 : first_after false (uint64 cur_time) (skd_entries content) with
    | none => simp
    | some p1 =>
      obtain ⟨n, rest⟩ := p1
      have hn := (first_after_first _ _ _ _ _ h1).1
      simp only
      rw [skd_loop_down_second _ n (by omega) _ _ rfl rfl]
      simp only [Bool.not_false]
      cases h2 : first_after true n rest with
      | none => simp
      | some p2 =>
        obtain ⟨f, rest2⟩ := p2
        simp
  · rw [skd_loop_up_first _ _ _ rfl]
    cases h1 : first_after true (uint64 cur_time) (skd_entries content) with
    | none => simp
    | some p1 =>
      obtain ⟨n, rest⟩ := p1
      have hn := (first_after_first _ _ _ _ _ h1).1
      simp only
      rw [skd_loop_up_second _ n (by omega) _ _ rfl rfl]
      simp only [Bool.not_true]
      cases h2 : first_after false n rest with
      | none => simp
      | some p2 =>
        obtain ⟨f, rest2⟩ := p2
        simp

/-! ## Compact action log: theorems -/

/-- C21, the claim as stated fails on a log that is not in time order: in
the log U10, D5, U3, D8 read at time 0 the startup U3 is followed by the
shutdown D8 with a larger timestamp, and `find_next_actions_from_skd` with
`startup_first` returns false: it settles on U10, the first startup after
`cur_time`, and no shutdown after 10 follows. -/
theorem find_next_actions_from_skd_unordered :
    skd_entries unordered_skd = [(true, 10), (false, 5), (true, 3), (false, 8)] ∧
    some_pair (skd_entries unordered_skd) 0 true ∧
    (find_next_actions_from_skd (some unordered_skd) 0 true ⟨false, 0⟩ ⟨false, 0⟩).1 = false := by
  refine ⟨by decide, ?_, by decide⟩
  exact ⟨[(true, 10), (false, 5)], [], [], 3, 8, by decide, by decide, by decide⟩

/-- C21, amended: when `find_next_actions_from_skd` returns true (with
`startup_first`, and with U and D exchanged without), the log holds a first
U line after `cur_time` and, after it, a first D line whose timestamp
exceeds that of the U line; these two are returned as startup and shutdown,
so that `cur_time < nearer < farther`, and in particular some U line after
`cur_time` is followed by a D line with a larger timestamp. The converse
holds for a log in time order: there the function returns true whenever some
U line after `cur_time` is followed later by a D line with a larger
timestamp. -/
theorem find_next_actions_from_skd_pair (content : List Char) (cur_time : Int)
    (startup_first : Bool) (startup shutdown : Action) :
    ((find_next_actions_from_skd (some content) cur_time startup_first startup shutdown).1 = true →
      ∃ nearer farther,
        is_next_pair (skd_entries content) (uint64 cur_time) startup_first nearer farther ∧
        uint64 cur_time < nearer ∧ nearer < farther ∧
        (find_next_actions_from_skd (some content) cur_time startup_first startup shutdown).2
          = (if startup_first then (Action.mk true nearer, Action.mk false farther)
             else (Action.mk true farther, Action.mk false nearer)) ∧
        some_pair (skd_entries content) (uint64 cur_time) startup_first) ∧
    ((skd_entries content).Pairwise (fun a b => a.2 ≤ b.2) →
      some_pair (skd_entries content) (uint64 cur_time) startup_first →
      (find_next_actions_from_skd (some content) cur_time startup_first startup shutdown).1
        = true) := by
  obtain ⟨h1, h2⟩ := find_next_actions_from_skd_eq content cur_time startup_first startup shutdown
  constructor
  · intro h
    rw [h1] at h
    cases hp : next_pair (skd_entries content) (uint64 cur_time) startup_first with
    | none => rw [hp] at h; simp at h
    | some p =>
      obtain ⟨n, f⟩ := p
      have hi := next_pair_is_next_pair _ _ _ _ _ hp
      obtain ⟨l1, l2, l3, he, hn, hf, _, _⟩ := hi
      exact ⟨n, f, next_pair_is_next_pair _ _ _ _ _ hp, hn, hf, h2 n f hp,
        is_next_pair_some_pair _ _ _ _ _ (next_pair_is_next_pair _ _ _ _ _ hp)⟩
  · intro hs hsome
    rw [h1]
    exact next_pair_of_sorted _ _ _ hs hsome

/-- C21, amended, on a log in time order: in U10, D20, U30, D40 read at
time 15 with `startup_first` the pair found is U30, D40, and read without
`startup_first` it is D20, U30. -/
theorem find_next_actions_from_skd_pair_witness :
    find_next_actions_from_skd (some ordered_skd) 15 true ⟨false, 0⟩ ⟨false, 0⟩
      = (true, ⟨true, 30⟩, ⟨false, 40⟩) ∧
    find_next_actions_from_skd (some ordered_skd) 15 false ⟨false, 0⟩ ⟨false, 0⟩
      = (true, ⟨true, 30⟩, ⟨false, 20⟩) ∧
    ∃ nearer farther,
      is_next_pair (skd_entries ordered_skd) (uint64 15) true nearer farther ∧
      uint64 15 < nearer ∧ nearer < farther ∧
      (find_next_actions_from_skd (some ordered_skd) 15 true
          ⟨false, 0⟩ ⟨false, 0⟩).2
        = (if true = true then (Action.mk true nearer, Action.mk false farther)
           else (Action.mk true farther, Action.mk false nearer)) ∧
      some_pair (skd_entries ordered_skd) (uint64 15) true :=
  ⟨by decide, by decide,
    (find_next_actions_from_skd_pair ordered_skd 15 true
      ⟨false, 0⟩ ⟨false, 0⟩).1 (by decide)⟩

/-! ## The three forms of the schedule: lemmas -/

/-- A digit is none of the characters that the scanners treat specially. -/
theorem isdigit_plain (c : Char) (h : isdigit c = true) :
    isspace c = false ∧ c ≠ '-' ∧ c ≠ '+' ∧ c ≠ '\x00' ∧ c ≠ ' ' ∧ c ≠ '\t' ∧ c ≠ '\n'
      ∧ c ≠ '\r' ∧ c ≠ '#' := by
  have hne : ∀ d : Char, isdigit d = false → c ≠ d := by
    intro d hd hcd
    rw [hcd, hd] at h
    exact Bool.noConfusion h
  refine ⟨?_, hne _ (by decide), hne _ (by decide), hne _ (by decide), hne _ (by decide),
    hne _ (by decide), hne _ (by decide), hne _ (by decide), hne _ (by decide)⟩
  unfold isspace
  simp only [Bool.or_eq_false_iff, beq_eq_false_iff_ne, ne_eq]
  exact ⟨⟨⟨⟨⟨hne _ (by decide), hne _ (by decide)⟩, hne _ (by decide)⟩, hne _ (by decide)⟩,
    hne _ (by decide)⟩, hne _ (by decide)⟩

theorem scan_digits_stop (c : Char) (rest : List Char) (acc : Int) (h : isdigit c = false) :
    scan_digits (c :: rest) acc = (acc, c :: rest) := by
  simp [scan_digits, h]

theorem scan_digits_digit (c : Char) (rest : List Char) (acc : Int) (h : isdigit c = true) :
    scan_digits (c :: rest) acc = scan_digits rest (acc * 10 + ((c.toNat : Int) - 48)) := by
  simp [scan_digits, h]

/-- `%d` on an input that begins with a digit reads the digits. -/
theorem scan_int_digit (c : Char) (rest : List Char) (h : isdigit c = true) :
    scan_int (c :: rest) = some (scan_digits (c :: rest) 0) := by
  obtain ⟨h1, h2, h3, _⟩ := isdigit_plain c h
  unfold scan_int
  have e1 : List.dropWhile isspace (c :: rest) = c :: rest := by
    simp [List.dropWhile, h1]
  rw [e1]
  simp only []
  split
  · rename_i heq
    split at heq
    · rename_i h4; exact absurd (List.cons.inj h4).1 h2
    · rename_i h4; exact absurd (List.cons.inj h4).1 h3
    · exact List.noConfusion heq
  · rename_i c1 tail heq
    split at heq
    · rename_i h4; exact absurd (List.cons.inj h4).1 h2
    · rename_i h4; exact absurd (List.cons.inj h4).1 h3
    · obtain ⟨rfl, rfl⟩ := List.cons.inj heq
      rw [if_pos h]
      split
      · rename_i h4
        split at h4
        · rename_i h5; exact absurd (List.cons.inj h5).1 h2
        · exact Bool.noConfusion h4
      · rfl

theorem scan_digits_block (ds : List Char) (hd : ∀ c ∈ ds, isdigit c = true) :
    ∀ (rest : List Char) (acc : Int),
      scan_digits (ds ++ rest) acc = scan_digits rest (scan_digits ds acc).1 := by
  induction ds with
  | nil => intro rest acc; simp [scan_digits]
  | cons c l ih =>
    intro rest acc
    have hc : isdigit c = true := hd c (by simp)
    rw [List.cons_append, scan_digits_digit _ _ _ hc, scan_digits_digit _ _ _ hc]
    exact ih (fun x hx => hd x (List.mem_cons_of_mem _ hx)) rest _

/-- `%d` reads a numeral that is followed by a character that is not a
digit, or by the end of the text. -/
theorem scan_int_numeral (ds : List Char) (v : Int) (h : is_numeral ds v) (rest : List Char)
    (hr : ∀ acc, scan_digits rest acc = (acc, rest)) :
    scan_int (ds ++ rest) = some (v, rest) := by
  obtain ⟨hne, hd, hv⟩ := h
  cases ds with
  | nil => exact absurd rfl hne
  | cons c l =>
    rw [List.cons_append, scan_int_digit c _ (hd c (by simp)), ← List.cons_append,
      scan_digits_block _ hd, hv, hr]

theorem scan_digits_nil (acc : Int) : scan_digits [] acc = (acc, []) := rfl

set_option maxRecDepth 100000 in
theorem fmt_0d_two : ∀ x : Nat, x < 100 →
    is_numeral (fmt_0d 2 (x : Int)) (x : Int) ∧ (fmt_0d 2 (x : Int)).length = 2 := by
  decide

set_option maxRecDepth 100000 in
theorem fmt_0d_year : ∀ x : Nat, x < 100 →
    is_numeral (fmt_0d 4 (2000 + (x : Int))) (2000 + (x : Int))
      ∧ (fmt_0d 4 (2000 + (x : Int))).length = 4 := by
  decide

theorem scan_char_same (c : Char) (r : List Char) : scan_char c (c :: r) = some r := by
  simp [scan_char]

/-- `str_to_datetime` reads six numerals separated as in the format of
`datetime_str`. -/
theorem str_to_datetime_numerals (Y M D H N S : List Char) (y m d h n s : Int)
    (hY : is_numeral Y y) (hM : is_numeral M m) (hD : is_numeral D d) (hH : is_numeral H h)
    (hN : is_numeral N n) (hS : is_numeral S s) :
    str_to_datetime (Y ++ '-' :: (M ++ '-' :: (D ++ ' ' :: (H ++ ':' :: (N ++ ':' :: S)))))
      = some ⟨int16 y, int8 m, int8 d, int8 h, int8 n, int8 s, 0⟩ := by
  have stop : ∀ (c : Char) (r : List Char), isdigit c = false →
      ∀ acc, scan_digits (c :: r) acc = (acc, c :: r) :=
    fun c r hc acc => scan_digits_stop c r acc hc
  obtain ⟨hHne, hHd, _⟩ := id hH
  have hHs : ∀ r, List.dropWhile isspace (H ++ r) = H ++ r := by
    intro r
    cases H with
    | nil => exact absurd rfl hHne
    | cons c l =>
      have := (isdigit_plain c (hHd c (by simp))).1
      simp [List.dropWhile, this]
  have e1 : List.dropWhile isspace (' ' :: (H ++ ':' :: (N ++ ':' :: S)))
      = H ++ ':' :: (N ++ ':' :: S) := by
    rw [List.dropWhile_cons_of_pos (by decide)]
    exact hHs _
  have e2 := scan_int_numeral S s hS [] scan_digits_nil
  rw [List.append_nil] at e2
  unfold str_to_datetime
  rw [scan_int_numeral Y y hY _ (stop _ _ (by decide))]
  simp only []
  rw [scan_char_same]
  simp only []
  rw [scan_int_numeral M m hM _ (stop _ _ (by decide))]
  simp only []
  rw [scan_char_same]
  simp only []
  rw [scan_int_numeral D d hD _ (stop _ _ (by decide))]
  simp only []
  rw [e1, scan_int_numeral H h hH _ (stop _ _ (by decide))]
  simp only []
  rw [scan_char_same]
  simp only []
  rw [scan_int_numeral N n hN _ (stop _ _ (by decide))]
  simp only []
  rw [scan_char_same]
  simp only []
  rw [e2]
theorem fmt_0d_two_int (x : Int) (h0 : 0 ≤ x) (h1 : x < 100) :
    is_numeral (fmt_0d 2 x) x ∧ (fmt_0d 2 x).length = 2 := by
  have h := fmt_0d_two x.toNat (by omega)
  rwa [Int.toNat_of_nonneg h0] at h

theorem fmt_0d_year_int (x : Int) (h0 : 2000 ≤ x) (h1 : x ≤ 2099) :
    is_numeral (fmt_0d 4 x) x ∧ (fmt_0d 4 x).length = 4 := by
  have h := fmt_0d_year (x - 2000).toNat (by omega)
  have e : 2000 + (((x - 2000).toNat : Nat) : Int) = x := by omega
  rwa [e] at h

/-- The text that `convert_wpi_to_act` prints for a valid date and time: six
numerals of the six fields, 19 characters. -/
theorem datetime_str_valid (dt : DateTime) (hv : dt.valid) :
    ∃ Y M D H N S : List Char,
      datetime_str dt = Y ++ '-' :: (M ++ '-' :: (D ++ ' ' :: (H ++ ':' :: (N ++ ':' :: S)))) ∧
      is_numeral Y dt.year ∧ is_numeral M dt.month ∧ is_numeral D dt.day ∧
      is_numeral H dt.hour ∧ is_numeral N dt.min ∧ is_numeral S dt.sec ∧
      (datetime_str dt).length = 19 := by
  obtain ⟨v1, v2, v3, v4, v5, v6, v7, v8, v9, v10, v11, v12⟩ := hv
  have hdm := get_days_in_month_le dt.year dt.month
  obtain ⟨hY, lY⟩ := fmt_0d_year_int dt.year v1 v2
  obtain ⟨hM, lM⟩ := fmt_0d_two_int dt.month (by omega) (by omega)
  obtain ⟨hD, lD⟩ := fmt_0d_two_int dt.day (by omega) (by omega)
  obtain ⟨hH, lH⟩ := fmt_0d_two_int dt.hour (by omega) (by omega)
  obtain ⟨hN, lN⟩ := fmt_0d_two_int dt.min (by omega) (by omega)
  obtain ⟨hS, lS⟩ := fmt_0d_two_int dt.sec (by omega) (by omega)
  have e : datetime_str dt = fmt_0d 4 dt.year ++ '-' :: (fmt_0d 2 dt.month ++ '-' ::
      (fmt_0d 2 dt.day ++ ' ' :: (fmt_0d 2 dt.hour ++ ':' :: (fmt_0d 2 dt.min ++ ':' ::
        fmt_0d 2 dt.sec)))) := by
    unfold datetime_str
    rw [List.take_of_length_le]
    · simp only [List.append_assoc, List.singleton_append, List.cons_append, List.nil_append]
    · simp only [List.length_append, List.length_singleton, lY, lM, lD, lH, lN, lS]
      omega
  refine ⟨_, _, _, _, _, _, e, hY, hM, hD, hH, hN, hS, ?_⟩
  rw [e]
  simp only [List.length_append, List.length_cons, lY, lM, lD, lH, lN, lS]

/-- `str_to_datetime` reads back the date and time that `datetime_str`
prints; the weekday is not part of the text. -/
theorem str_to_datetime_datetime_str (dt : DateTime) (hv : dt.valid) :
    str_to_datetime (datetime_str dt) = some { dt with wday := 0 } := by
  obtain ⟨Y, M, D, H, N, S, e, hY, hM, hD, hH, hN, hS, _⟩ := datetime_str_valid dt hv
  obtain ⟨v1, v2, v3, v4, v5, v6, v7, v8, v9, v10, v11, v12⟩ := hv
  have hdm := get_days_in_month_le dt.year dt.month
  rw [e, str_to_datetime_numerals Y M D H N S _ _ _ _ _ _ hY hM hD hH hN hS,
    int16_of_range (by omega) (by omega), int8_of_range (by omega) (by omega),
    int8_of_range (by omega) (by omega), int8_of_range (by omega) (by omega),
    int8_of_range (by omega) (by omega), int8_of_range (by omega) (by omega)]
theorem fmt_llu_length (n : Int) (h : n < 18446744073709551616) : (fmt_llu n).length ≤ 20 := by
  unfold fmt_llu Nat.toDigits
  exact Nat.toDigitsCore_length 10 (by decide) _ _ 20 (by omega) (by decide)

/-- The characters of the text of a valid date and time: none ends a C
string, a line or the date, and the first is a digit. -/
theorem datetime_str_chars (dt : DateTime) (hv : dt.valid) :
    (∀ c ∈ datetime_str dt, c ≠ '\x00' ∧ c ≠ '\n' ∧ c ≠ '\r' ∧ c ≠ '#') ∧
    ∃ c r, datetime_str dt = c :: r ∧ isdigit c = true := by
  obtain ⟨Y, M, D, H, N, S, e, hY, hM, hD, hH, hN, hS, _⟩ := datetime_str_valid dt hv
  have dig : ∀ c, isdigit c = true → c ≠ '\x00' ∧ c ≠ '\n' ∧ c ≠ '\r' ∧ c ≠ '#' := by
    intro c hc
    obtain ⟨_, _, _, h4, _, _, h7, h8, h9⟩ := isdigit_plain c hc
    exact ⟨h4, h7, h8, h9⟩
  constructor
  · intro c hc
    rw [e] at hc
    simp only [List.mem_append, List.mem_cons] at hc
    rcases hc with h | h | h | h | h | h | h | h | h | h | h
    · exact dig c (hY.2.1 c h)
    · subst h; decide
    · exact dig c (hM.2.1 c h)
    · subst h; decide
    · exact dig c (hD.2.1 c h)
    · subst h; decide
    · exact dig c (hH.2.1 c h)
    · subst h; decide
    · exact dig c (hN.2.1 c h)
    · subst h; decide
    · exact dig c (hS.2.1 c h)
  · rw [e]
    obtain ⟨hne, hd, _⟩ := hY
    cases Y with
    | nil => exact absurd rfl hne
    | cons c l => exact ⟨c, _, rfl, hd c (by simp)⟩

/-- The second part of the loop body of `convert_act_to_skd` on the text of
a valid date and time followed by a line feed. -/
theorem act_to_skd_output_valid (dt : DateTime) (hv : dt.valid) (action_char : Char) :
    act_to_skd_output action_char (datetime_str dt ++ ['\n'])
      = SkdLine.written (action_char :: fmt_llu (uint64 (get_total_seconds dt)) ++ ['\n']) := by
  obtain ⟨hch, _⟩ := datetime_str_chars dt hv
  obtain ⟨_, _, _, _, _, _, _, _, _, _, _, _, _, hlen⟩ := datetime_str_valid dt hv
  have hrt := str_to_datetime_datetime_str dt hv
  have hts : get_total_seconds { dt with wday := 0 } = get_total_seconds dt := rfl
  have e3 : (List.takeWhile (fun c => decide (c ≠ '\n' ∧ c ≠ '\r' ∧ c ≠ '#'))
      (datetime_str dt ++ ['\n'])).take 19 = datetime_str dt := by
    rw [List.takeWhile_append_of_pos (fun a ha => by simpa using (hch a ha).2),
      List.takeWhile_cons_of_neg (by decide), List.append_nil,
      List.take_of_length_le (by omega)]
  have e4 : List.dropWhile (fun c => decide (c ≠ '#'))
      ((datetime_str dt ++ ['\n']).drop (datetime_str dt).length) = [] := by
    rw [List.drop_left]
    decide
  have e5 := fmt_llu_length (uint64 (get_total_seconds dt)) (by unfold uint64; omega)
  unfold act_to_skd_output
  simp only [e3, hrt, e4, hts, ne_eq, not_true_eq_false, if_false]
  rw [if_neg]
  simp only [SKD_MAX_LINE_LENGTH, List.length_cons, List.length_append, List.length_singleton,
    List.length_nil]
  omega

/-- The loop body of `convert_act_to_skd` on a line made of `UP` or `DN`, a
blank, the text of a valid date and time, and a line feed. -/
theorem act_to_skd_line_valid (dt : DateTime) (hv : dt.valid) (is_up : Bool) :
    act_to_skd_line ((if is_up then ['U', 'P'] else ['D', 'N']) ++ [' '] ++ datetime_str dt
        ++ ['\n'])
      = SkdLine.written ((if is_up then 'U' else 'D')
          :: fmt_llu (uint64 (get_total_seconds dt)) ++ ['\n']) := by
  obtain ⟨hch, c0, r0, e0, hc0⟩ := datetime_str_chars dt hv
  obtain ⟨_, _, _, _, hb1, hb2, _⟩ := isdigit_plain c0 hc0
  have e1 : ∀ p : List Char, (∀ c ∈ p, c ≠ '\x00') →
      c_str (p ++ [' '] ++ datetime_str dt ++ ['\n'])
        = p ++ ' ' :: (datetime_str dt ++ ['\n']) := by
    intro p hp
    unfold c_str
    rw [List.takeWhile_eq_self_iff.mpr]
    · simp only [List.append_assoc, List.singleton_append, List.cons_append, List.nil_append]
    · intro x hx
      simp only [List.mem_append, List.mem_singleton] at hx
      rcases hx with ((h | h) | h) | h
      · simpa using hp x h
      · subst h; decide
      · simpa using (hch x h).1
      · subst h; decide
  have e2 : List.dropWhile (fun c => decide (c = ' ' ∨ c = '\t'))
      (' ' :: (datetime_str dt ++ ['\n'])) = datetime_str dt ++ ['\n'] := by
    rw [List.dropWhile_cons_of_pos (by decide), e0, List.cons_append,
      List.dropWhile_cons_of_neg (by simp [hb1, hb2])]
  have e6 : ∀ (a b : Char) (rest : List Char), isspace a = false → isspace b = false →
      scan_2s (a :: b :: ' ' :: rest) = some [a, b] := by
    intro a b rest ha hb
    unfold scan_2s
    rw [List.dropWhile_cons_of_neg (by simp [ha])]
    simp only []
    rw [List.takeWhile_cons_of_pos (by simp [ha]), List.takeWhile_cons_of_pos (by simp [hb]),
      List.takeWhile_cons_of_neg (by decide)]
    rfl
  cases is_up
  · rw [if_neg (by decide), if_neg (by decide)]
    unfold act_to_skd_line
    rw [e1 _ (by decide)]
    simp only [List.cons_append, List.nil_append]
    rw [List.dropWhile_cons_of_neg (by decide)]
    simp only []
    rw [if_neg (by decide), e6 _ _ _ (by decide) (by decide)]
    simp only []
    rw [if_neg (by decide), if_pos trivial]
    simp only [List.drop_succ_cons, List.drop_zero]
    rw [e2]
    exact act_to_skd_output_valid dt hv 'D'
  · rw [if_pos rfl, if_pos rfl]
    unfold act_to_skd_line
    rw [e1 _ (by decide)]
    simp only [List.cons_append, List.nil_append]
    rw [List.dropWhile_cons_of_neg (by decide)]
    simp only []
    rw [if_neg (by decide), e6 _ _ _ (by decide) (by decide)]
    simp only []
    rw [if_pos trivial]
    simp only [List.drop_succ_cons, List.drop_zero]
    rw [e2]
    exact act_to_skd_output_valid dt hv 'U'
theorem digitChar_digit : ∀ k : Nat, k < 10 →
    isdigit (Nat.digitChar k) = true ∧ (((Nat.digitChar k).toNat : Nat) : Int) - 48 = (k : Int) := by
  decide

theorem skd_timestamp_digit (c : Char) (cs : List Char) (timestamp : Int)
    (h : isdigit c = true) :
    skd_timestamp (c :: cs) timestamp
      = skd_timestamp cs (uint64 (timestamp * 10 + ((c.toNat : Int) - 48))) := by
  simp [skd_timestamp, h]

theorem skd_timestamp_stop (c : Char) (cs : List Char) (timestamp : Int)
    (h : isdigit c = false) : skd_timestamp (c :: cs) timestamp = timestamp := by
  simp [skd_timestamp, h]

theorem toDigitsCore_digits : ∀ (f n : Nat) (ds : List Char),
    (∀ c ∈ ds, isdigit c = true) → ∀ c ∈ Nat.toDigitsCore 10 f n ds, isdigit c = true := by
  intro f
  induction f with
  | zero => intro n ds hd; simpa [Nat.toDigitsCore] using hd
  | succ f ih =>
    intro n ds hd
    have hd2 : ∀ c ∈ Nat.digitChar (n % 10) :: ds, isdigit c = true := by
      intro c hc
      rcases List.mem_cons.mp hc with rfl | hc
      · exact (digitChar_digit (n % 10) (Nat.mod_lt _ (by decide))).1
      · exact hd c hc
    simp only [Nat.toDigitsCore]
    split
    · exact hd2
    · exact ih _ _ hd2

/-- The timestamp loop of `find_next_actions_from_skd` reads the digits that
`%llu` prints as the number printed. -/
theorem skd_timestamp_toDigitsCore (rest : List Char) : ∀ (f n : Nat) (ds : List Char),
    n < f → n < 18446744073709551616 →
    skd_timestamp (Nat.toDigitsCore 10 f n ds ++ rest) 0
      = skd_timestamp (ds ++ rest) (n : Int) := by
  intro f
  induction f with
  | zero => intro n ds h; omega
  | succ f ih =>
    intro n ds h1 h2
    obtain ⟨hd, hv⟩ := digitChar_digit (n % 10) (Nat.mod_lt _ (by decide))
    simp only [Nat.toDigitsCore]
    split
    · rename_i h3
      rw [List.cons_append, skd_timestamp_digit _ _ _ hd, hv]
      congr 1
      unfold uint64
      omega
    · rename_i h3
      rw [ih (n / 10) _ (by omega) (by omega), List.cons_append,
        skd_timestamp_digit _ _ _ hd, hv]
      congr 1
      unfold uint64
      push_cast
      omega

/-- The first part of the loop body of `find_next_actions_from_skd` on a line
that `convert_act_to_skd` writes without a comment. -/
theorem skd_read_line_written (is_up : Bool) (t : Int) (h0 : 0 ≤ t)
    (h1 : t < 18446744073709551616) :
    skd_read_line ((if is_up then 'U' else 'D') :: fmt_llu t ++ ['\n']) = some (is_up, t) := by
  have hdig : ∀ c ∈ fmt_llu t, isdigit c = true :=
    toDigitsCore_digits _ _ [] (by simp)
  have hts : skd_timestamp (fmt_llu t ++ ['\n']) 0 = t := by
    unfold fmt_llu Nat.toDigits
    rw [skd_timestamp_toDigitsCore _ _ _ _ (by omega) (by omega), List.nil_append,
      skd_timestamp_stop _ _ _ (by decide)]
    omega
  have e1 : ∀ c : Char, c ≠ '\x00' →
      c_str (c :: fmt_llu t ++ ['\n']) = c :: (fmt_llu t ++ ['\n']) := by
    intro c hc
    unfold c_str
    rw [List.takeWhile_eq_self_iff.mpr]
    · rfl
    · intro x hx
      simp only [List.cons_append, List.mem_cons, List.mem_append, List.mem_singleton,
        List.not_mem_nil, or_false] at hx
      rcases hx with h | h | h
      · subst h; simpa using hc
      · simpa using (isdigit_plain x (hdig x h)).2.2.2.1
      · subst h; decide
  unfold skd_read_line
  cases is_up
  · rw [if_neg (by decide), e1 _ (by decide), List.dropWhile_cons_of_neg (by decide)]
    simp only []
    rw [if_neg (by decide), if_neg (by decide), if_pos trivial, hts]
  · rw [if_pos rfl, e1 _ (by decide), List.dropWhile_cons_of_neg (by decide)]
    simp only []
    rw [if_neg (by decide), if_pos trivial, hts]
/-! ## The three forms of the schedule: theorems -/

/-- C28: for every timestamp `t` with
`0 ≤ t < get_total_seconds (2100-01-01 00:00:00)`, `timestamp_to_datetime t`
is a calendar-valid `DateTime` (year 2000..2099, month 1..12, day within the
month, hour < 24, min < 60, sec < 60) and `get_total_seconds` takes it back
to `t`. Hence the line that `convert_wpi_to_act` writes to the absolute list
for an action at `t` is turned by `convert_act_to_skd` into the compact line
`U<t>` or `D<t>`, which `find_next_actions_from_skd` reads as the same action
at the same time `t`. -/
theorem get_total_seconds_timestamp_to_datetime (t : Int) (h0 : 0 ≤ t)
    (h1 : t < get_total_seconds ⟨2100, 1, 1, 0, 0, 0, 0⟩) :
    (timestamp_to_datetime t).valid ∧ get_total_seconds (timestamp_to_datetime t) = t ∧
    ∀ is_up : Bool,
      act_to_skd_line (act_line ⟨is_up, t⟩)
        = SkdLine.written ((if is_up then 'U' else 'D') :: fmt_llu t ++ ['\n']) ∧
      skd_read_line ((if is_up then 'U' else 'D') :: fmt_llu t ++ ['\n']) = some (is_up, t) := by
  obtain ⟨hv, hts⟩ := timestamp_to_datetime_in_range t h0 h1
  rw [end_of_range] at h1
  have hle := sum_years_le 100
  refine ⟨hv, hts, fun is_up => ⟨?_, skd_read_line_written is_up t h0 (by omega)⟩⟩
  have e1 : int64 t = t := by unfold int64; omega
  have e2 := act_to_skd_line_valid (timestamp_to_datetime t) hv is_up
  rw [hts, uint64_of_range h0 (by omega)] at e2
  unfold act_line
  simp only [e1]
  exact e2

set_option maxRecDepth 100000 in
/-- Witness of C28 at the last second of 2099, 2099-12-31 23:59:59. -/
theorem get_total_seconds_timestamp_to_datetime_witness :
    act_line ⟨true, 3155759999⟩ = "UP 2099-12-31 23:59:59\n".toList ∧
    (timestamp_to_datetime 3155759999).valid ∧
    get_total_seconds (timestamp_to_datetime 3155759999) = 3155759999 ∧
    ∀ is_up : Bool,
      act_to_skd_line (act_line ⟨is_up, 3155759999⟩)
        = SkdLine.written ((if is_up then 'U' else 'D') :: fmt_llu 3155759999 ++ ['\n']) ∧
      skd_read_line ((if is_up then 'U' else 'D') :: fmt_llu 3155759999 ++ ['\n'])
        = some (is_up, 3155759999) :=
  ⟨by decide, get_total_seconds_timestamp_to_datetime 3155759999 (by decide) (by decide)⟩

/-! ## Loading the schedule: lemmas -/

theorem uint8_dec_to_bcd (x : Int) : uint8 (dec_to_bcd x) = dec_to_bcd x := by
  unfold dec_to_bcd uint8; omega

/-- Writing the items of the alarm that the present state does not arm
leaves the clock alone: `configure_action` on a shutdown while the host is
OFF or STOPPING, or on a startup while it is STARTING or ON, stores the BCD
second, minute, hour and day of the action in its four items and changes
neither the alarm registers nor the tag. -/
theorem configure_action_other_alarm (current_rpi_state : Int) (e : Env) (a : Action)
    (h : ((current_rpi_state = STATE_STOPPING ∨ current_rpi_state = STATE_OFF)
          ∧ a.is_up = false)
        ∨ ((current_rpi_state = STATE_STARTING ∨ current_rpi_state = STATE_ON)
          ∧ a.is_up = true)) :
    (configure_action current_rpi_state e a).2 = true ∧
    (configure_action current_rpi_state e a).1.alarm_type = e.alarm_type ∧
    (configure_action current_rpi_state e a).1.reg_alarm_daydate = e.reg_alarm_daydate ∧
    (configure_action current_rpi_state e a).1.reg_alarm_hours = e.reg_alarm_hours ∧
    (configure_action current_rpi_state e a).1.reg_alarm_minutes = e.reg_alarm_minutes ∧
    conf_get (configure_action current_rpi_state e a).1
        (if a.is_up then ConfKey.ALARM1_SECOND else ConfKey.ALARM2_SECOND)
      = dec_to_bcd (uint8 (timestamp_to_datetime (int64 a.time)).sec) ∧
    conf_get (configure_action current_rpi_state e a).1
        (if a.is_up then ConfKey.ALARM1_MINUTE else ConfKey.ALARM2_MINUTE)
      = dec_to_bcd (uint8 (timestamp_to_datetime (int64 a.time)).min) ∧
    conf_get (configure_action current_rpi_state e a).1
        (if a.is_up then ConfKey.ALARM1_HOUR else ConfKey.ALARM2_HOUR)
      = dec_to_bcd (uint8 (timestamp_to_datetime (int64 a.time)).hour) ∧
    conf_get (configure_action current_rpi_state e a).1
        (if a.is_up then ConfKey.ALARM1_DAY else ConfKey.ALARM2_DAY)
      = dec_to_bcd (uint8 (timestamp_to_datetime (int64 a.time)).day) := by
  have hoff : ∀ (s : Int) (x : Env) (k : ConfKey) (v : Int),
      (s = STATE_STOPPING ∨ s = STATE_OFF) →
      (k = ConfKey.ALARM2_SECOND ∨ k = ConfKey.ALARM2_MINUTE ∨ k = ConfKey.ALARM2_HOUR
        ∨ k = ConfKey.ALARM2_DAY) →
      conf_set_alarm s x k v = conf_set x k v := by
    intro s x k v hs hk
    unfold conf_set_alarm on_alarm_conf_changed
    rw [if_pos hs, if_neg]
    rcases hk with rfl | rfl | rfl | rfl <;> decide
  have hon : ∀ (s : Int) (x : Env) (k : ConfKey) (v : Int),
      (s = STATE_STARTING ∨ s = STATE_ON) →
      (k = ConfKey.ALARM1_SECOND ∨ k = ConfKey.ALARM1_MINUTE ∨ k = ConfKey.ALARM1_HOUR
        ∨ k = ConfKey.ALARM1_DAY) →
      conf_set_alarm s x k v = conf_set x k v := by
    intro s x k v hs hk
    have hs2 : ¬ (s = STATE_STOPPING ∨ s = STATE_OFF) := by
      rcases hs with rfl | rfl <;> decide
    unfold conf_set_alarm on_alarm_conf_changed
    rw [if_neg hs2, if_pos hs, if_neg]
    rcases hk with rfl | rfl | rfl | rfl <;> decide
  rcases h with ⟨hs, hu⟩ | ⟨hs, hu⟩
  · unfold configure_action
    simp only [hu, Bool.false_eq_true, if_false]
    rw [hoff _ _ _ _ hs (by simp), hoff _ _ _ _ hs (by simp), hoff _ _ _ _ hs (by simp),
      hoff _ _ _ _ hs (by simp)]
    simp [conf_set, conf_get, uint8_dec_to_bcd]
  · unfold configure_action
    simp only [hu, if_true]
    rw [hon _ _ _ _ hs (by simp), hon _ _ _ _ hs (by simp), hon _ _ _ _ hs (by simp),
      hon _ _ _ _ hs (by simp)]
    simp [conf_set, conf_get, uint8_dec_to_bcd]

theorem same_clock_refl (x : Env) : same_clock x x :=
  ⟨rfl, rfl, rfl, rfl, rfl, rfl, rfl, fun _ _ => rfl⟩

theorem same_clock_trans {x y z : Env} (h1 : same_clock x y) (h2 : same_clock y z) :
    same_clock x z := by
  obtain ⟨a1, a2, a3, a4, a5, a6, a7, a8⟩ := h1
  obtain ⟨b1, b2, b3, b4, b5, b6, b7, b8⟩ := h2
  exact ⟨a1.trans b1, a2.trans b2, a3.trans b3, a4.trans b4, a5.trans b5, a6.trans b6,
    a7.trans b7, fun k hk => (a8 k hk).trans (b8 k hk)⟩

theorem rtc_set_alarm_same_clock (x : Env) (day hour min : Int) (startup : Bool) :
    same_clock (rtc_set_alarm x day hour min startup) x ∧
    (rtc_set_alarm x day hour min startup).conf = x.conf := by
  unfold rtc_set_alarm
  simp only []
  split_ifs <;> exact ⟨⟨rfl, rfl, rfl, rfl, rfl, rfl, rfl, fun _ _ => rfl⟩, rfl⟩

theorem on_alarm_conf_changed_same_clock (s : Int) (x : Env) (k : ConfKey) :
    same_clock (on_alarm_conf_changed s x k) x ∧ (on_alarm_conf_changed s x k).conf = x.conf := by
  unfold on_alarm_conf_changed
  simp only []
  split_ifs <;>
    first
      | exact rtc_set_alarm_same_clock _ _ _ _ _
      | exact ⟨same_clock_refl x, rfl⟩

theorem conf_set_same_clock (x : Env) (k : ConfKey) (v : Int) (hk : alarm_key k = true) :
    same_clock (conf_set x k v) x := by
  refine ⟨rfl, rfl, rfl, rfl, rfl, rfl, rfl, ?_⟩
  intro k2 hk2
  have : k2 ≠ k := by rintro rfl; rw [hk] at hk2; exact Bool.noConfusion hk2
  simp [conf_set, this]

theorem conf_set_alarm_same_clock (s : Int) (x : Env) (k : ConfKey) (v : Int)
    (hk : alarm_key k = true) : same_clock (conf_set_alarm s x k v) x :=
  same_clock_trans (on_alarm_conf_changed_same_clock s _ k).1 (conf_set_same_clock x k v hk)

theorem conf_set_alarm_conf (s : Int) (x : Env) (k : ConfKey) (v : Int) :
    (conf_set_alarm s x k v).conf = fun k2 => if k2 = k then uint8 v else x.conf k2 := by
  unfold conf_set_alarm
  rw [(on_alarm_conf_changed_same_clock s _ k).2]
  rfl

theorem rtc_get_time_congr {x y : Env} (h : same_clock x y) : rtc_get_time x = rtc_get_time y := by
  obtain ⟨a1, a2, a3, a4, a5, a6, a7, _⟩ := h
  unfold rtc_get_time
  rw [a1, a2, a3, a4, a5, a6, a7]

theorem conf_get_congr {x y : Env} (h : same_clock x y) (k : ConfKey)
    (hk : alarm_key k = false) : conf_get x k = conf_get y k := by
  unfold conf_get
  rw [h.2.2.2.2.2.2.2 k hk]

theorem load_dst_configuration_congr {x y : Env} (h : same_clock x y) :
    load_dst_configuration x = load_dst_configuration y := by
  unfold load_dst_configuration
  rw [rtc_get_time_congr h, conf_get_congr h ConfKey.DST_OFFSET rfl,
    conf_get_congr h ConfKey.DST_BEGIN_MON rfl, conf_get_congr h ConfKey.DST_BEGIN_DAY rfl,
    conf_get_congr h ConfKey.DST_BEGIN_HOUR rfl, conf_get_congr h ConfKey.DST_BEGIN_MIN rfl,
    conf_get_congr h ConfKey.DST_END_MON rfl, conf_get_congr h ConfKey.DST_END_DAY rfl,
    conf_get_congr h ConfKey.DST_END_HOUR rfl, conf_get_congr h ConfKey.DST_END_MIN rfl]

theorem adjust_action_time_for_dst_congr {x y : Env} (h : same_clock x y) (ts : Int) :
    adjust_action_time_for_dst x ts = adjust_action_time_for_dst y ts := by
  unfold adjust_action_time_for_dst
  rw [load_dst_configuration_congr h, conf_get_congr h ConfKey.DST_APPLIED rfl]

theorem rtc_get_scheduled_time_congr {x y : Env} (h : same_clock x y) (day hour min sec : Int) :
    rtc_get_scheduled_time x day hour min sec = rtc_get_scheduled_time y day hour min sec := by
  unfold rtc_get_scheduled_time
  rw [rtc_get_time_congr h]

set_option maxRecDepth 100000 in
theorem bcd_to_dec_dec_to_bcd_nat : ∀ n : Nat, n < 100 →
    bcd_to_dec (uint8 (dec_to_bcd (uint8 (n : Int)))) = (n : Int) := by
  decide

theorem bcd_to_dec_dec_to_bcd (x : Int) (h0 : 0 ≤ x) (h1 : x < 100) :
    bcd_to_dec (uint8 (dec_to_bcd (uint8 x))) = x := by
  have h := bcd_to_dec_dec_to_bcd_nat x.toNat (by omega)
  rwa [Int.toNat_of_nonneg h0] at h

theorem rearmed_time_congr {x e : Env} (h : same_clock x e) (dt : DateTime) :
    rearmed_time x dt = rearmed_time e dt := by
  unfold rearmed_time
  simp only [rtc_get_scheduled_time_congr h, adjust_action_time_for_dst_congr h]

theorem valid_fields (dt : DateTime) (hv : dt.valid) :
    1 ≤ dt.day ∧ dt.day ≤ 31 ∧ 0 ≤ dt.hour ∧ dt.hour ≤ 23 ∧ 0 ≤ dt.min ∧ dt.min ≤ 59
      ∧ 0 ≤ dt.sec ∧ dt.sec ≤ 59 := by
  obtain ⟨v1, v2, v3, v4, v5, v6, v7, v8, v9, v10, v11, v12⟩ := hv
  have hdm := get_days_in_month_le dt.year dt.month
  exact ⟨v5, by omega, v7, v8, v9, v10, v11, v12⟩

/-- The last write of `set_alarm_for_action` for a startup, with the host
OFF or STOPPING: the change callback arms the alarm again from the items. -/
theorem conf_set_alarm1_day (s : Int) (y : Env) (dt1 : DateTime) (hv : dt1.valid)
    (hs : s = STATE_STOPPING ∨ s = STATE_OFF)
    (c1 : conf_get y ConfKey.ALARM1_SECOND = dec_to_bcd (uint8 dt1.sec))
    (c2 : conf_get y ConfKey.ALARM1_MINUTE = dec_to_bcd (uint8 dt1.min))
    (c3 : conf_get y ConfKey.ALARM1_HOUR = dec_to_bcd (uint8 dt1.hour))
    (c4 : conf_get y ConfKey.ALARM1_DAY = dec_to_bcd (uint8 dt1.day)) :
    on_alarm_conf_changed s y ConfKey.ALARM1_DAY
      = rtc_set_alarm y (rearmed_time y dt1).day (rearmed_time y dt1).hour
          (rearmed_time y dt1).min true := by
  obtain ⟨f1, f2, f3, f4, f5, f6, f7, f8⟩ := valid_fields dt1 hv
  have u : ∀ x : Int, dec_to_bcd (uint8 x) = uint8 (dec_to_bcd (uint8 x)) :=
    fun x => (uint8_dec_to_bcd _).symm
  have b1 : bcd_to_dec (conf_get y ConfKey.ALARM1_SECOND) = dt1.sec := by
    rw [c1, u, bcd_to_dec_dec_to_bcd _ (by omega) (by omega)]
  have b2 : bcd_to_dec (conf_get y ConfKey.ALARM1_MINUTE) = dt1.min := by
    rw [c2, u, bcd_to_dec_dec_to_bcd _ (by omega) (by omega)]
  have b3 : bcd_to_dec (conf_get y ConfKey.ALARM1_HOUR) = dt1.hour := by
    rw [c3, u, bcd_to_dec_dec_to_bcd _ (by omega) (by omega)]
  have b4 : bcd_to_dec (conf_get y ConfKey.ALARM1_DAY) = dt1.day := by
    rw [c4, u, bcd_to_dec_dec_to_bcd _ (by omega) (by omega)]
  unfold on_alarm_conf_changed rearmed_time
  rw [if_pos hs, if_pos (Or.inr (Or.inr rfl))]
  simp only [b1, b2, b3, b4]
  rw [if_neg (by omega), int8_of_range (by omega) (by omega), int8_of_range (by omega) (by omega),
    int8_of_range (by omega) (by omega), int8_of_range (by omega) (by omega)]

/-- The last write of `set_alarm_for_action` for a shutdown, with the host
STARTING or ON. -/
theorem conf_set_alarm2_day (s : Int) (y : Env) (dt1 : DateTime) (hv : dt1.valid)
    (hs : s = STATE_STARTING ∨ s = STATE_ON)
    (c1 : conf_get y ConfKey.ALARM2_SECOND = dec_to_bcd (uint8 dt1.sec))
    (c2 : conf_get y ConfKey.ALARM2_MINUTE = dec_to_bcd (uint8 dt1.min))
    (c3 : conf_get y ConfKey.ALARM2_HOUR = dec_to_bcd (uint8 dt1.hour))
    (c4 : conf_get y ConfKey.ALARM2_DAY = dec_to_bcd (uint8 dt1.day)) :
    on_alarm_conf_changed s y ConfKey.ALARM2_DAY
      = rtc_set_alarm y (rearmed_time y dt1).day (rearmed_time y dt1).hour
          (rearmed_time y dt1).min false := by
  obtain ⟨f1, f2, f3, f4, f5, f6, f7, f8⟩ := valid_fields dt1 hv
  have hs2 : ¬ (s = STATE_STOPPING ∨ s = STATE_OFF) := by
    rcases hs with rfl | rfl <;> decide
  have u : ∀ x : Int, dec_to_bcd (uint8 x) = uint8 (dec_to_bcd (uint8 x)) :=
    fun x => (uint8_dec_to_bcd _).symm
  have b1 : bcd_to_dec (conf_get y ConfKey.ALARM2_SECOND) = dt1.sec := by
    rw [c1, u, bcd_to_dec_dec_to_bcd _ (by omega) (by omega)]
  have b2 : bcd_to_dec (conf_get y ConfKey.ALARM2_MINUTE) = dt1.min := by
    rw [c2, u, bcd_to_dec_dec_to_bcd _ (by omega) (by omega)]
  have b3 : bcd_to_dec (conf_get y ConfKey.ALARM2_HOUR) = dt1.hour := by
    rw [c3, u, bcd_to_dec_dec_to_bcd _ (by omega) (by omega)]
  have b4 : bcd_to_dec (conf_get y ConfKey.ALARM2_DAY) = dt1.day := by
    rw [c4, u, bcd_to_dec_dec_to_bcd _ (by omega) (by omega)]
  unfold on_alarm_conf_changed rearmed_time
  rw [if_neg hs2, if_pos hs, if_pos (Or.inr (Or.inr rfl))]
  simp only [b1, b2, b3, b4]
  rw [if_neg (by omega), int8_of_range (by omega) (by omega), int8_of_range (by omega) (by omega),
    int8_of_range (by omega) (by omega), int8_of_range (by omega) (by omega)]

/-- What `set_alarm_for_action` leaves for the alarm that the present state
arms (a startup with the host OFF or STOPPING, a shutdown with the host
STARTING or ON), when the time of the action is a valid date and time: the
four items of the alarm hold that date and time, and the alarm in the clock
is the one that the change callback armed from the items after the last of
the four writes, not the one that `set_alarm_for_action` wrote at first. -/
theorem set_alarm_for_action_rearms (s : Int) (e : Env) (a : Action)
    (h : ((s = STATE_STOPPING ∨ s = STATE_OFF) ∧ a.is_up = true)
        ∨ ((s = STATE_STARTING ∨ s = STATE_ON) ∧ a.is_up = false))
    (hv : (timestamp_to_datetime (int64 a.time)).valid) :
    ∃ y : Env, same_clock y e ∧
      (set_alarm_for_action s e a).1
        = rtc_set_alarm y (rearmed_time e (timestamp_to_datetime (int64 a.time))).day
            (rearmed_time e (timestamp_to_datetime (int64 a.time))).hour
            (rearmed_time e (timestamp_to_datetime (int64 a.time))).min a.is_up ∧
      conf_get y (if a.is_up then ConfKey.ALARM1_SECOND else ConfKey.ALARM2_SECOND)
        = dec_to_bcd (uint8 (timestamp_to_datetime (int64 a.time)).sec) ∧
      conf_get y (if a.is_up then ConfKey.ALARM1_MINUTE else ConfKey.ALARM2_MINUTE)
        = dec_to_bcd (uint8 (timestamp_to_datetime (int64 a.time)).min) ∧
      conf_get y (if a.is_up then ConfKey.ALARM1_HOUR else ConfKey.ALARM2_HOUR)
        = dec_to_bcd (uint8 (timestamp_to_datetime (int64 a.time)).hour) ∧
      conf_get y (if a.is_up then ConfKey.ALARM1_DAY else ConfKey.ALARM2_DAY)
        = dec_to_bcd (uint8 (timestamp_to_datetime (int64 a.time)).day) := by
  rcases h with ⟨hs, hu⟩ | ⟨hs, hu⟩
  · unfold set_alarm_for_action
    simp only [hu, if_true]
    generalize hdt : timestamp_to_datetime (int64 a.time) = dt1 at hv ⊢
    generalize he0 : rtc_set_alarm e dt1.day dt1.hour dt1.min true = e0
    have s0 : same_clock e0 e := by rw [← he0]; exact (rtc_set_alarm_same_clock _ _ _ _ _).1
    generalize he1 : conf_set_alarm s e0 ConfKey.ALARM1_SECOND (dec_to_bcd (uint8 dt1.sec)) = e1
    have s1 : same_clock e1 e := by
      rw [← he1]; exact same_clock_trans (conf_set_alarm_same_clock _ _ _ _ rfl) s0
    have k1 : e1.conf ConfKey.ALARM1_SECOND = dec_to_bcd (uint8 dt1.sec) := by
      rw [← he1, conf_set_alarm_conf]; simp [uint8_dec_to_bcd]
    generalize he2 : conf_set_alarm s e1 ConfKey.ALARM1_MINUTE (dec_to_bcd (uint8 dt1.min)) = e2
    have s2 : same_clock e2 e := by
      rw [← he2]; exact same_clock_trans (conf_set_alarm_same_clock _ _ _ _ rfl) s1
    have k2 : e2.conf ConfKey.ALARM1_SECOND = dec_to_bcd (uint8 dt1.sec)
        ∧ e2.conf ConfKey.ALARM1_MINUTE = dec_to_bcd (uint8 dt1.min) := by
      rw [← he2, conf_set_alarm_conf]; simp [uint8_dec_to_bcd, k1]
    generalize he3 : conf_set_alarm s e2 ConfKey.ALARM1_HOUR (dec_to_bcd (uint8 dt1.hour)) = e3
    have s3 : same_clock e3 e := by
      rw [← he3]; exact same_clock_trans (conf_set_alarm_same_clock _ _ _ _ rfl) s2
    have k3 : e3.conf ConfKey.ALARM1_SECOND = dec_to_bcd (uint8 dt1.sec)
        ∧ e3.conf ConfKey.ALARM1_MINUTE = dec_to_bcd (uint8 dt1.min)
        ∧ e3.conf ConfKey.ALARM1_HOUR = dec_to_bcd (uint8 dt1.hour) := by
      rw [← he3, conf_set_alarm_conf]; simp [uint8_dec_to_bcd, k2]
    have sy : same_clock (conf_set e3 ConfKey.ALARM1_DAY (dec_to_bcd (uint8 dt1.day))) e :=
      same_clock_trans (conf_set_same_clock _ _ _ rfl) s3
    have c1 : conf_get (conf_set e3 ConfKey.ALARM1_DAY (dec_to_bcd (uint8 dt1.day)))
        ConfKey.ALARM1_SECOND = dec_to_bcd (uint8 dt1.sec) := by
      simp [conf_get, conf_set, k3, uint8_dec_to_bcd]
    have c2 : conf_get (conf_set e3 ConfKey.ALARM1_DAY (dec_to_bcd (uint8 dt1.day)))
        ConfKey.ALARM1_MINUTE = dec_to_bcd (uint8 dt1.min) := by
      simp [conf_get, conf_set, k3, uint8_dec_to_bcd]
    have c3 : conf_get (conf_set e3 ConfKey.ALARM1_DAY (dec_to_bcd (uint8 dt1.day)))
        ConfKey.ALARM1_HOUR = dec_to_bcd (uint8 dt1.hour) := by
      simp [conf_get, conf_set, k3, uint8_dec_to_bcd]
    have c4 : conf_get (conf_set e3 ConfKey.ALARM1_DAY (dec_to_bcd (uint8 dt1.day)))
        ConfKey.ALARM1_DAY = dec_to_bcd (uint8 dt1.day) := by
      simp [conf_get, conf_set, uint8_dec_to_bcd]
    refine ⟨_, sy, ?_, c1, c2, c3, c4⟩
    unfold conf_set_alarm
    rw [conf_set_alarm1_day s _ dt1 hv hs c1 c2 c3 c4, rearmed_time_congr sy]
  · unfold set_alarm_for_action
    simp only [hu, Bool.false_eq_true, if_false]
    generalize hdt : timestamp_to_datetime (int64 a.time) = dt1 at hv ⊢
    generalize he0 : rtc_set_alarm e dt1.day dt1.hour dt1.min false = e0
    have s0 : same_clock e0 e := by rw [← he0]; exact (rtc_set_alarm_same_clock _ _ _ _ _).1
    generalize he1 : conf_set_alarm s e0 ConfKey.ALARM2_SECOND (dec_to_bcd (uint8 dt1.sec)) = e1
    have s1 : same_clock e1 e := by
      rw [← he1]; exact same_clock_trans (conf_set_alarm_same_clock _ _ _ _ rfl) s0
    have k1 : e1.conf ConfKey.ALARM2_SECOND = dec_to_bcd (uint8 dt1.sec) := by
      rw [← he1, conf_set_alarm_conf]; simp [uint8_dec_to_bcd]
    generalize he2 : conf_set_alarm s e1 ConfKey.ALARM2_MINUTE (dec_to_bcd (uint8 dt1.min)) = e2
    have s2 : same_clock e2 e := by
      rw [← he2]; exact same_clock_trans (conf_set_alarm_same_clock _ _ _ _ rfl) s1
    have k2 : e2.conf ConfKey.ALARM2_SECOND = dec_to_bcd (uint8 dt1.sec)
        ∧ e2.conf ConfKey.ALARM2_MINUTE = dec_to_bcd (uint8 dt1.min) := by
      rw [← he2, conf_set_alarm_conf]; simp [uint8_dec_to_bcd, k1]
    generalize he3 : conf_set_alarm s e2 ConfKey.ALARM2_HOUR (dec_to_bcd (uint8 dt1.hour)) = e3
    have s3 : same_clock e3 e := by
      rw [← he3]; exact same_clock_trans (conf_set_alarm_same_clock _ _ _ _ rfl) s2
    have k3 : e3.conf ConfKey.ALARM2_SECOND = dec_to_bcd (uint8 dt1.sec)
        ∧ e3.conf ConfKey.ALARM2_MINUTE = dec_to_bcd (uint8 dt1.min)
        ∧ e3.conf ConfKey.ALARM2_HOUR = dec_to_bcd (uint8 dt1.hour) := by
      rw [← he3, conf_set_alarm_conf]; simp [uint8_dec_to_bcd, k2]
    have sy : same_clock (conf_set e3 ConfKey.ALARM2_DAY (dec_to_bcd (uint8 dt1.day))) e :=
      same_clock_trans (conf_set_same_clock _ _ _ rfl) s3
    have c1 : conf_get (conf_set e3 ConfKey.ALARM2_DAY (dec_to_bcd (uint8 dt1.day)))
        ConfKey.ALARM2_SECOND = dec_to_bcd (uint8 dt1.sec) := by
      simp [conf_get, conf_set, k3, uint8_dec_to_bcd]
    have c2 : conf_get (conf_set e3 ConfKey.ALARM2_DAY (dec_to_bcd (uint8 dt1.day)))
        ConfKey.ALARM2_MINUTE = dec_to_bcd (uint8 dt1.min) := by
      simp [conf_get, conf_set, k3, uint8_dec_to_bcd]
    have c3 : conf_get (conf_set e3 ConfKey.ALARM2_DAY (dec_to_bcd (uint8 dt1.day)))
        ConfKey.ALARM2_HOUR = dec_to_bcd (uint8 dt1.hour) := by
      simp [conf_get, conf_set, k3, uint8_dec_to_bcd]
    have c4 : conf_get (conf_set e3 ConfKey.ALARM2_DAY (dec_to_bcd (uint8 dt1.day)))
        ConfKey.ALARM2_DAY = dec_to_bcd (uint8 dt1.day) := by
      simp [conf_get, conf_set, uint8_dec_to_bcd]
    refine ⟨_, sy, ?_, c1, c2, c3, c4⟩
    unfold conf_set_alarm
    rw [conf_set_alarm2_day s _ dt1 hv hs c1 c2 c3 c4, rearmed_time_congr sy]

/-- A successful `load_script(true)`: the pair was found in the compact log,
the nearer action was adjusted for DST and handed to `set_alarm_for_action`,
the farther one to `configure_action`. -/
theorem load_script_success (fuel : Nat) (state : Int) (disk : Disk) (e : Env) (r : Loaded)
    (hr : load_script fuel true state disk e = some r) (hres : r.result = true) :
    ∃ t_up t_down : Int,
      find_next_actions_from_skd r.disk.skd (uint64 (rtc_get_timestamp e).1)
          (decide (state = STATE_STOPPING ∨ state = STATE_OFF)) ⟨false, 0⟩ ⟨false, 0⟩
        = (true, ⟨true, t_up⟩, ⟨false, t_down⟩) ∧
      r.env =
        if state = STATE_STOPPING ∨ state = STATE_OFF then
          (configure_action state
            (set_alarm_for_action state e
              ⟨true, (adjust_action_time_for_dst e t_up).1⟩).1 ⟨false, t_down⟩).1
        else
          (configure_action state
            (set_alarm_for_action state e
              ⟨false, (adjust_action_time_for_dst e t_down).1⟩).1 ⟨true, t_up⟩).1 := by
  unfold load_script at hr
  simp only [] at hr
  split at hr
  · simp only [Option.some.injEq] at hr
    subst hr
    exact absurd hres (by simp)
  · split at hr
    · exact Option.noConfusion hr
    · simp only [Option.some.injEq] at hr
      subst hr
      exact absurd hres (by simp)
    · rename_i d hprep
      simp only [Bool.not_true, Bool.false_eq_true, if_false] at hr
      cases hskd : d.skd with
      | none =>
        simp only [hskd, Option.isSome_none, Bool.false_eq_true, if_false, Bool.not_false,
          if_true, Option.some.injEq] at hr
        subst hr
        exact absurd hres (by simp)
      | some content =>
        simp only [hskd, Option.isSome_some, if_true] at hr
        obtain ⟨h1, h2⟩ := find_next_actions_from_skd_eq content (uint64 (rtc_get_timestamp e).1)
          (decide (state = STATE_STOPPING ∨ state = STATE_OFF)) ⟨false, 0⟩ ⟨false, 0⟩
        cases hp : next_pair (skd_entries content) (uint64 (uint64 (rtc_get_timestamp e).1))
            (decide (state = STATE_STOPPING ∨ state = STATE_OFF)) with
        | none =>
          rw [hp] at h1
          simp only [h1, Option.isSome_none, Bool.not_false, if_true, Option.some.injEq] at hr
          subst hr
          exact absurd hres (by simp)
        | some p =>
          obtain ⟨n, f⟩ := p
          rw [hp] at h1
          have h3 := h2 n f hp
          by_cases hs : state = STATE_STOPPING ∨ state = STATE_OFF
          · simp only [hs, decide_True, if_true] at h1 h3 hr ⊢
            simp only [h1, Option.isSome_some, Bool.not_true, Bool.false_eq_true, if_false,
              Option.some.injEq] at hr
            subst hr
            refine ⟨n, f, ?_, ?_⟩
            · simp only [hskd]
              exact Prod.ext h1 h3
            · simp only [h3]
          · simp only [hs, decide_False, Bool.false_eq_true, if_false] at h1 h3 hr ⊢
            simp only [h1, Option.isSome_some, Bool.not_true, Bool.false_eq_true, if_false,
              Option.some.injEq] at hr
            subst hr
            refine ⟨f, n, ?_, ?_⟩
            · simp only [hskd]
              exact Prod.ext h1 h3
            · simp only [h3]

theorem rtc_set_alarm_registers (y : Env) (day hour min : Int) (startup : Bool) :
    (rtc_set_alarm y day hour min startup).reg_alarm_daydate
      = (if day ≥ 0 then dec_to_bcd (uint8 day) else AE_MASK) ∧
    (rtc_set_alarm y day hour min startup).reg_alarm_hours
      = (if hour ≥ 0 then dec_to_bcd (uint8 hour) else AE_MASK) ∧
    (rtc_set_alarm y day hour min startup).reg_alarm_minutes
      = (if min ≥ 0 then dec_to_bcd (uint8 min) else AE_MASK) ∧
    (day ≠ 0 ∨ hour ≠ 0 ∨ min ≠ 0 →
      (rtc_set_alarm y day hour min startup).alarm_type
        = if startup then ALARM_TYPE_STARTUP else ALARM_TYPE_SHUTDOWN) := by
  unfold rtc_set_alarm
  simp only []
  refine ⟨?_, ?_, ?_, ?_⟩
  · split_ifs <;> rfl
  · split_ifs <;> rfl
  · split_ifs <;> rfl
  · intro h
    rw [if_pos h]

/-! ## Loading the schedule: theorems -/

/-- C22 fails on the code, which arms the nearer action adjusted twice. When
`load_script(true)` succeeds, with (startup, shutdown) the pair it selected
and `once` the date and time of the nearer action after
`adjust_action_time_for_dst` was applied to it once: if `once` is a valid
date and time, the alarm registers do not hold the day, hour and minute of
`once` but those of `rearmed_time e once`, the date and time that
`on_alarm_conf_changed` computes when `set_alarm_for_action` writes `once` to
the alarm items: `once` resolved against the clock by
`rtc_get_scheduled_time` and adjusted for DST a second time. The rest is as
claimed: the tag is STARTUP with the host OFF or STOPPING and SHUTDOWN with
the host STARTING or ON, and the items of the other alarm hold the BCD
second, minute, hour and day of the farther action unadjusted. -/
theorem load_script_adjusts_twice (fuel : Nat) (state : Int) (disk : Disk) (e : Env)
    (r : Loaded) (hr : load_script fuel true state disk e = some r) (hres : r.result = true)
    (hstate : state = STATE_OFF ∨ state = STATE_STOPPING ∨ state = STATE_STARTING
      ∨ state = STATE_ON) :
    ∃ startup shutdown once twice kept : DateTime, ∃ t_up t_down : Int,
      find_next_actions_from_skd r.disk.skd (uint64 (rtc_get_timestamp e).1)
          (decide (state = STATE_STOPPING ∨ state = STATE_OFF)) ⟨false, 0⟩ ⟨false, 0⟩
        = (true, ⟨true, t_up⟩, ⟨false, t_down⟩) ∧
      startup = timestamp_to_datetime (int64 t_up) ∧
      shutdown = timestamp_to_datetime (int64 t_down) ∧
      once = timestamp_to_datetime (int64 (adjust_action_time_for_dst e
        (if state = STATE_STOPPING ∨ state = STATE_OFF then t_up else t_down)).1) ∧
      twice = rearmed_time e once ∧
      kept = (if state = STATE_STOPPING ∨ state = STATE_OFF then shutdown else startup) ∧
      (once.valid →
        r.env.reg_alarm_daydate = (if twice.day ≥ 0 then dec_to_bcd (uint8 twice.day) else AE_MASK) ∧
        r.env.reg_alarm_hours = (if twice.hour ≥ 0 then dec_to_bcd (uint8 twice.hour) else AE_MASK) ∧
        r.env.reg_alarm_minutes = (if twice.min ≥ 0 then dec_to_bcd (uint8 twice.min) else AE_MASK) ∧
        (twice.day ≠ 0 ∨ twice.hour ≠ 0 ∨ twice.min ≠ 0 →
          r.env.alarm_type = if state = STATE_STOPPING ∨ state = STATE_OFF
            then ALARM_TYPE_STARTUP else ALARM_TYPE_SHUTDOWN)) ∧
      conf_get r.env (if state = STATE_STOPPING ∨ state = STATE_OFF
          then ConfKey.ALARM2_SECOND else ConfKey.ALARM1_SECOND) = dec_to_bcd (uint8 kept.sec) ∧
      conf_get r.env (if state = STATE_STOPPING ∨ state = STATE_OFF
          then ConfKey.ALARM2_MINUTE else ConfKey.ALARM1_MINUTE) = dec_to_bcd (uint8 kept.min) ∧
      conf_get r.env (if state = STATE_STOPPING ∨ state = STATE_OFF
          then ConfKey.ALARM2_HOUR else ConfKey.ALARM1_HOUR) = dec_to_bcd (uint8 kept.hour) ∧
      conf_get r.env (if state = STATE_STOPPING ∨ state = STATE_OFF
          then ConfKey.ALARM2_DAY else ConfKey.ALARM1_DAY) = dec_to_bcd (uint8 kept.day) := by
  obtain ⟨t_up, t_down, hfound, henv⟩ := load_script_success fuel state disk e r hr hres
  refine ⟨_, _, _, _, _, t_up, t_down, hfound, rfl, rfl, rfl, rfl, rfl, ?_⟩
  by_cases hs : state = STATE_STOPPING ∨ state = STATE_OFF
  · simp only [hs, if_true] at henv ⊢
    obtain ⟨_, c1, c2, c3, c4, c5, c6, c7, c8⟩ := configure_action_other_alarm state
      (set_alarm_for_action state e ⟨true, (adjust_action_time_for_dst e t_up).1⟩).1
      ⟨false, t_down⟩ (Or.inl ⟨hs, rfl⟩)
    simp only [Bool.false_eq_true, if_false] at c5 c6 c7 c8
    rw [henv, c1, c2, c3, c4]
    refine ⟨?_, c5, c6, c7, c8⟩
    intro hv
    obtain ⟨y, _, hy, _⟩ := set_alarm_for_action_rearms state e
      ⟨true, (adjust_action_time_for_dst e t_up).1⟩ (Or.inl ⟨hs, rfl⟩) hv
    rw [hy]
    exact rtc_set_alarm_registers _ _ _ _ _
  · have hs2 : state = STATE_STARTING ∨ state = STATE_ON := by
      rcases hstate with h | h | h | h
      · exact absurd (Or.inr h) hs
      · exact absurd (Or.inl h) hs
      · exact Or.inl h
      · exact Or.inr h
    simp only [hs, if_false] at henv ⊢
    obtain ⟨_, c1, c2, c3, c4, c5, c6, c7, c8⟩ := configure_action_other_alarm state
      (set_alarm_for_action state e ⟨false, (adjust_action_time_for_dst e t_down).1⟩).1
      ⟨true, t_up⟩ (Or.inr ⟨hs2, rfl⟩)
    simp only [if_true] at c5 c6 c7 c8
    rw [henv, c1, c2, c3, c4]
    refine ⟨?_, c5, c6, c7, c8⟩
    intro hv
    obtain ⟨y, _, hy, _⟩ := set_alarm_for_action_rearms state e
      ⟨false, (adjust_action_time_for_dst e t_down).1⟩ (Or.inr ⟨hs2, rfl⟩) hv
    rw [hy]
    have h4 := rtc_set_alarm_registers y
      (rearmed_time e (timestamp_to_datetime (int64 (adjust_action_time_for_dst e t_down).1))).day
      (rearmed_time e (timestamp_to_datetime (int64 (adjust_action_time_for_dst e t_down).1))).hour
      (rearmed_time e (timestamp_to_datetime (int64 (adjust_action_time_for_dst e t_down).1))).min
      false
    simpa using h4

set_option maxRecDepth 1000000 in
/-- C22 on a run in which the DST adjustment moves the startup: with the host
OFF, the clock at 2024-03-01 12:00:00, the DST interval beginning on 10 March
and an action list of a startup on 2024-03-15 at 08:00:00 and a shutdown at
20:00:00, `load_script(true)` succeeds and selects this pair; the startup
adjusted once is 2024-03-15 08:01:00 (the offset of 60 is added as seconds),
which is what `set_alarm_for_action` writes to the clock and to the ALARM1
items; the write of the items runs `on_alarm_conf_changed`, which adjusts the
time a second time and leaves 08:02 in the alarm registers. The tag is
STARTUP and the ALARM2 items hold the shutdown unadjusted. With the host ON
and the two actions exchanged the shutdown is adjusted twice in the same
way. Without a DST rule the registers hold the startup, 08:00. -/
theorem load_script_adjusts_twice_witness :
    (convert_act_to_skd disk_march).1.skd
      = some "# Converted from .act script\n\nU763804800\nD763848000\n".toList ∧
    adjust_action_time_for_dst dst_env_march 763804800 = (763804860, true) ∧
    timestamp_to_datetime 763804800 = ⟨2024, 3, 15, 8, 0, 0, 5⟩ ∧
    timestamp_to_datetime 763804860 = ⟨2024, 3, 15, 8, 1, 0, 5⟩ ∧
    rearmed_time dst_env_march ⟨2024, 3, 15, 8, 1, 0, 5⟩ = ⟨2024, 4, 15, 8, 2, 0, 1⟩ ∧
    loaded_alarms (load_script 0 true STATE_OFF disk_march dst_env_march)
      = some (true, ALARM_TYPE_STARTUP, [0x15, 0x08, 0x02], [0x00, 0x01, 0x08, 0x15],
          [0x00, 0x00, 0x20, 0x15]) ∧
    loaded_alarms (load_script 0 true STATE_ON disk_march_down_first dst_env_march)
      = some (true, ALARM_TYPE_SHUTDOWN, [0x15, 0x08, 0x02], [0x00, 0x00, 0x20, 0x15],
          [0x00, 0x01, 0x08, 0x15]) ∧
    loaded_alarms (load_script 0 true STATE_OFF disk_march
        { dst_env_march with conf := default_config })
      = some (true, ALARM_TYPE_STARTUP, [0x15, 0x08, 0x00], [0x00, 0x00, 0x08, 0x15],
          [0x00, 0x00, 0x20, 0x15]) ∧
    ∃ startup shutdown once twice kept : DateTime, ∃ t_up t_down : Int,
      find_next_actions_from_skd loaded_march.disk.skd
          (uint64 (rtc_get_timestamp dst_env_march).1)
          (decide (STATE_OFF = STATE_STOPPING ∨ STATE_OFF = STATE_OFF)) ⟨false, 0⟩ ⟨false, 0⟩
        = (true, ⟨true, t_up⟩, ⟨false, t_down⟩) ∧
      startup = timestamp_to_datetime (int64 t_up) ∧
      shutdown = timestamp_to_datetime (int64 t_down) ∧
      once = timestamp_to_datetime (int64 (adjust_action_time_for_dst dst_env_march
        (if STATE_OFF = STATE_STOPPING ∨ STATE_OFF = STATE_OFF then t_up else t_down)).1) ∧
      twice = rearmed_time dst_env_march once ∧
      kept = (if STATE_OFF = STATE_STOPPING ∨ STATE_OFF = STATE_OFF then shutdown else startup) ∧
      (once.valid →
        loaded_march.env.reg_alarm_daydate
          = (if twice.day ≥ 0 then dec_to_bcd (uint8 twice.day) else AE_MASK) ∧
        loaded_march.env.reg_alarm_hours
          = (if twice.hour ≥ 0 then dec_to_bcd (uint8 twice.hour) else AE_MASK) ∧
        loaded_march.env.reg_alarm_minutes
          = (if twice.min ≥ 0 then dec_to_bcd (uint8 twice.min) else AE_MASK) ∧
        (twice.day ≠ 0 ∨ twice.hour ≠ 0 ∨ twice.min ≠ 0 →
          loaded_march.env.alarm_type = if STATE_OFF = STATE_STOPPING ∨ STATE_OFF = STATE_OFF
            then ALARM_TYPE_STARTUP else ALARM_TYPE_SHUTDOWN)) ∧
      conf_get loaded_march.env (if STATE_OFF = STATE_STOPPING ∨ STATE_OFF = STATE_OFF
          then ConfKey.ALARM2_SECOND else ConfKey.ALARM1_SECOND) = dec_to_bcd (uint8 kept.sec) ∧
      conf_get loaded_march.env (if STATE_OFF = STATE_STOPPING ∨ STATE_OFF = STATE_OFF
          then ConfKey.ALARM2_MINUTE else ConfKey.ALARM1_MINUTE) = dec_to_bcd (uint8 kept.min) ∧
      conf_get loaded_march.env (if STATE_OFF = STATE_STOPPING ∨ STATE_OFF = STATE_OFF
          then ConfKey.ALARM2_HOUR else ConfKey.ALARM1_HOUR) = dec_to_bcd (uint8 kept.hour) ∧
      conf_get loaded_march.env (if STATE_OFF = STATE_STOPPING ∨ STATE_OFF = STATE_OFF
          then ConfKey.ALARM2_DAY else ConfKey.ALARM1_DAY) = dec_to_bcd (uint8 kept.day) :=
  ⟨by decide, by decide, by decide, by decide, by decide, by decide, by decide, by decide,
    load_script_adjusts_twice 0 STATE_OFF disk_march dst_env_march loaded_march
      (by
        have h : (load_script 0 true STATE_OFF disk_march dst_env_march).isSome = true := by
          decide
        unfold loaded_march
        cases h2 : load_script 0 true STATE_OFF disk_march dst_env_march with
        | none => rw [h2] at h; exact Bool.noConfusion h
        | some r => rfl)
      (by decide) (Or.inl rfl)⟩

end WittyPi
